import Mathlib

/-!
CernVM WebAPI daemon: connection and session orchestration.

A shallow embedding of `DaemonConnection` (`src/daemon_connection.cpp`,
`src/daemon_connection.h`) and `CVMWebAPISession`
(`src/components/CVMWebAPISession.cpp`).

Conventions of the embedding.

* Imperative code is written in explicit state-passing style over `State`
  (the daemon core, one connection, and the list `out` of everything the code
  has emitted or called so far, oldest first).
* Code that lives outside these three files (hypervisor driver, keystore,
  download provider, user interaction, JSON reader, `DaemonCore` helpers) is
  not interpreted.  A call into it is recorded in `out` as `Ev.call _` and its
  outcome is read from an environment record (`RequestEnv`, `InstallEnv`, ...),
  one field per call site.  An outcome is a `Call α`: the call returns a value
  or throws.  A collaborator that is handed `userInteraction`
  (`hv->waitTillReady`, `installHypervisor`) can raise prompts from inside the
  call; they reach the page through the handlers of the connection and are
  part of `out`, after the call that raised them.
* The connection's transport (`sendEvent`, `reply`, `sendError`,
  `CVMCallbackFw::fire`), the progress tasks, the thread bookkeeping, plain
  field reads and `abortHandled` do not throw.
* C++ `int`/`long` values are `Int`; no arithmetic in the embedded code
  leaves the machine range on the states reachable from the constructor.
* Constants that are defined in headers outside the sources at hand are the
  fields of `Consts`.
-/

set_option autoImplicit false

namespace CernVMWebAPI

/-! ## Basic data -/

/-- Outcome of a call into code outside the orchestration layer. -/
inductive Call (α : Type) where
  | returns (value : α)
  | throws
  deriving DecidableEq

/-- Constants taken from headers that are not part of the sources at hand
(`HVE_*`, `UI_OK`, `SS_RUNNING`, `THROTTLE_*`, ...). -/
structure Consts where
  HVE_OK : Int
  HVE_SCHEDULED : Int
  HVE_ACCESS_DENIED : Int
  HVE_NOT_VALIDATED : Int
  HVE_NOT_TRUSTED : Int
  HVE_USAGE_ERROR : Int
  HVE_QUERY_ERROR : Int
  HVE_PASSWORD_DENIED : Int
  HVE_EXTERNAL_ERROR : Int
  UI_OK : Int
  SS_RUNNING : Int
  THROTTLE_TIMESPAN : Int
  THROTTLE_TRIES : Int
  CVMWA_SESS_APIPORT_DOWN_RETRIES : Int
  HFL_NO_VIRTUALIZATION : Nat
  HSK_HTTP : Int
  EXIF_VIDEO_MODE : Int
  CERNVM_WEBAPI_VERSION : String
  EOL : String
  deriving DecidableEq

/-- Modelled from the spec: `ParameterMap` (libcernvm), the "key-value map with
`contains`/`get`/`set`" of the external interfaces; an association list in
which a key occurs at most once after `set`. -/
structure ParameterMap where
  entries : List (String × String)
  deriving DecidableEq

namespace ParameterMap

def contains (m : ParameterMap) (k : String) : Bool :=
  m.entries.any (fun e => e.1 == k)

def get (m : ParameterMap) (k : String) (defaultValue : String) : String :=
  match m.entries.find? (fun e => e.1 == k) with
  | some e => e.2
  | none => defaultValue

def erase (m : ParameterMap) (k : String) : ParameterMap :=
  ⟨m.entries.filter (fun e => e.1 != k)⟩

def set (m : ParameterMap) (k v : String) : ParameterMap :=
  ⟨(k, v) :: (m.erase k).entries⟩

end ParameterMap

/-- One element of an `ArgumentList`. -/
inductive Variant where
  | str (s : String)
  | int (n : Int)
  | bool (b : Bool)
  deriving DecidableEq

/-- Handle of a hypervisor session (`HVSessionPtr`). -/
structure HVSession where
  uuid : String
  deriving DecidableEq

/-- Operations of the hypervisor driver on one session. -/
inductive DriverOp where
  | start (parameters : ParameterMap)
  | stop
  | pause
  | resume
  | hibernate
  | reset
  | close
  | update (force : Bool)
  | isAPIAlive (kind : Int) (timeoutSec : Int)
  | getExtraInfo (key : Int)
  | getRDPAddress
  | setExecutionCap (cap : Int)
  | setProperty (key value : String)
  deriving DecidableEq

/-- Calls into code outside the orchestration layer, with their arguments. -/
inductive Callee where
  | waitTillReady
  | updateAuthorizedKeystore
  | isDomainValid (domain : String)
  | generateSalt
  | calculateHostID (domain : String)
  | downloadText (url : String)
  | jsonParse (text : String)
  | signatureValidate (domain salt : String) (vmcpData : ParameterMap)
  | sessionValidate (vmcpData : ParameterMap)
  | sessionOpen (vmcpData : ParameterMap)
  | sessionWait
  | checkDaemonNeed
  | storeSession (hvSession : HVSession)
  | abortHandled
  | syncHypervisorReflection
  | authKeyValid (key : String)
  | interactionCallback (result : Int)
  | installHypervisor
  | detectHypervisor
  | loadSessions
  | hvSession (uuid_str : String) (op : DriverOp)
  | abort (wake : Bool)
  | releaseConnectionSessions
  deriving DecidableEq

/-- Payload of a `reply` frame. -/
inductive ReplyData where
  | version (v : String)
  | sessions (list : List (String × String))
  deriving DecidableEq

/-- Everything the code emits or calls, in program order.

* `reply`, `sendError`, `sendEvent`: the three frame kinds of `WebsocketAPI`;
* `fire`: `CVMCallbackFw::fire`, an event tagged with the originating id;
* `stateVariables`: the raw frame written by `sendStateVariables`;
* `progress`: a message handed to the progress task of the event id;
* `call`: a call into a collaborator;
* `periodicJobsEnabled`: the write of `acceptPeriodicJobs` by
  `enablePeriodicJobs`;
* `nullDereference`: use of a null `core.hypervisor`. -/
inductive Ev where
  | reply (id : String) (data : ReplyData)
  | sendError (message id : String)
  | sendEvent (name : String) (args : List Variant) (id : String)
  | fire (eventID name : String) (args : List Variant)
  | stateVariables (id : String) (data : String)
  | progress (eventID message : String)
  | call (c : Callee)
  | periodicJobsEnabled (uuid_str : String) (status : Bool)
  | nullDereference
  deriving DecidableEq

/-- Fields of `CVMWebAPISession` (the SessionRecord) together with the
`parameters` map of its hypervisor session. -/
structure Session where
  uuid : Int
  uuid_str : String
  isAborting : Bool
  acceptPeriodicJobs : Bool
  periodicsRunning : Bool
  apiPortOnline : Bool
  apiPortCounter : Int
  apiPortDownCounter : Int
  parameters : ParameterMap
  deriving DecidableEq

/-- A background thread of a connection: the bound thread function and its
arguments. -/
inductive Worker where
  | requestSession_thread (eventID vmcpURL : String)
  | installHV_andRequestSession_thread (eventID vmcpURL : String)
  | handleAction_thread (session_id : Int) (eventID action : String)
      (parameters : ParameterMap)
  deriving DecidableEq

/-- The part of `core.hypervisor` the connection reads: the result of
`version.compareStr(CERNVM_WEBAPI_MIN_HV_VERSION)`, the version string and the
hypervisor's session table (uuid and `sessionStateInfoToJSON` of each). -/
structure Hypervisor where
  versionCompare : Int
  verString : String
  sessions : List (String × String)
  deriving DecidableEq

/-- Fields of `DaemonCore` used by the connection. -/
structure Core where
  running : Bool
  installInProgress : Bool
  hypervisor : Option Hypervisor
  sessions : List (Int × Session)
  deriving DecidableEq

/-- Fields of `DaemonConnection`. -/
structure Conn where
  domain : String
  privileged : Bool
  installInProgress : Bool
  throttleTimestamp : Int
  throttleDenies : Int
  throttleBlock : Bool
  runningThreads : List Worker
  deriving DecidableEq

/-- State of the constructor `DaemonConnection::DaemonConnection`. -/
def Conn.new (domain : String) : Conn :=
  { domain := domain
    privileged := false
    installInProgress := false
    throttleTimestamp := 0
    throttleDenies := 0
    throttleBlock := false
    runningThreads := [] }

/-- The daemon core, one connection, and what has been emitted so far. -/
structure State where
  core : Core
  conn : Conn
  out : List Ev
  deriving DecidableEq

namespace State

def emit (σ : State) (e : Ev) : State :=
  { σ with out := σ.out ++ [e] }

def emitAll (σ : State) (es : List Ev) : State :=
  { σ with out := σ.out ++ es }

/-- The call `threads::remove_one(runningThreads, thisThread)`. -/
def remove_one (σ : State) (thisThread : Worker) : State :=
  { σ with conn := { σ.conn with runningThreads := σ.conn.runningThreads.erase thisThread } }

/-- The call `runningThreads.push_back(...)`. -/
def push_back (σ : State) (t : Worker) : State :=
  { σ with conn := { σ.conn with runningThreads := σ.conn.runningThreads ++ [t] } }

/-- Write the record `s` under its numeric id in `core.sessions`. -/
def putSession (σ : State) (s : Session) : State :=
  { σ with core := { σ.core with
      sessions := (s.uuid, s) :: σ.core.sessions.filter (fun e => e.1 != s.uuid) } }

end State

/-- How a block of code was left: by `return`, by an exception, or by
reaching its end. -/
inductive Exit where
  | returned
  | thrown
  | completed
  deriving DecidableEq

/-! ## `CVMWebAPISession`: the members used when a session is opened -/

/-- The method `CVMWebAPISession::sendStateVariables`; `info` is the outcome of
`sessionStateInfoToJSON(hvSession)`.  The result is the list of frames sent. -/
def sendStateVariables (s : Session) (info : Call String) : Call (List Ev) :=
  if s.isAborting then .returns []
  else
    match info with
    | .throws => .throws
    | .returns data => .returns [Ev.stateVariables s.uuid_str data]

/-- The method `CVMWebAPISession::enablePeriodicJobs`. -/
def enablePeriodicJobs (s : Session) (status : Bool) : Session × List Ev :=
  if s.isAborting then (s, [])
  else ({ s with acceptPeriodicJobs := status }, [Ev.periodicJobsEnabled s.uuid_str status])

/-! ## `DaemonConnection`: user interaction -/

/-- The handler `DaemonConnection::__callbackConfim`. -/
def __callbackConfim (title body : String) (σ : State) : State :=
  σ.emit (.sendEvent "interact" [.str "confirm", .str title, .str body] "")

/-- The handler `DaemonConnection::__callbackAlert`. -/
def __callbackAlert (title body : String) (σ : State) : State :=
  σ.emit (.sendEvent "interact" [.str "alert", .str title, .str body] "")

/-- The handler `DaemonConnection::__callbackLicense`. -/
def __callbackLicense (title body : String) (σ : State) : State :=
  σ.emit (.sendEvent "interact" [.str "confirmLicense", .str title, .str body] "")

/-- The handler `DaemonConnection::__callbackLicenseURL`. -/
def __callbackLicenseURL (title url : String) (σ : State) : State :=
  σ.emit (.sendEvent "interact" [.str "confirmLicenseURL", .str title, .str url] "")

/-- Modelled from the spec: `UserInteraction::confirm` (libcernvm). "The
Connection turns each into an outgoing `interact` event and blocks the calling
worker until the page replies": the confirm handler of the connection runs,
then the call yields `result`. -/
def confirm (title body : String) (result : Call Int) (σ : State) : Call Int × State :=
  (result, __callbackConfim title body σ)

/-- A prompt that library code raises through the `userInteraction` it was
handed: the handler of the connection that it reaches (the four handlers are
bound in the constructor, `daemon_connection.h` lines 57-61) and the two
strings it passes. -/
inductive Prompt where
  | confirm (title body : String)
  | alert (title body : String)
  | license (title body : String)
  | licenseURL (title url : String)
  deriving DecidableEq

/-- Run the handler of the connection that a prompt reaches. -/
def Prompt.raise : Prompt → State → State
  | .confirm title body, σ => __callbackConfim title body σ
  | .alert title body, σ => __callbackAlert title body σ
  | .license title body, σ => __callbackLicense title body σ
  | .licenseURL title url, σ => __callbackLicenseURL title url σ

/-- Run the handlers for the prompts of a list, in order. -/
def raiseAll : List Prompt → State → State
  | [], σ => σ
  | p :: ps, σ => raiseAll ps (p.raise σ)

/-! ## `DaemonConnection::requestSession_thread` -/

/-- Outcomes of the calls that one run of `requestSession_thread` makes, one
field per call site, in program order. -/
structure RequestEnv where
  /-- Line 446: the prompts that `hv->waitTillReady(...)` raises through the
  `userInteraction` it is handed, in order. -/
  waitTillReadyPrompts : List Prompt
  /-- Line 446: `hv->waitTillReady(...)`. -/
  waitTillReady : Call Unit
  /-- Line 450: `userInteraction->aborted`. -/
  abortedAfterReady : Bool
  /-- Line 462: `core.keystore.updateAuthorizedKeystore(...)`. -/
  updateAuthorizedKeystore : Call Int
  /-- Line 465: `core.keystore.valid`. -/
  keystoreValid : Bool
  /-- Line 472: `core.keystore.isDomainValid(domain)`. -/
  isDomainValid : Call Bool
  /-- Line 486: `core.keystore.generateSalt()`. -/
  generateSalt : Call String
  /-- Line 492: `core.calculateHostID(domain)`. -/
  calculateHostID : Call String
  /-- Line 496: `downloadText(newURL, &jsonString)`: return code and text. -/
  downloadText : Call (Int × String)
  /-- Lines 509 and 526: `jsonReader.parse` followed by `fromJSON`, which is
  taken not to throw; `none` is `parsingSuccessful == false`, `throws` is a
  `std::exception` thrown by `parse`. -/
  jsonParse : Call (Option ParameterMap)
  /-- Line 551: `core.keystore.signatureValidate(domain, salt, vmcpData)`. -/
  signatureValidate : Call Int
  /-- Line 567: `hv->sessionValidate(vmcpData)`. -/
  sessionValidate : Call Int
  /-- Line 585: `core.get_hv_name()`. -/
  get_hv_name : String
  /-- Line 588: result of `userInteraction->confirm(...)`. -/
  confirm : Call Int
  /-- Line 592: `userInteraction->aborted`. -/
  abortedAfterConfirm : Bool
  /-- Line 599: `getMillis()`. -/
  getMillis : Int
  /-- Line 604: `getMillis()`. -/
  getMillisAgain : Int
  /-- Line 631: `hv->sessionOpen(vmcpData, pOpen)`; `none` is a null session. -/
  sessionOpen : Call (Option HVSession)
  /-- Line 639: `session->wait()`. -/
  sessionWait : Call Unit
  /-- Line 645: `hv->checkDaemonNeed()`. -/
  checkDaemonNeed : Call Unit
  /-- Line 648: the record returned by `core.storeSession(*this, session)`. -/
  storeSession : Call Session
  /-- Line 654: `sessionStateInfoToJSON(hvSession)` inside `sendStateVariables`. -/
  sessionStateInfoToJSON : Call String
  /-- Line 657: `session->local->getNum<int>("state", 0)`. -/
  localState : Int

/-- The frame `cb.fire("failed", ArgumentList(message)(code))`. -/
def failed (eventID message : String) (code : Int) : Ev :=
  .fire eventID "failed" [.str message, .int code]

/-- Lines 598-605: throttle accounting after a denial. -/
def manageThrottling (K : Consts) (E : RequestEnv) (c : Conn) : Conn :=
  if E.getMillis - c.throttleTimestamp ≤ K.THROTTLE_TIMESPAN then
    let denies := c.throttleDenies + 1
    if denies ≥ K.THROTTLE_TRIES then
      { c with throttleDenies := denies, throttleBlock := true }
    else
      { c with throttleDenies := denies }
  else
    { c with throttleDenies := 1, throttleTimestamp := E.getMillisAgain }

/-- Lines 650-661 on the record returned by `storeSession`: fire success, send
the state variables, send `stateChanged`, enable the periodic jobs.  The
result is the way the block was left, the record, and what was emitted. -/
def initialPush (E : RequestEnv) (eventID : String) (cvmSession : Session) :
    Exit × Session × List Ev :=
  -- Completed
  let succeed := Ev.fire eventID "succeed"
    [.str "Session open successfully", .int cvmSession.uuid]
  -- Send state variables
  match sendStateVariables cvmSession E.sessionStateInfoToJSON with
  | .throws => (.thrown, cvmSession, [succeed])
  | .returns frames =>
    -- Send state changed message
    let stateChanged := Ev.sendEvent "stateChanged" [.int E.localState] cvmSession.uuid_str
    -- Enable periodic jobs thread after stateChanged is sent
    let r := enablePeriodicJobs cvmSession true
    (.completed, r.1, [succeed] ++ frames ++ [stateChanged] ++ r.2)

/-- Lines 627-661: open the session, register it, push. -/
def stageOpen (K : Consts) (E : RequestEnv) (thisThread : Worker) (eventID : String)
    (vmcpData : ParameterMap) (σ : State) : Exit × State :=
  let σ := σ.emit (.progress eventID "Open session")
  -- Open/resume session
  let σ := σ.emit (.call (.sessionOpen vmcpData))
  match E.sessionOpen with
  | .throws => (.thrown, σ)
  | .returns none =>
    (.returned,
      (σ.emit (failed eventID "Unable to open session" K.HVE_ACCESS_DENIED)).remove_one thisThread)
  | .returns (some session) =>
    -- Wait until session FSM has routed itself accordingly
    let σ := σ.emit (.call .sessionWait)
    match E.sessionWait with
    | .throws => (.thrown, σ)
    | .returns _ =>
      let σ := σ.emit (.progress eventID "Session open successfully")
      -- Check if we need a daemon for our current services
      let σ := σ.emit (.call .checkDaemonNeed)
      match E.checkDaemonNeed with
      | .throws => (.thrown, σ)
      | .returns _ =>
        -- Register session on store
        let σ := σ.emit (.call (.storeSession session))
        match E.storeSession with
        | .throws => (.thrown, σ)
        | .returns cvmSession =>
          let r := initialPush E eventID cvmSession
          (r.1, (σ.putSession r.2.1).emitAll r.2.2)

/-- Lines 577-621: prompt the user when the session is new (`res == 0`). -/
def stageConsent (K : Consts) (E : RequestEnv) (thisThread : Worker) (eventID : String)
    (vmcpData : ParameterMap) (res : Int) (σ : State) : Exit × State :=
  let σ := σ.emit (.progress eventID "Validating request")
  if res = 0 then
    let σ := σ.emit (.progress eventID "Session is new, asking user for confirmation")
    let msg := "The website " ++ σ.conn.domain ++ " is trying to allocate a " ++ E.get_hv_name
      ++ " Virtual Machine \"" ++ vmcpData.get "name" ""
      ++ "\". This website is validated and trusted by CernVM." ++ K.EOL ++ K.EOL
      ++ "Do you want to continue?"
    -- Prompt user using the currently active userInteraction
    let r := confirm "New CernVM WebAPI Session" msg E.confirm σ
    match r.1 with
    | .throws => (.thrown, r.2)
    | .returns answer =>
      if answer ≠ K.UI_OK then
        -- Check if user navigated away with the interaction prompt in place
        if E.abortedAfterConfirm then
          (.returned, (r.2.remove_one thisThread).emit (.call .abortHandled))
        else
          -- Manage throttling
          let σ := { r.2 with conn := manageThrottling K E r.2.conn }
          -- Fire error
          (.returned,
            (σ.emit (failed eventID "User denied the allocation of new session"
              K.HVE_ACCESS_DENIED)).remove_one thisThread)
      else
        -- Reset throttle
        let σ := { r.2 with conn := { r.2.conn with throttleDenies := 0, throttleTimestamp := 0 } }
        stageOpen K E thisThread eventID vmcpData (σ.emit (.progress eventID "Request validated"))
  else
    stageOpen K E thisThread eventID vmcpData (σ.emit (.progress eventID "Request validated"))

/-- Lines 564-573: check the session state. -/
def stageValidate (K : Consts) (E : RequestEnv) (thisThread : Worker) (eventID : String)
    (vmcpData : ParameterMap) (σ : State) : Exit × State :=
  let σ := σ.emit (.call (.sessionValidate vmcpData))
  match E.sessionValidate with
  | .throws => (.thrown, σ)
  | .returns res =>
    if res = 2 then
      -- Invalid password
      (.returned,
        (σ.emit (failed eventID "The password specified is invalid for this session"
          K.HVE_PASSWORD_DENIED)).remove_one thisThread)
    else
      stageConsent K E thisThread eventID vmcpData res σ

/-- Lines 550-560: validate the signature. -/
def stageSignature (K : Consts) (E : RequestEnv) (thisThread : Worker) (eventID : String)
    (salt : String) (vmcpData : ParameterMap) (σ : State) : Exit × State :=
  let σ := σ.emit (.call (.signatureValidate σ.conn.domain salt vmcpData))
  match E.signatureValidate with
  | .throws => (.thrown, σ)
  | .returns res =>
    if res < 0 then
      (.returned,
        (σ.emit (failed eventID "The VMCP response signature could not be validated"
          res)).remove_one thisThread)
    else
      stageValidate K E thisThread eventID vmcpData
        (σ.emit (.progress eventID "Obtained information from VMCP endpoint"))

/-- Lines 528-548: validate the response. -/
def stageSchema (K : Consts) (E : RequestEnv) (thisThread : Worker) (eventID : String)
    (salt : String) (vmcpData : ParameterMap) (σ : State) : Exit × State :=
  if !vmcpData.contains "name" then
    (.returned,
      (σ.emit (failed eventID "Missing 'name' parameter from the VMCP response"
        K.HVE_USAGE_ERROR)).remove_one thisThread)
  else if !vmcpData.contains "secret" then
    (.returned,
      (σ.emit (failed eventID "Missing 'secret' parameter from the VMCP response"
        K.HVE_USAGE_ERROR)).remove_one thisThread)
  else if !vmcpData.contains "signature" then
    (.returned,
      (σ.emit (failed eventID "Missing 'signature' parameter from the VMCP response"
        K.HVE_USAGE_ERROR)).remove_one thisThread)
  else if vmcpData.contains "diskURL" && !vmcpData.contains "diskChecksum" then
    (.returned,
      (σ.emit (failed eventID
        "A 'diskURL' was specified, but no 'diskChecksum' was found in the VMCP response"
        K.HVE_USAGE_ERROR)).remove_one thisThread)
  else
    stageSignature K E thisThread eventID salt vmcpData σ

/-- Lines 503-526: parse the downloaded text. -/
def stageParse (K : Consts) (E : RequestEnv) (thisThread : Worker) (eventID : String)
    (salt jsonString : String) (σ : State) : Exit × State :=
  let σ := σ.emit (.progress eventID "Validating VMCP data")
  -- Try to parse the data
  let σ := σ.emit (.call (.jsonParse jsonString))
  match E.jsonParse with
  | .throws =>
    (.returned,
      (σ.emit (failed eventID "Unable to parse response data as JSON"
        K.HVE_QUERY_ERROR)).remove_one thisThread)
  | .returns none =>
    (.returned,
      (σ.emit (failed eventID "Unable to parse response data as JSON"
        K.HVE_QUERY_ERROR)).remove_one thisThread)
  | .returns (some vmcpData) =>
    stageSchema K E thisThread eventID salt vmcpData σ

/-- Lines 488-492: the URL handed to the download provider. -/
def newURL (vmcpURL salt hostID : String) : String :=
  let glueChar := if vmcpURL.toList.contains '?' then "&" else "?"
  vmcpURL ++ glueChar ++ "cvm_salt=" ++ salt ++ "&" ++ "cvm_hostid=" ++ hostID

/-- Lines 482-501: contact the VMCP endpoint. -/
def stageFetch (K : Consts) (E : RequestEnv) (thisThread : Worker) (eventID vmcpURL : String)
    (σ : State) : Exit × State :=
  let σ := σ.emit (.progress eventID "Contacting the VMCP endpoint")
  -- Put salt and user-specific ID in the URL
  let σ := σ.emit (.call .generateSalt)
  match E.generateSalt with
  | .throws => (.thrown, σ)
  | .returns salt =>
    let σ := σ.emit (.call (.calculateHostID σ.conn.domain))
    match E.calculateHostID with
    | .throws => (.thrown, σ)
    | .returns hostID =>
      -- Download data from URL
      let σ := σ.emit (.call (.downloadText (newURL vmcpURL salt hostID)))
      match E.downloadText with
      | .throws => (.thrown, σ)
      | .returns (res, jsonString) =>
        if res < 0 then
          (.returned,
            (σ.emit (failed eventID "Unable to contact the VMCP endpoint" res)).remove_one
              thisThread)
        else
          stageParse K E thisThread eventID salt jsonString σ

/-- Lines 458-478: refresh the keystore and gate on the domain. -/
def stageKeystore (K : Consts) (E : RequestEnv) (thisThread : Worker)
    (eventID vmcpURL : String) (σ : State) : Exit × State :=
  let σ := σ.emit (.progress eventID "Initializing crypto store")
  -- Trigger update in the keystore (if it's necessary)
  let σ := σ.emit (.call .updateAuthorizedKeystore)
  match E.updateAuthorizedKeystore with
  | .throws => (.thrown, σ)
  | .returns _ =>
    -- Still invalid? Something's wrong
    if !E.keystoreValid then
      (.returned,
        (σ.emit (failed eventID "Unable to initialize cryptographic store"
          K.HVE_NOT_VALIDATED)).remove_one thisThread)
    else
      -- Block requests from untrusted domains
      let σ := σ.emit (.call (.isDomainValid σ.conn.domain))
      match E.isDomainValid with
      | .throws => (.thrown, σ)
      | .returns valid =>
        if !valid then
          (.returned,
            (σ.emit (failed eventID "The domain is not trusted"
              K.HVE_NOT_TRUSTED)).remove_one thisThread)
        else
          stageFetch K E thisThread eventID vmcpURL
            (σ.emit (.progress eventID "Crypto store initialized"))

/-- Lines 431-454: progress set-up and delayed hypervisor initiation.  The
prompts that `waitTillReady` raises reach the page while the call runs,
whether it returns or throws. -/
def stageReady (K : Consts) (E : RequestEnv) (thisThread : Worker)
    (eventID vmcpURL : String) (σ : State) : Exit × State :=
  let σ := σ.emit (.progress eventID "Preparing for session request")
  let σ := σ.emit (.progress eventID "Initializing hypervisor")
  -- Wait for delayed hypervisor initiation
  let σ := σ.emit (.call .waitTillReady)
  let σ := raiseAll E.waitTillReadyPrompts σ
  match E.waitTillReady with
  | .throws => (.thrown, σ)
  | .returns _ =>
    -- Check if user navigated away with the interaction prompt in place
    if E.abortedAfterReady then
      (.returned, (σ.remove_one thisThread).emit (.call .abortHandled))
    else
      stageKeystore K E thisThread eventID vmcpURL σ

/-- Lines 663-672: the `catch (...)` handler and the final `remove_one`,
applied to the way the `try` block was left. -/
def requestSession_catch (K : Consts) (thisThread : Worker) (eventID : String) :
    Exit × State → State
  | (.returned, σ) => σ
  | (.thrown, σ) =>
    -- Raise failure
    (σ.emit (failed eventID "Unexpected exception occured while requesting session"
      K.HVE_EXTERNAL_ERROR)).remove_one thisThread
  | (.completed, σ) => σ.remove_one thisThread

/-- The thread function `DaemonConnection::requestSession_thread`. -/
def requestSession_thread (K : Consts) (E : RequestEnv) (thisThread : Worker)
    (eventID vmcpURL : String) (σ : State) : State :=
  -- Block requests when reached throttled state
  if σ.conn.throttleBlock then
    (σ.emit (failed eventID "Request denied by throttle protection"
      K.HVE_ACCESS_DENIED)).remove_one thisThread
  else
    requestSession_catch K thisThread eventID (stageReady K E thisThread eventID vmcpURL σ)

/-! ## `CVMWebAPISession` -/

/-- Outcomes of the calls made by one `CVMWebAPISession::handleAction`. -/
structure SessionEnv where
  /-- Return code of the driver operation of a lifecycle verb. -/
  ret : Call Int
  /-- The call `sessionStateInfoToJSON(hvSession)` inside `sendStateVariables`. -/
  sessionStateInfoToJSON : Call String
  /-- Lines 163-164: `hvSession->local->get("apiHost", "")`, `get("apiPort", "")`. -/
  apiHost : String
  apiPort : String
  /-- Line 169: `hvSession->getExtraInfo(EXIF_VIDEO_MODE)`. -/
  getExtraInfo : String
  /-- Line 170: `hvSession->getRDPAddress()`. -/
  getRDPAddress : String
  /-- The conversion `ston<int>`. -/
  ston : String → Int

/-- Lines 38-48 and the six blocks of the same shape: report the return code
of a lifecycle verb, then send the state variables. -/
def lifecycle (K : Consts) (S : SessionEnv) (eventID : String) (op : DriverOp)
    (scheduled ok bad : String) (s : Session) : Exit × Session × List Ev :=
  match S.ret with
  | .throws => (.thrown, s, [.call (.hvSession s.uuid_str op)])
  | .returns ret =>
    let reply :=
      if ret = K.HVE_SCHEDULED then Ev.fire eventID "succeed" [.str scheduled]
      else if ret = K.HVE_OK then Ev.fire eventID "succeed" [.str ok]
      else Ev.fire eventID "failed" [.str bad, .int ret]
    -- Send state variables in case they were modified by hypervisor code
    match sendStateVariables s S.sessionStateInfoToJSON with
    | .throws => (.thrown, s, [.call (.hvSession s.uuid_str op), reply])
    | .returns frames => (.completed, s, [.call (.hvSession s.uuid_str op), reply] ++ frames)

/-- The method `CVMWebAPISession::handleAction`; `eventID` is the id bound in
the callback forwarder `cb`. -/
def Session.handleAction (K : Consts) (S : SessionEnv) (eventID action : String)
    (parameters : ParameterMap) (s : Session) : Exit × Session × List Ev :=
  if s.isAborting then (.returned, s, [])
  else if action = "start" then
    lifecycle K S eventID (.start parameters) "Session will start promptly"
      "Session started successfully" "Unable to start session" s
  else if action = "stop" then
    lifecycle K S eventID .stop "Session will stop promptly"
      "Session stoped successfully" "Unable to stop session" s
  else if action = "pause" then
    lifecycle K S eventID .pause "Session will pause promptly"
      "Session paused successfully" "Unable to pause session" s
  else if action = "resume" then
    lifecycle K S eventID .resume "Session will resume promptly"
      "Session resumed successfully" "Unable to resume session" s
  else if action = "hibernate" then
    lifecycle K S eventID .hibernate "Session will hibernate promptly"
      "Session hibernated successfully" "Unable to hibernate session" s
  else if action = "reset" then
    lifecycle K S eventID .reset "Session will reset promptly"
      "Session resetd successfully" "Unable to reset session" s
  else if action = "close" then
    lifecycle K S eventID .close "Session will close promptly"
      "Session closed successfully" "Unable to close session" s
  else if action = "sync" then
    -- When synchronized, get the state variables
    match sendStateVariables s S.sessionStateInfoToJSON with
    | .throws => (.thrown, s, [])
    | .returns frames => (.completed, s, frames)
  else if action = "get" then
    let keyName := parameters.get "key" ""
    -- Reply only to known key values
    let keyValue :=
      if keyName = "apiURL" then "http://" ++ S.apiHost ++ ":" ++ S.apiPort ++ "/"
      else if keyName = "rdpURL" then S.getRDPAddress ++ "@" ++ S.getExtraInfo
      else if keyName = "ip" then s.parameters.get "ip" ""
      else if keyName = "cpus" then s.parameters.get "cpus" "1"
      else if keyName = "disk" then s.parameters.get "disk" "1024"
      else if keyName = "memory" then s.parameters.get "memory" "512"
      else if keyName = "cernvmVersion" then s.parameters.get "cernvmVersion" "1.17-11"
      else if keyName = "cernvmFlavor" then s.parameters.get "cernvmFlavor" "prod"
      else if keyName = "executionCap" then s.parameters.get "executionCap" "prod"
      else if keyName = "flags" then s.parameters.get "flags" "0"
      else ""
    -- Return value
    (.completed, s, [.fire eventID "succeed" [.str keyValue]])
  else if action = "set" then
    let keyName := parameters.get "key" ""
    let keyValue := parameters.get "value" ""
    -- Update only particular variables
    if keyName = "cpus" then
      (.completed, { s with parameters := s.parameters.set "cpus" keyValue },
        [.fire eventID "succeed" [.int 1]])
    else if keyName = "disk" then
      (.completed, { s with parameters := s.parameters.set "disk" keyValue },
        [.fire eventID "succeed" [.int 1]])
    else if keyName = "memory" then
      (.completed, { s with parameters := s.parameters.set "memory" keyValue },
        [.fire eventID "succeed" [.int 1]])
    else if keyName = "cernvmVersion" then
      (.completed, { s with parameters := s.parameters.set "cernvmVersion" keyValue },
        [.fire eventID "succeed" [.int 1]])
    else if keyName = "cernvmFlavor" then
      (.completed, { s with parameters := s.parameters.set "cernvmFlavor" keyValue },
        [.fire eventID "succeed" [.int 1]])
    else if keyName = "executionCap" then
      -- Try to apply execution cap right-away
      (.completed, { s with parameters := s.parameters.set "executionCap" keyValue },
        [.call (.hvSession s.uuid_str (.setExecutionCap (S.ston keyValue))),
         .fire eventID "succeed" [.int 1]])
    else if keyName = "flags" then
      (.completed, { s with parameters := s.parameters.set "flags" keyValue },
        [.fire eventID "succeed" [.int 1]])
    else
      (.completed, s, [.fire eventID "succeed" [.int 1]])
  else if action = "setProperty" then
    let keyName := parameters.get "key" ""
    let keyValue := parameters.get "value" ""
    -- Update property
    (.completed, s,
      [.call (.hvSession s.uuid_str (.setProperty keyName keyValue)),
       .fire eventID "succeed" [.int 1]])
  else (.completed, s, [])

/-- What one monitor tick reads from the hypervisor session. -/
structure TickEnv where
  /-- Line 310: `hvSession->update(false)`; `throws` is one of the two
  exceptions caught at lines 363 and 369. -/
  update : Call Unit
  /-- Line 313: `hvSession->local->getNum<int>("state", 0)`. -/
  sessionState : Int
  /-- Lines 314-315: `get("apiHost", "127.0.0.1")`, `get("apiPort", "80")`. -/
  apiHost : String
  apiPort : String
  /-- Line 322: `hvSession->isAPIAlive(HSK_HTTP, 1)`. -/
  isAPIAliveShort : Call Bool
  /-- Line 336: `hvSession->isAPIAlive(HSK_HTTP, 10)`. -/
  isAPIAliveLong : Call Bool

/-- The frame `apiStateChanged(online, apiURL)` of session `uuid_str`. -/
def apiStateChanged (online : Bool) (apiURL uuid_str : String) : Ev :=
  .sendEvent "apiStateChanged" [.bool online, .str apiURL] uuid_str

/-- The thread function `CVMWebAPISession::periodicJobsThread`. -/
def periodicJobsThread (K : Consts) (T : TickEnv) (s : Session) : Session × List Ev :=
  if s.isAborting then (s, [])
  else
    -- Synchronize session state with VirtualBox (or file)
    match T.update with
    | .throws => ({ s with periodicsRunning := false }, [.call (.hvSession s.uuid_str (.update false))])
    | .returns _ =>
      -- Check for API port state
      let apiURL := "http://" ++ T.apiHost ++ ":" ++ T.apiPort
      if T.sessionState = K.SS_RUNNING then
        if !s.apiPortOnline then
          -- Check if API port has gone online
          match T.isAPIAliveShort with
          | .throws =>
            ({ s with periodicsRunning := false },
              [.call (.hvSession s.uuid_str (.update false)),
               .call (.hvSession s.uuid_str (.isAPIAlive K.HSK_HTTP 1))])
          | .returns newState =>
            if newState then
              ({ s with apiPortOnline := true, apiPortDownCounter := 0, apiPortCounter := 0,
                        periodicsRunning := false },
                [.call (.hvSession s.uuid_str (.update false)),
                 .call (.hvSession s.uuid_str (.isAPIAlive K.HSK_HTTP 1)),
                 apiStateChanged true apiURL s.uuid_str])
            else
              ({ s with periodicsRunning := false },
                [.call (.hvSession s.uuid_str (.update false)),
                 .call (.hvSession s.uuid_str (.isAPIAlive K.HSK_HTTP 1))])
        else
          -- Still check for API port going offline
          if s.apiPortCounter + 1 > 10 then
            -- Check for offline port
            match T.isAPIAliveLong with
            | .throws =>
              ({ s with apiPortCounter := s.apiPortCounter + 1, periodicsRunning := false },
                [.call (.hvSession s.uuid_str (.update false)),
                 .call (.hvSession s.uuid_str (.isAPIAlive K.HSK_HTTP 10))])
            | .returns alive =>
              if !alive then
                if s.apiPortDownCounter + 1 ≥ K.CVMWA_SESS_APIPORT_DOWN_RETRIES then
                  ({ s with apiPortDownCounter := s.apiPortDownCounter + 1,
                            apiPortOnline := false, apiPortCounter := 0,
                            periodicsRunning := false },
                    [.call (.hvSession s.uuid_str (.update false)),
                     .call (.hvSession s.uuid_str (.isAPIAlive K.HSK_HTTP 10)),
                     apiStateChanged false apiURL s.uuid_str])
                else
                  ({ s with apiPortDownCounter := s.apiPortDownCounter + 1,
                            apiPortCounter := 0, periodicsRunning := false },
                    [.call (.hvSession s.uuid_str (.update false)),
                     .call (.hvSession s.uuid_str (.isAPIAlive K.HSK_HTTP 10))])
              else
                ({ s with apiPortDownCounter := 0, apiPortCounter := 0,
                          periodicsRunning := false },
                  [.call (.hvSession s.uuid_str (.update false)),
                   .call (.hvSession s.uuid_str (.isAPIAlive K.HSK_HTTP 10))])
          else
            ({ s with apiPortCounter := s.apiPortCounter + 1, periodicsRunning := false },
              [.call (.hvSession s.uuid_str (.update false))])
      else
        if s.apiPortOnline then
          -- In any other state, the port is just offline
          ({ s with apiPortOnline := false, apiPortDownCounter := 0, apiPortCounter := 0,
                    periodicsRunning := false },
            [.call (.hvSession s.uuid_str (.update false)),
             apiStateChanged false apiURL s.uuid_str])
        else
          ({ s with periodicsRunning := false },
            [.call (.hvSession s.uuid_str (.update false))])

/-- The method `CVMWebAPISession::processPeriodicJobs`: the gate in front of
the monitor thread, followed by the run of the thread it starts. -/
def processPeriodicJobs (K : Consts) (T : TickEnv) (s : Session) : Session × List Ev :=
  if s.isAborting then (s, [])
  else if !s.acceptPeriodicJobs then (s, [])
  else if s.periodicsRunning then (s, [])
  else periodicJobsThread K T s

/-- What a hypervisor callback reads besides its arguments. -/
structure CallbackEnv where
  /-- The call `sessionStateInfoToJSON(hvSession)` inside `sendStateVariables`. -/
  sessionStateInfoToJSON : Call String
  /-- Lines 413-414: `get("apiHost", "127.0.0.1")`, `get("apiPort", "80")`. -/
  apiHost : String
  apiPort : String

/-- The expression `boost::get<int>(args[0])`; `none` when it throws. -/
def getInt : List Variant → Option Int
  | .int n :: _ => some n
  | _ => none

/-- The callback `CVMWebAPISession::__cbStateChanged`. -/
def __cbStateChanged (K : Consts) (C : CallbackEnv) (args : List Variant) (s : Session) :
    Session × List Ev :=
  if s.isAborting then (s, [])
  else
    -- Before sending stateChanged, send the updated state variables
    match sendStateVariables s C.sessionStateInfoToJSON with
    | .throws => (s, [])
    | .returns frames =>
      let sent := frames ++ [Ev.sendEvent "stateChanged" args s.uuid_str]
      -- Check if we switched to a state where API is not available any more
      match getInt args with
      | none => (s, sent)
      | some sessionState =>
        let apiURL := "http://" ++ C.apiHost ++ ":" ++ C.apiPort
        if sessionState ≠ K.SS_RUNNING ∧ s.apiPortOnline = true then
          -- In any other state, the port is just offline
          ({ s with apiPortOnline := false }, sent ++ [apiStateChanged false apiURL s.uuid_str])
        else (s, sent)

/-- The callback `CVMWebAPISession::__cbFailure`.  In C++ `!=` binds tighter
than `&`: the condition of line 393 is
`failureFlags & (HFL_NO_VIRTUALIZATION != 0)`, the comparison giving 1 or 0. -/
def __cbFailure (K : Consts) (args : List Variant) (s : Session) : Session × List Ev :=
  if s.isAborting then (s, [])
  else
    match getInt args with
    | none => (s, [])
    | some failureFlags =>
      -- Forward the failure to the UI
      let sent := [Ev.sendEvent "failure" args s.uuid_str]
      -- Poweroff the vm in particular cases
      if Int.land failureFlags (if (K.HFL_NO_VIRTUALIZATION : Int) ≠ 0 then 1 else 0) ≠ 0 then
        (s, sent ++ [.call (.hvSession s.uuid_str .stop)])
      else (s, sent)

/-! ## `DaemonConnection`: action router and the other workers -/

/-- What `DaemonConnection::handleAction` reads from the daemon core. -/
structure ActionEnv where
  /-- Line 91: `core.authKeyValid(key)`. -/
  authKeyValid : String → Bool
  /-- Line 134: the value of `core.hypervisor` after
  `core.syncHypervisorReflection()`. -/
  syncHypervisorReflection : Option Hypervisor
  /-- The conversion `ston<int>` behind `getNum<int>`. -/
  ston : String → Int

/-- Line 138: a hypervisor is installed and
`version.compareStr(CERNVM_WEBAPI_MIN_HV_VERSION) <= 0`. -/
def hypervisorUsable : Option Hypervisor → Bool
  | some hv => decide (hv.versionCompare ≤ 0)
  | none => false

/-- Lines 194-247: the power-user commands of a privileged connection. -/
def privilegedAction (id action : String) (parameters : ParameterMap) (σ : State) : State :=
  if action = "stopService" then
    -- Mark core for forced shutdown
    { σ with core := { σ.core with running := false } }
  else if action = "enumSessions" then
    match σ.core.hypervisor with
    | none => σ.emit .nullDereference
    | some hv => σ.emit (.reply id (.sessions hv.sessions))
  else if action = "controlSession" then
    -- Check for missing parameters
    if !parameters.contains "session" then
      σ.emit (.sendError "Missing 'session' parameter" id)
    else if !parameters.contains "action" then
      σ.emit (.sendError "Missing 'action' parameter" id)
    else σ
  else σ

/-- Lines 119-168: the `requestSession` action. -/
def requestSessionAction (K : Consts) (A : ActionEnv) (id : String)
    (parameters : ParameterMap) (σ : State) : State :=
  -- Schedule the new session request on a new thread
  if parameters.contains "vmcp" then
    -- Block requests when reached throttled state
    if σ.conn.throttleBlock then
      σ.emit (failed id "Request denied by throttle protection" K.HVE_ACCESS_DENIED)
    else
      -- Re-check hypervisor if it's missing
      let σ := { σ.emit (.call .syncHypervisorReflection) with
        core := { σ.core with hypervisor := A.syncHypervisorReflection } }
      -- Check if a hypervisor is installed. If not, use the installer thread.
      if hypervisorUsable σ.core.hypervisor then
        -- Try to open session
        σ.push_back (.requestSession_thread id (parameters.get "vmcp" ""))
      else
        -- If we are already installing, warn the user
        if σ.core.installInProgress then
          σ.emit (failed id
            "A hypervisor installation is in progress please wait until it's finished and try again."
            K.HVE_USAGE_ERROR)
        else
          -- Mark installation in progress
          let σ := { σ with core := { σ.core with installInProgress := true },
                            conn := { σ.conn with installInProgress := true } }
          -- Try to install first and then open session
          σ.push_back (.installHV_andRequestSession_thread id (parameters.get "vmcp" ""))
  else
    σ.emit (.sendError "Missing 'vmcp' parameter" id)

/-- The method `DaemonConnection::handleAction`. -/
def handleAction (K : Consts) (A : ActionEnv) (id action : String)
    (parameters : ParameterMap) (σ : State) : State :=
  -- [Handshake]
  if action = "handshake" then
    -- Reply the server information
    let σ := σ.emit (.reply id (.version K.CERNVM_WEBAPI_VERSION))
    -- Check if we are privileged
    let σ :=
      if parameters.contains "auth" then
        { σ.emit (.call (.authKeyValid (parameters.get "auth" ""))) with
          conn := { σ.conn with privileged := A.authKeyValid (parameters.get "auth" "") } }
      else σ
    -- Let UI know about its privileges
    σ.emit (.sendEvent "privileged" [.bool σ.conn.privileged] "")
  -- [Interaction Callback]
  else if action = "interactionCallback" then
    -- Fire result callback
    if parameters.contains "result" then
      σ.emit (.call (.interactionCallback (A.ston (parameters.get "result" ""))))
    else
      σ.emit (.sendError "Missing 'result' parameter" id)
  -- [Request Session]
  else if action = "requestSession" then
    requestSessionAction K A id parameters σ
  -- [Session commands]
  else if parameters.contains "session_id" then
    -- Lookup session pointer
    let session_id := A.ston (parameters.get "session_id" "")
    let parameters := parameters.erase "session_id"
    match σ.core.sessions.lookup session_id with
    | none => σ.emit (.sendError "Unable to find a session with the specified session id!" id)
    | some _ =>
      -- Handle session action in another thread
      σ.push_back (.handleAction_thread session_id id action parameters)
  -- Power-user commands
  else if σ.conn.privileged then
    privilegedAction id action parameters σ
  else σ

/-- The thread function `DaemonConnection::handleAction_thread`.  The worker
holds the record found under `session_id` when it was spawned; the record is
read from `core.sessions` when the worker runs.  An exception leaves the
function before `remove_one`. -/
def handleAction_thread (K : Consts) (S : SessionEnv) (thisThread : Worker)
    (session_id : Int) (eventID action : String) (parameters : ParameterMap)
    (σ : State) : State :=
  match σ.core.sessions.lookup session_id with
  | none => σ.remove_one thisThread
  | some session =>
    -- Handle action
    match Session.handleAction K S eventID action parameters session with
    | (.thrown, s, evs) => (σ.putSession s).emitAll evs
    | (_, s, evs) =>
      -- Remove this thread from the active threads
      ((σ.putSession s).emitAll evs).remove_one thisThread

/-- Outcomes of the calls made by `installHV_andRequestSession_thread` before
it hands over to `requestSession_thread`. -/
structure InstallEnv where
  /-- Line 333: result of `userInteraction->confirm(pTitle, pMessage)`. -/
  confirm : Call Int
  /-- Line 341: `userInteraction->aborted`. -/
  abortedAfterConfirm : Bool
  /-- Line 348: the prompts that `installHypervisor(...)` raises through the
  `userInteraction` it is handed, in order. -/
  installPrompts : List Prompt
  /-- Line 348: `installHypervisor(...)`. -/
  installHypervisor : Call Int
  /-- Line 358: `userInteraction->aborted`. -/
  abortedAfterInstall : Bool
  /-- Line 380: `detectHypervisor()`. -/
  detectHypervisor : Call (Option Hypervisor)
  /-- Line 386: `core.hypervisor->loadSessions()`. -/
  loadSessions : Call Unit

/-- Lines 53-54: `cleanup` clears both installation flags. -/
def clearInstall (σ : State) : State :=
  { σ with core := { σ.core with installInProgress := false },
           conn := { σ.conn with installInProgress := false } }

/-- Lines 325-330: title and message of the installer prompt. -/
def installPrompt (hv : Option Hypervisor) : String × String :=
  match hv with
  | some h =>
    if h.versionCompare > 0 then
      ("Hypervisor too old",
        "It seems that your current VirtualBox installation (version " ++ h.verString
          ++ ") is too old and not properly supported by the CernVM WebAPI. Would you like us to install the latest version for you?")
    else
      ("Hypervisor required",
        "For this website to work you must have a hypervisor installed in your system. Would you like us to install VirtualBox for you?")
  | none =>
    ("Hypervisor required",
      "For this website to work you must have a hypervisor installed in your system. Would you like us to install VirtualBox for you?")

/-- The five places at which the installer thread clears the two installation
flags, `core.installInProgress = false` on one line and
`installInProgress = false` on the next: lines 336-337 (the user declined),
360-361 (abort seen after the installation), 374-375 (the installation
failed), 389-390 (hand-over to `requestSession_thread`) and 399-400 (no
hypervisor detected). -/
inductive FlagSite where
  | declined
  | aborted
  | failedInstall
  | handOver
  | undetected
  deriving DecidableEq

/-- The statement `core.installInProgress = false`. -/
def clearCoreFlag (σ : State) : State :=
  { σ with core := { σ.core with installInProgress := false } }

/-- The statement `installInProgress = false`. -/
def clearConnFlag (σ : State) : State :=
  { σ with conn := { σ.conn with installInProgress := false } }

/-- The thread function `installHV_andRequestSession_thread` from its start up
to and including the statement `core.installInProgress = false` that it
reaches (line 336, 360, 374, 389 or 399), with the place reached.  The function
has no handler of its own: an exception leaves it with the flags and the
thread list as they are, and the result is `none`. -/
def installHV_upToCoreFlag (K : Consts) (I : InstallEnv) (thisThread : Worker)
    (eventID : String) (σ : State) : Option FlagSite × State :=
  -- Pick a message to prompt
  let p := installPrompt σ.core.hypervisor
  -- Prompt the user first
  let r := confirm p.1 p.2 I.confirm σ
  match r.1 with
  | .throws => (none, r.2)
  | .returns answer =>
    if answer ≠ K.UI_OK then
      let σ := r.2.emit (failed eventID
        "You must have a hypervisor installed in your system to continue." K.HVE_USAGE_ERROR)
      (some .declined, clearCoreFlag (σ.remove_one thisThread))
    else
      -- Install hypervisor
      let σ := raiseAll I.installPrompts (r.2.emit (.call .installHypervisor))
      match I.installHypervisor with
      | .throws => (none, σ)
      | .returns ans =>
        -- Check if user navigated away with the interaction prompt in place
        if I.abortedAfterInstall then
          (some .aborted, clearCoreFlag (σ.remove_one thisThread))
        -- Check for error cases
        else if ans ≠ K.HVE_OK then
          let σ :=
            if ans = K.HVE_NOT_VALIDATED ∨ ans = K.HVE_NOT_TRUSTED then
              σ.emit (failed eventID
                "Integrity validation of the hypervisor configuration failed. Please try again later."
                K.HVE_USAGE_ERROR)
            else
              σ.emit (failed eventID
                "We were unable to install a hypervisor in your system. Please try again manually."
                K.HVE_USAGE_ERROR)
          (some .failedInstall, clearCoreFlag (σ.remove_one thisThread))
        else
          -- Try to detect hypervisor again
          let σ := σ.emit (.call .detectHypervisor)
          match I.detectHypervisor with
          | .throws => (none, σ)
          | .returns hv =>
            let σ := { σ with core := { σ.core with hypervisor := hv } }
            -- Was the installation successful? Start requestSession thread
            match hv with
            | some _ =>
              -- Load stored sessions
              let σ := σ.emit (.call .loadSessions)
              match I.loadSessions with
              | .throws => (none, σ)
              | .returns _ => (some .handOver, clearCoreFlag σ)
            | none =>
              let σ := σ.emit (failed eventID
                "The hypervisor isntallation completed but we were not able to detect it! Please try again later or try to re-install it manually."
                K.HVE_USAGE_ERROR)
              (some .undetected, clearCoreFlag (σ.remove_one thisThread))

/-- The rest of the thread function after `core.installInProgress = false`:
the statement `installInProgress = false` on the next line and what follows
it up to the `return`. -/
def installHV_fromConnFlag (K : Consts) (I : InstallEnv) (E : RequestEnv)
    (thisThread : Worker) (eventID vmcpURL : String) : FlagSite → State → State
  | .declined, σ =>
    let σ := clearConnFlag σ
    -- Check if user navigated away with the interaction prompt in place
    if I.abortedAfterConfirm then σ.emit (.call .abortHandled) else σ
  | .aborted, σ => (clearConnFlag σ).emit (.call .abortHandled)
  | .failedInstall, σ => clearConnFlag σ
  | .handOver, σ =>
    -- Request session in the same thread
    requestSession_thread K E thisThread eventID vmcpURL (clearConnFlag σ)
  | .undetected, σ => clearConnFlag σ

/-- The thread function `DaemonConnection::installHV_andRequestSession_thread`:
the statements up to `core.installInProgress = false`, then the rest. -/
def installHV_andRequestSession_thread (K : Consts) (I : InstallEnv) (E : RequestEnv)
    (thisThread : Worker) (eventID vmcpURL : String) (σ : State) : State :=
  match installHV_upToCoreFlag K I thisThread eventID σ with
  | (none, σ) => σ
  | (some site, σ) => installHV_fromConnFlag K I E thisThread eventID vmcpURL site σ

/-- A worker of the connection together with the outcomes of its calls. -/
inductive WorkerRun where
  | requestSession (E : RequestEnv) (thisThread : Worker) (eventID vmcpURL : String)
  | installAndRequest (I : InstallEnv) (E : RequestEnv) (thisThread : Worker)
      (eventID vmcpURL : String)
  | sessionAction (S : SessionEnv) (thisThread : Worker) (session_id : Int)
      (eventID action : String) (parameters : ParameterMap)

/-- Run one worker of the connection. -/
def WorkerRun.run (K : Consts) : WorkerRun → State → State
  | .requestSession E t eventID vmcpURL => requestSession_thread K E t eventID vmcpURL
  | .installAndRequest I E t eventID vmcpURL =>
    installHV_andRequestSession_thread K I E t eventID vmcpURL
  | .sessionAction S t session_id eventID action parameters =>
    handleAction_thread K S t session_id eventID action parameters

/-- The state in which a piece of code starts, with nothing emitted yet. -/
def State.init (core : Core) (conn : Conn) : State :=
  { core := core, conn := conn, out := [] }

/-! ## `DaemonConnection::cleanup` -/

/-- What `DaemonConnection::cleanup` gets back from the daemon core. -/
structure CleanupEnv where
  /-- Line 58: the value of `core.sessions` after
  `core.releaseConnectionSessions(*this)`. -/
  releaseConnectionSessions : List (Int × Session)

/-- Modelled from the spec: `threads::interrupt_all` followed by
`threads::join_all` (libcernvm), lines 44-48.  "`Connection.workerPool` holds
no workers once `cleanup` returns": every thread of the connection has
finished when `join_all` returns, so none is left to run. -/
def join_all (σ : State) : State :=
  { σ with conn := { σ.conn with runningThreads := [] } }

/-- The method `DaemonConnection::cleanup`. -/
def cleanup (Cl : CleanupEnv) (σ : State) : State :=
  -- Abort user interaction
  let σ := σ.emit (.call (.abort true))
  -- Abort and join all threads
  let σ := join_all σ
  -- If an installation was initiated by this session, it was just aborted.
  -- Clear the installation flag
  let σ := if σ.conn.installInProgress then clearInstall σ else σ
  -- Release all sessions by this connection
  { σ.emit (.call .releaseConnectionSessions) with
    core := { σ.core with sessions := Cl.releaseConnectionSessions } }

/-! ## Vocabulary of the statements -/

/-- Stage of `requestSession_thread` at which a collaborator is called
(0 for calls that several stages share or that other code makes). -/
def callStage : Callee → Nat
  | .waitTillReady => 1
  | .updateAuthorizedKeystore => 2
  | .isDomainValid _ => 2
  | .generateSalt => 3
  | .calculateHostID _ => 3
  | .downloadText _ => 3
  | .jsonParse _ => 4
  | .signatureValidate _ _ _ => 6
  | .sessionValidate _ => 7
  | .sessionOpen _ => 9
  | .sessionWait => 9
  | .checkDaemonNeed => 9
  | .storeSession _ => 9
  | _ => 0

/-- A terminal event of the worker bound to `eventID`. -/
def isTerminal (eventID : String) : Ev → Bool
  | .fire id name _ => id == eventID && (name == "succeed" || name == "failed")
  | _ => false

/-- The terminal events on `eventID` in a trace, in order. -/
def terminals (eventID : String) (out : List Ev) : List Ev :=
  out.filter (isTerminal eventID)

/-- An `interact` event. -/
def isInteract : Ev → Bool
  | .sendEvent name _ _ => name == "interact"
  | _ => false

/-- A `succeed` event, on any id. -/
def isSucceed : Ev → Bool
  | .fire _ name _ => name == "succeed"
  | _ => false

/-- Progress messages, prompts and calls of the stages before `k`: what a run
emits on its way to stage `k`. -/
def quietEv (k : Nat) : Ev → Bool
  | .progress _ _ => true
  | .call .abortHandled => false
  | .call c => decide (callStage c < k)
  | .sendEvent name _ _ => name == "interact"
  | _ => false

/-- A trace made of progress messages, prompts and calls of the stages before
`k`. -/
def Quiet (k : Nat) (l : List Ev) : Prop :=
  l.all (quietEv k) = true

/-- The frame that the handler of the connection sends for a prompt. -/
def Prompt.frame : Prompt → Ev
  | .confirm title body => .sendEvent "interact" [.str "confirm", .str title, .str body] ""
  | .alert title body => .sendEvent "interact" [.str "alert", .str title, .str body] ""
  | .license title body =>
    .sendEvent "interact" [.str "confirmLicense", .str title, .str body] ""
  | .licenseURL title url =>
    .sendEvent "interact" [.str "confirmLicenseURL", .str title, .str url] ""

/-- The frames of the prompts that `hv->waitTillReady` raises in a run. -/
def readyFrames (E : RequestEnv) : List Ev :=
  E.waitTillReadyPrompts.map Prompt.frame

/-- The run `r` of `requestSession_thread` ended before stage `k`: after
progress messages, prompts and calls of earlier stages it emitted one
`failed`, or it acknowledged an abort. -/
def StoppedBefore (k : Nat) (thisThread : Worker) (eventID : String)
    (core : Core) (conn : Conn) (r : State) : Prop :=
  r.core = core
  ∧ r.conn = { conn with runningThreads := conn.runningThreads.erase thisThread }
  ∧ ∃ pre, Quiet k pre
      ∧ ((∃ m code, r.out = pre ++ [failed eventID m code]) ∨ r.out = pre ++ [Ev.call .abortHandled])

def readyPrefix (E : RequestEnv) (eventID : String) : List Ev :=
  [.progress eventID "Preparing for session request",
   .progress eventID "Initializing hypervisor",
   .call .waitTillReady] ++ readyFrames E

def keystorePrefix (E : RequestEnv) (eventID domain : String) : List Ev :=
  readyPrefix E eventID ++
  [.progress eventID "Initializing crypto store",
   .call .updateAuthorizedKeystore,
   .call (.isDomainValid domain),
   .progress eventID "Crypto store initialized"]

def fetchPrefix (E : RequestEnv) (eventID domain vmcpURL salt hostID : String) : List Ev :=
  keystorePrefix E eventID domain ++
  [.progress eventID "Contacting the VMCP endpoint",
   .call .generateSalt,
   .call (.calculateHostID domain),
   .call (.downloadText (newURL vmcpURL salt hostID))]

def parsePrefix (E : RequestEnv) (eventID domain vmcpURL salt hostID jsonString : String) :
    List Ev :=
  fetchPrefix E eventID domain vmcpURL salt hostID ++
  [.progress eventID "Validating VMCP data",
   .call (.jsonParse jsonString)]

def signaturePrefix (E : RequestEnv) (eventID domain vmcpURL salt hostID jsonString : String)
    (vmcpData : ParameterMap) : List Ev :=
  parsePrefix E eventID domain vmcpURL salt hostID jsonString ++
  [.call (.signatureValidate domain salt vmcpData),
   .progress eventID "Obtained information from VMCP endpoint"]

def validatePrefix (E : RequestEnv) (eventID domain vmcpURL salt hostID jsonString : String)
    (vmcpData : ParameterMap) : List Ev :=
  signaturePrefix E eventID domain vmcpURL salt hostID jsonString vmcpData ++
  [.call (.sessionValidate vmcpData)]

/-- The schema check of lines 528-548 in the words of the specification. -/
def schemaOK (vmcpData : ParameterMap) : Prop :=
  vmcpData.contains "name" = true ∧ vmcpData.contains "secret" = true
  ∧ vmcpData.contains "signature" = true
  ∧ (vmcpData.contains "diskURL" = true → vmcpData.contains "diskChecksum" = true)

structure AtFetch (E : RequestEnv) : Prop where
  ready : E.waitTillReady = .returns ()
  notAborted : E.abortedAfterReady = false
  updated : ∃ r, E.updateAuthorizedKeystore = .returns r
  valid : E.keystoreValid = true
  trusted : E.isDomainValid = .returns true

structure AtParse (E : RequestEnv) (salt hostID jsonString : String) extends AtFetch E : Prop where
  salted : E.generateSalt = .returns salt
  hosted : E.calculateHostID = .returns hostID
  downloaded : ∃ res, E.downloadText = .returns (res, jsonString) ∧ 0 ≤ res

structure AtSchema (E : RequestEnv) (salt hostID jsonString : String) (vmcpData : ParameterMap)
    extends AtParse E salt hostID jsonString : Prop where
  parsed : E.jsonParse = .returns (some vmcpData)

structure AtValidate (E : RequestEnv) (salt hostID jsonString : String) (vmcpData : ParameterMap)
    extends AtSchema E salt hostID jsonString vmcpData : Prop where
  schema : schemaOK vmcpData
  signed : ∃ res, E.signatureValidate = .returns res ∧ 0 ≤ res

/-- The `succeed` frame of `requestSession_thread` for the record `uuid`. -/
def succeedOpen (eventID : String) (uuid : Int) : Ev :=
  .fire eventID "succeed" [.str "Session open successfully", .int uuid]

/-- How the events `l` emitted by the last stages relate to the way the `try`
block was left. -/
def TailClass (E : RequestEnv) (eventID : String) (exit : Exit) (l : List Ev) : Prop :=
  match exit with
  | .returned =>
    (Ev.call .abortHandled ∈ l ∧ terminals eventID l = [])
    ∨ (Ev.call .abortHandled ∉ l ∧ ∃ m code, terminals eventID l = [failed eventID m code])
  | .thrown =>
    Ev.call .abortHandled ∉ l
    ∧ (terminals eventID l = []
        ∨ (E.sessionStateInfoToJSON = .throws ∧ ∃ uuid, terminals eventID l = [succeedOpen eventID uuid]))
  | .completed =>
    Ev.call .abortHandled ∉ l ∧ ∃ uuid, terminals eventID l = [succeedOpen eventID uuid]

/-- The throttle fields of a connection. -/
def Conn.throttle (c : Conn) : Int × Int × Bool :=
  (c.throttleTimestamp, c.throttleDenies, c.throttleBlock)

/-- The prompt of lines 585-588. -/
def consentPrompt (K : Consts) (E : RequestEnv) (domain : String) (vmcpData : ParameterMap) :
    Ev :=
  .sendEvent "interact"
    [.str "confirm", .str "New CernVM WebAPI Session",
     .str ("The website " ++ domain ++ " is trying to allocate a " ++ E.get_hv_name
      ++ " Virtual Machine \"" ++ vmcpData.get "name" ""
      ++ "\". This website is validated and trusted by CernVM." ++ K.EOL ++ K.EOL
      ++ "Do you want to continue?")] ""

/-- Something that happens on a connection: an incoming action, or the run of
one of its workers. -/
inductive Activity where
  | incoming (A : ActionEnv) (id name : String) (parameters : ParameterMap)
  | worker (w : WorkerRun)

/-- Run one activity. -/
def Activity.run (K : Consts) : Activity → State → State
  | .incoming A id name parameters => handleAction K A id name parameters
  | .worker w => w.run K

/-- Run activities one after the other. -/
def runAll (K : Consts) : List Activity → State → State
  | [], σ => σ
  | a :: as, σ => runAll K as (a.run K σ)

/-- A reply frame. -/
def isReply : Ev → Bool
  | .reply _ _ => true
  | _ => false

/-- One `requestSession` run: the outcomes of its calls and the arguments of
the thread function. -/
structure Request where
  E : RequestEnv
  thisThread : Worker
  eventID : String
  vmcpURL : String

/-- Run `requestSession_thread` for a request, with nothing emitted yet. -/
def Request.run (K : Consts) (q : Request) (core : Core) (conn : Conn) : State :=
  requestSession_thread K q.E q.thisThread q.eventID q.vmcpURL (State.init core conn)

/-- The call `hv->sessionValidate(...)` of line 567. -/
def isSessionValidate : Ev → Bool
  | .call (.sessionValidate _) => true
  | _ => false

/-- What a trace holds after the first event that satisfies `p`. -/
def eventsAfter (p : Ev → Bool) (out : List Ev) : List Ev :=
  (out.dropWhile (fun e => !p e)).drop 1

/-- The consent prompt was shown: the run sent an `interact` event after it
had called `hv->sessionValidate`. -/
def promptedForConsent (out : List Ev) : Bool :=
  (eventsAfter isSessionValidate out).any isInteract

/-- The run was denied by the user at the consent prompt: the consent prompt
was shown, the answer was not `UI_OK`, and the interaction was not aborted. -/
def Request.denied (K : Consts) (q : Request) (core : Core) (conn : Conn) : Bool :=
  promptedForConsent (q.run K core conn).out
  && (match q.E.confirm with
      | .returns answer => answer != K.UI_OK
      | .throws => false)
  && !q.E.abortedAfterConfirm

/-- Run requests one after the other on the same connection. -/
def runRequests (K : Consts) : List Request → Core → Conn → Core × Conn
  | [], core, conn => (core, conn)
  | q :: qs, core, conn => runRequests K qs (q.run K core conn).core (q.run K core conn).conn

/-- Every run of the list, taken from the state in which it starts, is denied
at the consent prompt. -/
def allDenied (K : Consts) : List Request → Core → Conn → Bool
  | [], _, _ => true
  | q :: qs, core, conn =>
    q.denied K core conn && allDenied K qs (q.run K core conn).core (q.run K core conn).conn

/-- One step in the life of a session record: the push at the end of a
successful `requestSession_thread`, a monitor tick, or the hypervisor's
`stateChanged` callback. -/
inductive SessionStep where
  | openPush (E : RequestEnv) (eventID : String)
  | tick (T : TickEnv)
  | stateChanged (C : CallbackEnv) (args : List Variant)

/-- Run one step on a record. -/
def SessionStep.run (K : Consts) : SessionStep → Session → Session × List Ev
  | .openPush E eventID, s => (initialPush E eventID s).2
  | .tick T, s => processPeriodicJobs K T s
  | .stateChanged C args, s => __cbStateChanged K C args s

/-- Run steps one after the other; the result is the record and everything
emitted or called. -/
def runSteps (K : Consts) : List SessionStep → Session → Session × List Ev
  | [], s => (s, [])
  | st :: rest, s =>
    ((runSteps K rest (st.run K s).1).1, (st.run K s).2 ++ (runSteps K rest (st.run K s).1).2)

/-- An event sent to the page under the id of session `uuid_str`. -/
def isSessionEmission (uuid_str : String) : Ev → Bool
  | .stateVariables id _ => id == uuid_str
  | .sendEvent _ _ id => id == uuid_str
  | _ => false

/-- The emissions of a session over a list of steps. -/
def sessionTrace (K : Consts) (steps : List SessionStep) (s : Session) : List Ev :=
  (runSteps K steps s).2.filter (isSessionEmission s.uuid_str)

/-- The event `apiStateChanged(true, _)`. -/
def isOnline : Ev → Bool
  | .sendEvent name (.bool true :: _) _ => name == "apiStateChanged"
  | _ => false

/-- The event `apiStateChanged(false, _)`. -/
def isOffline : Ev → Bool
  | .sendEvent name (.bool false :: _) _ => name == "apiStateChanged"
  | _ => false

/-- A `stateChanged` event. -/
def isStateChanged : Ev → Bool
  | .sendEvent name _ _ => name == "stateChanged"
  | _ => false

/-- The event `stateChanged(state)`. -/
def isStateChangedTo (state : Int) : Ev → Bool
  | .sendEvent name (.int n :: _) _ => name == "stateChanged" && n == state
  | _ => false

/-- Every event of the list that satisfies `Q` comes right after an event that
satisfies `P`; `prev` is the event before the list, if any. -/
def eachPreceded (P Q : Ev → Bool) : Option Ev → List Ev → Bool
  | _, [] => true
  | prev, e :: l =>
    (!Q e || (match prev with
              | some d => P d
              | none => false))
    && eachPreceded P Q (some e) l

/-- The last event of the list, or `prev` when the list is empty. -/
def lastOr : Option Ev → List Ev → Option Ev
  | prev, [] => prev
  | _, e :: l => lastOr (some e) l

/-- What holds between two steps: monitor ticks are accepted only after
something was emitted; the last emission is never `stateVariables`; and after
`apiStateChanged(true, _)` the record says online. -/
def StepInv (s : Session) (prev : Option Ev) : Prop :=
  (s.acceptPeriodicJobs = true → prev ≠ none)
  ∧ (∀ d, prev = some d →
      isStateChanged d = true ∨ isOffline d = true
      ∨ (isOnline d = true ∧ s.apiPortOnline = true))

/-- The events allowed right before `apiStateChanged(true, _)`. -/
def stateChangedOrOffline (d : Ev) : Bool :=
  isStateChanged d || isOffline d

/-- The frame fired by the `catch (...)` handler. -/
def failedUnexpected (K : Consts) (eventID : String) : Ev :=
  failed eventID "Unexpected exception occured while requesting session" K.HVE_EXTERNAL_ERROR

/-! ## Concrete inputs

The values of the constants are sample values; the theorems hold for every
`Consts`. -/

/-- Sample values of the constants. -/
def sampleConsts : Consts :=
  { HVE_OK := 0
    HVE_SCHEDULED := 1
    HVE_ACCESS_DENIED := -10
    HVE_NOT_VALIDATED := -12
    HVE_NOT_TRUSTED := -13
    HVE_USAGE_ERROR := -99
    HVE_QUERY_ERROR := -5
    HVE_PASSWORD_DENIED := -20
    HVE_EXTERNAL_ERROR := -7
    UI_OK := 1
    SS_RUNNING := 5
    THROTTLE_TIMESPAN := 5000
    THROTTLE_TRIES := 2
    CVMWA_SESS_APIPORT_DOWN_RETRIES := 2
    HFL_NO_VIRTUALIZATION := 1
    HSK_HTTP := 1
    EXIF_VIDEO_MODE := 1
    CERNVM_WEBAPI_VERSION := "2.0.0"
    EOL := "\n" }

/-- A record as `storeSession` creates it. -/
def sampleSession : Session :=
  { uuid := 1
    uuid_str := "1"
    isAborting := false
    acceptPeriodicJobs := false
    periodicsRunning := false
    apiPortOnline := false
    apiPortCounter := 0
    apiPortDownCounter := 0
    parameters := ⟨[]⟩ }

/-- A VMCP response that passes the schema check. -/
def sampleVmcp : ParameterMap :=
  ⟨[("name", "vm1"), ("secret", "x"), ("signature", "y")]⟩

/-- A run in which every call succeeds and the user accepts. -/
def sampleEnv : RequestEnv :=
  { waitTillReadyPrompts := []
    waitTillReady := .returns ()
    abortedAfterReady := false
    updateAuthorizedKeystore := .returns 0
    keystoreValid := true
    isDomainValid := .returns true
    generateSalt := .returns "s"
    calculateHostID := .returns "h"
    downloadText := .returns (0, "t")
    jsonParse := .returns (some sampleVmcp)
    signatureValidate := .returns 0
    sessionValidate := .returns 0
    get_hv_name := "VirtualBox"
    confirm := .returns 1
    abortedAfterConfirm := false
    getMillis := 100000
    getMillisAgain := 100000
    sessionOpen := .returns (some ⟨"u"⟩)
    sessionWait := .returns ()
    checkDaemonNeed := .returns ()
    storeSession := .returns sampleSession
    sessionStateInfoToJSON := .returns "info"
    localState := 5 }

/-- A daemon core with a usable hypervisor and no session. -/
def sampleCore : Core :=
  { running := true
    installInProgress := false
    hypervisor := some { versionCompare := 0, verString := "4.3", sessions := [] }
    sessions := [] }

/-- The worker of the sample request. -/
def sampleWorker : Worker :=
  .requestSession_thread "e1" "https://example.test/vmcp"

/-- The run of `requestSession_thread` on a fresh connection of
`example.test` under the outcomes `E`. -/
def sampleRun (E : RequestEnv) : State :=
  requestSession_thread sampleConsts E sampleWorker "e1" "https://example.test/vmcp"
    (State.init sampleCore (Conn.new "example.test"))

/-- The user's answer is not `UI_OK`, the clock reads `now`. -/
def deniedRequest (now : Int) : Request :=
  { E := { sampleEnv with confirm := .returns 0, getMillis := now, getMillisAgain := now }
    thisThread := sampleWorker
    eventID := "e1"
    vmcpURL := "https://example.test/vmcp" }

/-- A tick that finds the session running and the API port answering. -/
def tickAlive : TickEnv :=
  { update := .returns ()
    sessionState := 5
    apiHost := "127.0.0.1"
    apiPort := "80"
    isAPIAliveShort := .returns true
    isAPIAliveLong := .returns true }

/-- A tick that finds the session running and the API port silent. -/
def tickSilent : TickEnv :=
  { tickAlive with isAPIAliveShort := .returns false, isAPIAliveLong := .returns false }

/-- The session comes up, its API answers, falls silent for two long probes,
and answers again, the session running all the time. -/
def flappingSteps : List SessionStep :=
  [.openPush sampleEnv "e1", .tick tickAlive]
    ++ List.replicate 22 (.tick tickSilent) ++ [.tick tickAlive]

/-- A blocked connection. -/
def blockedState : State :=
  State.init sampleCore { Conn.new "example.test" with throttleBlock := true }

/-! ## Vocabulary of the statements about the router, the installer and the
session handler -/

/-- Neither a call of a stage before `k` nor a terminal event: progress
messages, prompts, and calls of stage `k` or later. -/
def lateEv (k : Nat) : Ev → Bool
  | .call .abortHandled => true
  | .call c => decide (k ≤ callStage c)
  | _ => true

/-- The action names that `CVMWebAPISession::handleAction` handles. -/
def sessionVerbs : List String :=
  ["start", "stop", "pause", "resume", "hibernate", "reset", "close", "sync", "get", "set",
   "setProperty"]

/-- The action names that the router or the session handler compares
`action` with. -/
def recognisedActions : List String :=
  ["handshake", "interactionCallback", "requestSession"] ++ sessionVerbs
    ++ ["stopService", "enumSessions", "controlSession"]

/-- An `apiStateChanged` event. -/
def isApiStateChanged : Ev → Bool
  | .sendEvent name _ _ => name == "apiStateChanged"
  | _ => false

/-- The keys that the `set` action writes. -/
def writableKeys : List String :=
  ["cpus", "disk", "memory", "cernvmVersion", "cernvmFlavor", "executionCap", "flags"]

/-- One call of `CVMWebAPISession::handleAction` with the outcomes of its
calls. -/
structure SessionCall where
  S : SessionEnv
  eventID : String
  action : String
  parameters : ParameterMap

/-- Run the session handler for a call. -/
def SessionCall.run (K : Consts) (c : SessionCall) (s : Session) : Exit × Session × List Ev :=
  Session.handleAction K c.S c.eventID c.action c.parameters s

/-- Run calls of the session handler one after the other on a record. -/
def runCalls (K : Consts) : List SessionCall → Session → Session
  | [], s => s
  | c :: cs, s => runCalls K cs (c.run K s).2.1

/-- A `get`, or a `set` of a key other than `k`. -/
def SessionCall.keeps (k : String) (c : SessionCall) : Bool :=
  c.action == "get" || (c.action == "set" && c.parameters.get "key" "" != k)

/-- What a block of `requestSession_thread` leaves of the installation flags
and of the thread list: the flags are untouched, and the thread is removed
exactly when the block is left by `return`. -/
def Framed (t : Worker) (σ : State) (p : Exit × State) : Prop :=
  p.2.core.installInProgress = σ.core.installInProgress
  ∧ p.2.conn.installInProgress = σ.conn.installInProgress
  ∧ p.2.conn.runningThreads
      = if p.1 = .returned then σ.conn.runningThreads.erase t else σ.conn.runningThreads

/-! ### The daemon with several connections -/

/-- The thread a worker run belongs to. -/
def WorkerRun.thisThread : WorkerRun → Worker
  | .requestSession _ t _ _ => t
  | .installAndRequest _ _ t _ _ => t
  | .sessionAction _ t _ _ _ _ => t

/-- The run is the thread function and the arguments that its thread was
created with at lines 142, 159 and 184. -/
def WorkerRun.bound : WorkerRun → Bool
  | .requestSession _ t eventID vmcpURL => t == .requestSession_thread eventID vmcpURL
  | .installAndRequest _ _ t eventID vmcpURL =>
    t == .installHV_andRequestSession_thread eventID vmcpURL
  | .sessionAction _ t session_id eventID action parameters =>
    t == .handleAction_thread session_id eventID action parameters

/-- An installer thread. -/
def isInstaller : Worker → Bool
  | .installHV_andRequestSession_thread _ _ => true
  | _ => false

/-- Number of installer threads in a thread list. -/
def installers (l : List Worker) : Nat :=
  l.countP isInstaller

/-- An installer thread that has executed `core.installInProgress = false` and
not yet `installInProgress = false` on the next line: the place it stands at
and what the thread was started with. -/
structure Paused where
  site : FlagSite
  I : InstallEnv
  E : RequestEnv
  thisThread : Worker
  eventID : String
  vmcpURL : String

/-- Run the rest of the thread function of a paused installer thread. -/
def Paused.resume (K : Consts) (p : Paused) (σ : State) : State :=
  installHV_fromConnFlag K p.I p.E p.thisThread p.eventID p.vmcpURL p.site σ

/-- The daemon core, the connections (one per number) and the threads of each
connection that have not finished: `created` holds the threads that
`handleAction` has created and that have not taken their step yet (for an
installer thread: that have not reached `core.installInProgress = false`),
`paused` the installer threads that stand between their two flag
statements. -/
structure Daemon where
  core : Core
  conns : Nat → Conn
  created : Nat → List Worker
  paused : Nat → List Paused

/-- The state that code running on connection `i` sees, with nothing emitted
yet. -/
def Daemon.view (d : Daemon) (i : Nat) : State :=
  State.init d.core (d.conns i)

/-- Write back the core and connection `i` after code ran on connection `i`,
with the threads of connection `i` that have not finished. -/
def Daemon.update (d : Daemon) (i : Nat) (σ : State) (created : List Worker)
    (paused : List Paused) : Daemon :=
  { core := σ.core
    conns := fun j => if j = i then σ.conn else d.conns j
    created := fun j => if j = i then created else d.created j
    paused := fun j => if j = i then paused else d.paused j }

/-- The threads that code added to `runningThreads` with `push_back`
(lines 143, 160 and 185): what the list holds beyond its former length. -/
def spawnedBy (before after : List Worker) : List Worker :=
  after.drop before.length

/-- A step of the daemon.  The server loop (`webserver->poll()` in `main.cpp`)
runs on one thread, so `handleAction` and `cleanup` calls follow one another;
the threads of the connections run beside it.

* `action`: `handleAction` runs on connection `i`.
* `worker`: a thread of connection `i` takes its step.  A
  `requestSession_thread` or a `handleAction_thread` runs to its end; neither
  reads or writes an installation flag.  An installer thread runs up to and
  including its statement `core.installInProgress = false` and is then
  paused; the statements before that one neither read nor write an
  installation flag, so for the flags the step stands for the moment of that
  statement.
* `resume`: the paused installer thread number `k` of connection `i` runs
  `installInProgress = false` and the rest of its function.
* `cleanup`: `cleanup` runs on connection `i`. -/
inductive DaemonStep where
  | action (i : Nat) (A : ActionEnv) (id name : String) (parameters : ParameterMap)
  | worker (i : Nat) (w : WorkerRun)
  | resume (i : Nat) (k : Nat)
  | cleanup (i : Nat) (Cl : CleanupEnv)

/-- Run one step.  A thread takes its step only if it was created and has not
taken it yet.  `cleanup` joins the threads of its connection (line 47) before
it looks at the flags (line 52): the step takes place once every thread of
the connection has finished, and is void before. -/
def DaemonStep.run (K : Consts) : DaemonStep → Daemon → Daemon
  | .action i A id name parameters, d =>
    d.update i (handleAction K A id name parameters (d.view i))
      (d.created i ++ spawnedBy (d.conns i).runningThreads
        (handleAction K A id name parameters (d.view i)).conn.runningThreads)
      (d.paused i)
  | .worker i w, d =>
    if w.bound && (d.created i).contains w.thisThread then
      match w with
      | .installAndRequest I E t eventID vmcpURL =>
        match installHV_upToCoreFlag K I t eventID (d.view i) with
        | (none, σ) => d.update i σ ((d.created i).erase t) (d.paused i)
        | (some site, σ) =>
          d.update i σ ((d.created i).erase t)
            (d.paused i ++ [⟨site, I, E, t, eventID, vmcpURL⟩])
      | .requestSession E t eventID vmcpURL =>
        d.update i (requestSession_thread K E t eventID vmcpURL (d.view i))
          ((d.created i).erase t) (d.paused i)
      | .sessionAction S t session_id eventID verb parameters =>
        d.update i (handleAction_thread K S t session_id eventID verb parameters (d.view i))
          ((d.created i).erase t) (d.paused i)
    else d
  | .resume i k, d =>
    match (d.paused i).get? k with
    | none => d
    | some p => d.update i (p.resume K (d.view i)) (d.created i) ((d.paused i).eraseIdx k)
  | .cleanup i Cl, d =>
    if (d.created i).isEmpty && (d.paused i).isEmpty then
      d.update i (CernVMWebAPI.cleanup Cl (d.view i)) [] []
    else d

/-- Run steps one after the other. -/
def runDaemon (K : Consts) : List DaemonStep → Daemon → Daemon
  | [], d => d
  | st :: rest, d => runDaemon K rest (st.run K d)

/-- The daemon before any action: every connection as its constructor leaves
it, without threads. -/
def Daemon.start (core : Core) (domains : Nat → String) : Daemon :=
  { core := core
    conns := fun i => Conn.new (domains i)
    created := fun _ => []
    paused := fun _ => [] }

/-- The step is the one in which an installer thread of connection `i` runs up
to its statement `core.installInProgress = false`. -/
def DaemonStep.reachesCoreFlag (i : Nat) : DaemonStep → Bool
  | .worker j (.installAndRequest _ _ _ _ _) => j == i
  | _ => false

/-- Connection `i` has an installer thread that has not reached its statement
`core.installInProgress = false`. -/
def Daemon.installing (d : Daemon) (i : Nat) : Prop :=
  0 < installers (d.created i)

/-- Connection `i` has an installer thread that stands between
`core.installInProgress = false` and `installInProgress = false`. -/
def Daemon.betweenFlags (d : Daemon) (i : Nat) : Prop :=
  d.paused i ≠ []

/-- The installation bookkeeping is consistent.  At most one installer thread
in the whole daemon has not reached `core.installInProgress = false`, and
while there is one the flag of the core is set.  A connection whose flag is set
and that has no installer thread between its two flag statements implies the
flag of the core, no other connection has an installer thread that has not
cleared the flag of the core, and there is at most one such connection. -/
structure Guarded (d : Daemon) : Prop where
  one : ∀ i, installers (d.created i) ≤ 1
  single : ∀ i j, d.installing i → d.installing j → i = j
  core : ∀ i, d.installing i → d.core.installInProgress = true
  owner : ∀ i, (d.conns i).installInProgress = true → ¬ d.betweenFlags i →
    d.core.installInProgress = true ∧ ∀ j, j ≠ i → ¬ d.installing j
  owners : ∀ i j, (d.conns i).installInProgress = true → ¬ d.betweenFlags i →
    (d.conns j).installInProgress = true → ¬ d.betweenFlags j → i = j

/-! ## More concrete inputs -/

/-- A `requestSession` request with its manifest URL. -/
def sampleRequest : ParameterMap :=
  ⟨[("vmcp", "https://example.test/vmcp")]⟩

/-- The core reports a usable hypervisor after `syncHypervisorReflection`. -/
def sampleAction : ActionEnv :=
  { authKeyValid := fun _ => false
    syncHypervisorReflection := some { versionCompare := 0, verString := "4.3", sessions := [] }
    ston := fun _ => 9999 }

/-- The core finds no hypervisor after `syncHypervisorReflection`. -/
def bareAction : ActionEnv :=
  { sampleAction with syncHypervisorReflection := none }

/-- A daemon core without hypervisor. -/
def bareCore : Core :=
  { sampleCore with hypervisor := none }

/-- A fresh connection while an installation is in progress. -/
def installingState : State :=
  State.init { bareCore with installInProgress := true } (Conn.new "example.test")

/-- The installer thread of the sample request. -/
def sampleInstaller : Worker :=
  .installHV_andRequestSession_thread "e1" "https://example.test/vmcp"

/-- The first prompt of the installer is woken by an abort: the answer is not
`UI_OK` and `userInteraction->aborted` is set. -/
def abortedInstall : InstallEnv :=
  { confirm := .returns 0
    abortedAfterConfirm := true
    installPrompts := []
    installHypervisor := .returns 0
    abortedAfterInstall := false
    detectHypervisor := .returns none
    loadSessions := .returns () }

/-- The user declines the installation; no abort is seen. -/
def declinedInstall : InstallEnv :=
  { abortedInstall with abortedAfterConfirm := false }

/-- A run in which `waitTillReady` asks the user to accept a licence before
the keystore is looked at, and the keystore then rejects the domain. -/
def licenceEnv : RequestEnv :=
  { sampleEnv with
    waitTillReadyPrompts := [.licenseURL "License" "https://example.test/license"]
    isDomainValid := .returns false }

/-- On a daemon without hypervisor, connection 0 asks for a session and the
user declines the installation: the installer thread of connection 0 has
executed `core.installInProgress = false` (line 336) and not yet
`installInProgress = false` (line 337). -/
def declineSteps : List DaemonStep :=
  [ .action 0 bareAction "e1" "requestSession" sampleRequest,
    .worker 0 (.installAndRequest declinedInstall sampleEnv sampleInstaller "e1"
      "https://example.test/vmcp") ]

/-- A driver that returns 0 and a readable session state. -/
def sampleHandler : SessionEnv :=
  { ret := .returns 0
    sessionStateInfoToJSON := .returns "info"
    apiHost := "127.0.0.1"
    apiPort := "80"
    getExtraInfo := "1024x768"
    getRDPAddress := "127.0.0.1:3389"
    ston := fun _ => 0 }

/-- A `get` of `disk` followed by a `set` of `memory`. -/
def otherCalls : List SessionCall :=
  [ { S := sampleHandler, eventID := "e2", action := "get", parameters := ⟨[("key", "disk")]⟩ },
    { S := sampleHandler, eventID := "e3", action := "set",
      parameters := ⟨[("key", "memory"), ("value", "2048")]⟩ } ]

/-- A tick that finds the session in state 3, which is not `SS_RUNNING`. -/
def tickStopped : TickEnv :=
  { tickAlive with sessionState := 3 }

/-- What a `stateChanged` callback reads. -/
def sampleCallback : CallbackEnv :=
  { sessionStateInfoToJSON := .returns "info", apiHost := "127.0.0.1", apiPort := "80" }

/-! ## Vocabulary of the statements about the monitor -/

/-- Run `periodicJobsThread` once per tick, one after the other. -/
def runTicks (K : Consts) : List TickEnv → Session → Session × List Ev
  | [], s => (s, [])
  | T :: ts, s =>
    ((runTicks K ts (periodicJobsThread K T s).1).1,
      (periodicJobsThread K T s).2 ++ (runTicks K ts (periodicJobsThread K T s).1).2)

/-- The call of the probe with the long timeout, line 336. -/
def longProbe (K : Consts) (s : Session) : Ev :=
  .call (.hvSession s.uuid_str (.isAPIAlive K.HSK_HTTP 10))

/-- The tick `T` on the record `s` issues the probe with the long timeout. -/
def issuesLongProbe (K : Consts) (T : TickEnv) (s : Session) : Bool :=
  (periodicJobsThread K T s).2.contains (longProbe K s)

/-- The tick finds the session running and all its calls return. -/
def TickEnv.running (K : Consts) (T : TickEnv) : Prop :=
  T.update = .returns () ∧ T.sessionState = K.SS_RUNNING ∧ ∃ b, T.isAPIAliveLong = .returns b

/-- The record says online before every tick of the list and after the last
one. -/
def onlineThroughout (K : Consts) : List TickEnv → Session → Bool
  | [], s => s.apiPortOnline
  | T :: ts, s => s.apiPortOnline && onlineThroughout K ts (periodicJobsThread K T s).1

/-- The result of the long probe of the tick `T` on the record `s`, if the
tick issues one. -/
def probeEntry (K : Consts) (T : TickEnv) (s : Session) : List Bool :=
  if issuesLongProbe K T s then
    match T.isAPIAliveLong with
    | .returns b => [b]
    | .throws => []
  else []

/-- The results of the long probes issued during the ticks, oldest first. -/
def probeLog (K : Consts) : List TickEnv → Session → List Bool
  | [], _ => []
  | T :: ts, s => probeEntry K T s ++ probeLog K ts (periodicJobsThread K T s).1

/-- Number of failed probes in a row at the end of a log. -/
def failedInARow (log : List Bool) : Nat :=
  (log.reverse.takeWhile (fun b => !b)).length

/-- The boolean carried by an `apiStateChanged` event. -/
def reported : Ev → Option Bool
  | .sendEvent name (.bool b :: _) _ => if name = "apiStateChanged" then some b else none
  | _ => none

/-- The booleans carried by the `apiStateChanged` events of a trace. -/
def reportedStates (l : List Ev) : List Bool :=
  l.filterMap reported

/-- The boolean carried by the last `apiStateChanged` event of a trace, `init`
when there is none. -/
def lastReported (init : Bool) (l : List Ev) : Bool :=
  (reportedStates l).getLast?.getD init

/-- The list alternates, starting with `next`. -/
def alternates : Bool → List Bool → Bool
  | _, [] => true
  | next, b :: l => (b == next) && alternates (!next) l

/-! ## Concrete inputs for the monitor -/

/-- A record right after its API port went online. -/
def onlineSession : Session :=
  { sampleSession with apiPortOnline := true, acceptPeriodicJobs := true }

/-- Sample constants with `HFL_NO_VIRTUALIZATION` as the second bit. -/
def secondBitConsts : Consts :=
  { sampleConsts with HFL_NO_VIRTUALIZATION := 2 }

/-! ## Lemmas and theorems -/

/-- The handlers do nothing but send the frame of the prompt. -/
theorem raiseAll_eq (ps : List Prompt) (σ : State) :
    raiseAll ps σ = σ.emitAll (ps.map Prompt.frame) := by
  induction ps generalizing σ with
  | nil => simp [raiseAll, State.emitAll]
  | cons p ps ih =>
    cases p <;>
      simp [raiseAll, Prompt.raise, ih, State.emitAll, State.emit, Prompt.frame,
        __callbackConfim, __callbackAlert, __callbackLicense, __callbackLicenseURL]

theorem Prompt.frame_interact (p : Prompt) : isInteract p.frame = true := by
  cases p <;> rfl

theorem readyFrames_interact (E : RequestEnv) : ∀ e ∈ readyFrames E, isInteract e = true := by
  intro e he
  simp only [readyFrames, List.mem_map] at he
  obtain ⟨p, _, rfl⟩ := he
  exact p.frame_interact

@[simp] theorem call_not_mem_readyFrames (E : RequestEnv) (c : Callee) :
    Ev.call c ∉ readyFrames E :=
  fun h => by simpa [isInteract] using readyFrames_interact E _ h

@[simp] theorem fire_not_mem_readyFrames (E : RequestEnv) (id name : String)
    (args : List Variant) : Ev.fire id name args ∉ readyFrames E :=
  fun h => by simpa [isInteract] using readyFrames_interact E _ h

@[simp] theorem filter_terminal_readyFrames (E : RequestEnv) (id : String) :
    (readyFrames E).filter (isTerminal id) = [] := by
  rw [List.filter_eq_nil_iff]
  intro e he
  have := readyFrames_interact E e he
  cases e <;> simp_all [isInteract, isTerminal]

theorem filter_interact_readyFrames (E : RequestEnv) :
    (readyFrames E).filter isInteract = readyFrames E :=
  List.filter_eq_self.mpr (readyFrames_interact E)

theorem quiet_readyFrames (E : RequestEnv) (k : Nat) : Quiet k (readyFrames E) := by
  simp only [Quiet, List.all_eq_true]
  intro e he
  have := readyFrames_interact E e he
  cases e <;> simp_all [isInteract, quietEv]

theorem eventsAfter_cons_pos (p : Ev → Bool) (e : Ev) (l : List Ev) (h : p e = true) :
    eventsAfter p (e :: l) = l := by
  simp [eventsAfter, List.dropWhile, h]

theorem eventsAfter_append_of_none (p : Ev → Bool) (a b : List Ev)
    (h : ∀ e ∈ a, p e = false) : eventsAfter p (a ++ b) = eventsAfter p b := by
  induction a with
  | nil => rfl
  | cons e a ih =>
    have he := h e (List.mem_cons_self _ _)
    have := ih (fun e' he' => h e' (List.mem_cons_of_mem _ he'))
    simp only [eventsAfter] at this ⊢
    simp [List.dropWhile, he, this]

theorem eventsAfter_none (p : Ev → Bool) (l : List Ev) (h : ∀ e ∈ l, p e = false) :
    eventsAfter p l = [] := by
  have := eventsAfter_append_of_none p l [] h
  simpa [eventsAfter] using this

theorem Quiet.append_quiet {k : Nat} {a b : List Ev} (ha : Quiet k a) (hb : Quiet k b) :
    Quiet k (a ++ b) := by
  simp only [Quiet, List.all_append, Bool.and_eq_true] at *
  exact ⟨ha, hb⟩

theorem quietEv_mono {k l : Nat} (h : k ≤ l) (e : Ev) (he : quietEv k e = true) :
    quietEv l e = true := by
  cases e with
  | call c =>
    cases c <;> simp_all [quietEv, callStage] <;> omega
  | _ => simp_all [quietEv]

theorem Quiet.mono_quiet {k l : Nat} (h : k ≤ l) {a : List Ev} (ha : Quiet k a) : Quiet l a := by
  simp only [Quiet, List.all_eq_true] at *
  exact fun e he => quietEv_mono h e (ha e he)

theorem StoppedBefore.mono_stopped {k l : Nat} (h : k ≤ l) {t : Worker} {id : String} {core : Core}
    {conn : Conn} {r : State} (hs : StoppedBefore k t id core conn r) :
    StoppedBefore l t id core conn r := by
  obtain ⟨h1, h2, pre, hq, h3⟩ := hs
  exact ⟨h1, h2, pre, hq.mono_quiet h, h3⟩

theorem quiet_readyPrefix (E : RequestEnv) (id : String) : Quiet 2 (readyPrefix E id) :=
  Quiet.append_quiet (by simp [Quiet, quietEv, callStage]) (quiet_readyFrames E 2)

theorem quiet_keystorePrefix (E : RequestEnv) (id domain : String) : Quiet 3 (keystorePrefix E id domain) :=
  ((quiet_readyPrefix E id).mono_quiet (by decide)).append_quiet (by simp [Quiet, quietEv, callStage])

theorem quiet_fetchPrefix (E : RequestEnv) (id domain url salt hostID : String) :
    Quiet 4 (fetchPrefix E id domain url salt hostID) :=
  ((quiet_keystorePrefix E id domain).mono_quiet (by decide)).append_quiet (by simp [Quiet, quietEv, callStage])

theorem quiet_parsePrefix (E : RequestEnv) (id domain url salt hostID jsonString : String) :
    Quiet 5 (parsePrefix E id domain url salt hostID jsonString) :=
  ((quiet_fetchPrefix E id domain url salt hostID).mono_quiet (by decide)).append_quiet
    (by simp [Quiet, quietEv, callStage])

theorem quiet_signaturePrefix (E : RequestEnv) (id domain url salt hostID jsonString : String)
    (vmcpData : ParameterMap) :
    Quiet 7 (signaturePrefix E id domain url salt hostID jsonString vmcpData) :=
  ((quiet_parsePrefix E id domain url salt hostID jsonString).mono_quiet (by decide)).append_quiet
    (by simp [Quiet, quietEv, callStage])

theorem quiet_validatePrefix (E : RequestEnv) (id domain url salt hostID jsonString : String)
    (vmcpData : ParameterMap) :
    Quiet 8 (validatePrefix E id domain url salt hostID jsonString vmcpData) :=
  ((quiet_signaturePrefix E id domain url salt hostID jsonString vmcpData).mono_quiet (by decide)).append_quiet
    (by simp [Quiet, quietEv, callStage])

/-- An exception thrown after a quiet prefix. -/
theorem stopped_thrown (K : Consts) {k : Nat} (t : Worker) (id : String) (core : Core)
    (conn : Conn) (pre : List Ev) (hq : Quiet k pre) :
    StoppedBefore k t id core conn
      (requestSession_catch K t id (.thrown, { core := core, conn := conn, out := pre })) :=
  ⟨rfl, rfl, pre, hq, Or.inl ⟨_, _, rfl⟩⟩

/-- A gate that fails after a quiet prefix. -/
theorem stopped_failed (K : Consts) {k : Nat} (t : Worker) (id : String) (core : Core)
    (conn : Conn) (pre : List Ev) (hq : Quiet k pre) (m : String) (code : Int) :
    StoppedBefore k t id core conn
      (requestSession_catch K t id
        (.returned, State.remove_one { core := core, conn := conn, out := pre ++ [failed id m code] } t)) :=
  ⟨rfl, rfl, pre, hq, Or.inl ⟨_, _, rfl⟩⟩

/-- An abort acknowledged after a quiet prefix. -/
theorem stopped_aborted (K : Consts) {k : Nat} (t : Worker) (id : String) (core : Core)
    (conn : Conn) (pre : List Ev) (hq : Quiet k pre) :
    StoppedBefore k t id core conn
      (requestSession_catch K t id
        (.returned, { core := core,
                      conn := { conn with runningThreads := conn.runningThreads.erase t },
                      out := pre ++ [Ev.call .abortHandled] })) :=
  ⟨rfl, rfl, pre, hq, Or.inr rfl⟩

theorem reach_ready (K : Consts) (E : RequestEnv) (t : Worker) (id url : String)
    (core : Core) (conn : Conn) :
    (conn.throttleBlock = false ∧
      requestSession_thread K E t id url (State.init core conn)
        = requestSession_catch K t id (stageReady K E t id url (State.init core conn)))
    ∨ (conn.throttleBlock = true ∧
        requestSession_thread K E t id url (State.init core conn)
          = { core := core
              conn := { conn with runningThreads := conn.runningThreads.erase t }
              out := [failed id "Request denied by throttle protection" K.HVE_ACCESS_DENIED] }) := by
  cases hb : conn.throttleBlock
  · left; simp [requestSession_thread, State.init, hb]
  · right
    simp [requestSession_thread, State.init, hb, State.emit, State.remove_one]

theorem reach_keystore (K : Consts) (E : RequestEnv) (t : Worker) (id url : String)
    (core : Core) (conn : Conn) (hb : conn.throttleBlock = false) :
    (E.waitTillReady = .returns () ∧ E.abortedAfterReady = false ∧
      requestSession_thread K E t id url (State.init core conn)
        = requestSession_catch K t id
            (stageKeystore K E t id url { core := core, conn := conn, out := readyPrefix E id }))
    ∨ StoppedBefore 2 t id core conn (requestSession_thread K E t id url (State.init core conn)) := by
  rcases reach_ready K E t id url core conn with ⟨_, h⟩ | ⟨h, _⟩
  · rw [h]
    unfold stageReady
    simp only [State.init, State.emit, raiseAll_eq, State.emitAll, List.nil_append,
      List.cons_append]
    cases hw : E.waitTillReady with
    | throws => exact Or.inr (stopped_thrown K t id core conn _ (quiet_readyPrefix E id))
    | returns u =>
      cases ha : E.abortedAfterReady
      · left; simp [readyPrefix, readyFrames]
      · exact Or.inr (stopped_aborted K t id core conn _ (quiet_readyPrefix E id))
  · simp [hb] at h

theorem reach_fetch (K : Consts) (E : RequestEnv) (t : Worker) (id url : String)
    (core : Core) (conn : Conn) (hb : conn.throttleBlock = false) :
    (AtFetch E ∧
      requestSession_thread K E t id url (State.init core conn)
        = requestSession_catch K t id
            (stageFetch K E t id url
              { core := core, conn := conn, out := keystorePrefix E id conn.domain }))
    ∨ StoppedBefore 3 t id core conn (requestSession_thread K E t id url (State.init core conn)) := by
  rcases reach_keystore K E t id url core conn hb with ⟨h1, h2, h⟩ | h
  · rw [h]
    unfold stageKeystore
    simp only [State.emit]
    have q := (quiet_readyPrefix E id).mono_quiet (show 2 ≤ 3 by decide)
    cases hu : E.updateAuthorizedKeystore with
    | throws =>
      exact Or.inr (stopped_thrown K t id core conn _
        (by simpa [Quiet, List.all_append, quietEv, callStage] using q))
    | returns u =>
      cases hv : E.keystoreValid
      · exact Or.inr (stopped_failed K t id core conn _
          (by simpa [Quiet, List.all_append, quietEv, callStage] using q) _ _)
      · cases hd : E.isDomainValid with
        | throws =>
          exact Or.inr (stopped_thrown K t id core conn _
            (by simpa [Quiet, List.all_append, quietEv, callStage] using q))
        | returns d =>
          cases d
          · exact Or.inr (stopped_failed K t id core conn _
              (by simpa [Quiet, List.all_append, quietEv, callStage] using q) _ _)
          · left
            exact ⟨⟨h1, h2, ⟨u, hu⟩, hv, hd⟩, by simp [keystorePrefix]⟩
  · exact Or.inr (h.mono_stopped (by decide))

theorem reach_parse (K : Consts) (E : RequestEnv) (t : Worker) (id url : String)
    (core : Core) (conn : Conn) (hb : conn.throttleBlock = false) :
    (∃ salt hostID jsonString, AtParse E salt hostID jsonString ∧
      requestSession_thread K E t id url (State.init core conn)
        = requestSession_catch K t id
            (stageParse K E t id salt jsonString
              { core := core, conn := conn, out := fetchPrefix E id conn.domain url salt hostID }))
    ∨ StoppedBefore 4 t id core conn (requestSession_thread K E t id url (State.init core conn)) := by
  rcases reach_fetch K E t id url core conn hb with ⟨h1, h⟩ | h
  · rw [h]
    unfold stageFetch
    simp only [State.emit]
    have q := (quiet_keystorePrefix E id conn.domain).mono_quiet (show 3 ≤ 4 by decide)
    cases hs : E.generateSalt with
    | throws =>
      exact Or.inr (stopped_thrown K t id core conn _
        (by simpa [Quiet, List.all_append, quietEv, callStage] using q))
    | returns salt =>
      cases hh : E.calculateHostID with
      | throws =>
        exact Or.inr (stopped_thrown K t id core conn _
          (by simpa [Quiet, List.all_append, quietEv, callStage] using q))
      | returns hostID =>
        cases hd : E.downloadText with
        | throws =>
          exact Or.inr (stopped_thrown K t id core conn _
            (by simpa [Quiet, List.all_append, quietEv, callStage] using q))
        | returns p =>
          obtain ⟨res, jsonString⟩ := p
          by_cases hr : res < 0
          · simp only [hr, if_true]
            exact Or.inr (stopped_failed K t id core conn _
              (by simpa [Quiet, List.all_append, quietEv, callStage] using q) _ _)
          · left
            refine ⟨salt, hostID, jsonString, ⟨h1, hs, hh, ⟨res, hd, not_lt.mp hr⟩⟩, ?_⟩
            simp [hr, fetchPrefix]
  · exact Or.inr (h.mono_stopped (by decide))

theorem reach_schema (K : Consts) (E : RequestEnv) (t : Worker) (id url : String)
    (core : Core) (conn : Conn) (hb : conn.throttleBlock = false) :
    (∃ salt hostID jsonString vmcpData, AtSchema E salt hostID jsonString vmcpData ∧
      requestSession_thread K E t id url (State.init core conn)
        = requestSession_catch K t id
            (stageSchema K E t id salt vmcpData
              { core := core, conn := conn,
                out := parsePrefix E id conn.domain url salt hostID jsonString }))
    ∨ StoppedBefore 5 t id core conn (requestSession_thread K E t id url (State.init core conn)) := by
  rcases reach_parse K E t id url core conn hb with ⟨salt, hostID, jsonString, h1, h⟩ | h
  · rw [h]
    unfold stageParse
    simp only [State.emit]
    have q := (quiet_fetchPrefix E id conn.domain url salt hostID).mono_quiet (show 4 ≤ 5 by decide)
    cases hp : E.jsonParse with
    | throws =>
      exact Or.inr (stopped_failed K t id core conn _
        (by simpa [Quiet, List.all_append, quietEv, callStage] using q) _ _)
    | returns o =>
      cases o with
      | none =>
        exact Or.inr (stopped_failed K t id core conn _
          (by simpa [Quiet, List.all_append, quietEv, callStage] using q) _ _)
      | some vmcpData =>
        left
        exact ⟨salt, hostID, jsonString, vmcpData, ⟨h1, hp⟩, by simp [parsePrefix]⟩
  · exact Or.inr (h.mono_stopped (by decide))

/-- The run passed the schema check and is about to validate the signature. -/
theorem reach_signature (K : Consts) (E : RequestEnv) (t : Worker) (id url : String)
    (core : Core) (conn : Conn) (hb : conn.throttleBlock = false) :
    (∃ salt hostID jsonString vmcpData, AtSchema E salt hostID jsonString vmcpData ∧
      schemaOK vmcpData ∧
      requestSession_thread K E t id url (State.init core conn)
        = requestSession_catch K t id
            (stageSignature K E t id salt vmcpData
              { core := core, conn := conn,
                out := parsePrefix E id conn.domain url salt hostID jsonString }))
    ∨ StoppedBefore 6 t id core conn (requestSession_thread K E t id url (State.init core conn)) := by
  rcases reach_schema K E t id url core conn hb with
    ⟨salt, hostID, jsonString, vmcpData, h1, h⟩ | h
  · rw [h]
    unfold stageSchema
    simp only [State.emit]
    have q := (quiet_parsePrefix E id conn.domain url salt hostID jsonString).mono_quiet
      (show 5 ≤ 6 by decide)
    cases hn : vmcpData.contains "name"
    · exact Or.inr (stopped_failed K t id core conn _ q _ _)
    · cases hs : vmcpData.contains "secret"
      · exact Or.inr (stopped_failed K t id core conn _ q _ _)
      · cases hg : vmcpData.contains "signature"
        · exact Or.inr (stopped_failed K t id core conn _ q _ _)
        · cases hu : vmcpData.contains "diskURL"
          · left
            exact ⟨salt, hostID, jsonString, vmcpData, h1, ⟨hn, hs, hg, by simp [hu]⟩, by simp⟩
          · cases hc : vmcpData.contains "diskChecksum"
            · exact Or.inr (stopped_failed K t id core conn _ q _ _)
            · left
              exact ⟨salt, hostID, jsonString, vmcpData, h1, ⟨hn, hs, hg, fun _ => hc⟩, by simp⟩
  · exact Or.inr (h.mono_stopped (by decide))

theorem reach_validate (K : Consts) (E : RequestEnv) (t : Worker) (id url : String)
    (core : Core) (conn : Conn) (hb : conn.throttleBlock = false) :
    (∃ salt hostID jsonString vmcpData, AtValidate E salt hostID jsonString vmcpData ∧
      requestSession_thread K E t id url (State.init core conn)
        = requestSession_catch K t id
            (stageValidate K E t id vmcpData
              { core := core, conn := conn,
                out := signaturePrefix E id conn.domain url salt hostID jsonString vmcpData }))
    ∨ StoppedBefore 7 t id core conn (requestSession_thread K E t id url (State.init core conn)) := by
  rcases reach_signature K E t id url core conn hb with
    ⟨salt, hostID, jsonString, vmcpData, h1, h2, h⟩ | h
  · rw [h]
    unfold stageSignature
    simp only [State.emit]
    have q := (quiet_parsePrefix E id conn.domain url salt hostID jsonString).mono_quiet
      (show 5 ≤ 7 by decide)
    cases hs : E.signatureValidate with
    | throws =>
      exact Or.inr (stopped_thrown K t id core conn _
        (by simpa [Quiet, List.all_append, quietEv, callStage] using q))
    | returns res =>
      by_cases hr : res < 0
      · simp only [hr, if_true]
        exact Or.inr (stopped_failed K t id core conn _
          (by simpa [Quiet, List.all_append, quietEv, callStage] using q) _ _)
      · left
        refine ⟨salt, hostID, jsonString, vmcpData, ⟨h1, h2, ⟨res, hs, not_lt.mp hr⟩⟩, ?_⟩
        simp [hr, signaturePrefix]
  · exact Or.inr (h.mono_stopped (by decide))

theorem reach_consent (K : Consts) (E : RequestEnv) (t : Worker) (id url : String)
    (core : Core) (conn : Conn) (hb : conn.throttleBlock = false) :
    (∃ salt hostID jsonString vmcpData res, AtValidate E salt hostID jsonString vmcpData ∧
      E.sessionValidate = .returns res ∧ res ≠ 2 ∧
      requestSession_thread K E t id url (State.init core conn)
        = requestSession_catch K t id
            (stageConsent K E t id vmcpData res
              { core := core, conn := conn,
                out := validatePrefix E id conn.domain url salt hostID jsonString vmcpData }))
    ∨ StoppedBefore 8 t id core conn (requestSession_thread K E t id url (State.init core conn)) := by
  rcases reach_validate K E t id url core conn hb with
    ⟨salt, hostID, jsonString, vmcpData, h1, h⟩ | h
  · rw [h]
    unfold stageValidate
    simp only [State.emit]
    have q := (quiet_signaturePrefix E id conn.domain url salt hostID jsonString vmcpData).mono_quiet
      (show 7 ≤ 8 by decide)
    cases hs : E.sessionValidate with
    | throws =>
      exact Or.inr (stopped_thrown K t id core conn _
        (by simpa [Quiet, List.all_append, quietEv, callStage] using q))
    | returns res =>
      by_cases hr : res = 2
      · simp only [hr, if_true]
        exact Or.inr (stopped_failed K t id core conn _
          (by simpa [Quiet, List.all_append, quietEv, callStage] using q) _ _)
      · left
        refine ⟨salt, hostID, jsonString, vmcpData, res, h1, rfl, hr, ?_⟩
        simp [hr, validatePrefix]
  · exact Or.inr (h.mono_stopped (by decide))

theorem Quiet.ev_quiet {k : Nat} {l : List Ev} (h : Quiet k l) {e : Ev} (he : e ∈ l) :
    quietEv k e = true := by
  simp only [Quiet, List.all_eq_true] at h
  exact h e he

theorem quietEv_not_succeed {k : Nat} {e : Ev} (h : quietEv k e = true) :
    isSucceed e = false := by
  cases e <;> simp_all [quietEv, isSucceed]

theorem quietEv_not_terminal {k : Nat} (id : String) {e : Ev} (h : quietEv k e = true) :
    isTerminal id e = false := by
  cases e <;> simp_all [quietEv, isTerminal]

theorem quietEv_call {k : Nat} {c : Callee} (h : quietEv k (.call c) = true) :
    callStage c < k ∧ c ≠ .abortHandled := by
  cases c <;> simp_all [quietEv, callStage]

theorem Quiet.no_terminals {k : Nat} {l : List Ev} (h : Quiet k l) (id : String) :
    terminals id l = [] := by
  simp only [terminals, List.filter_eq_nil_iff]
  intro e he
  simp [quietEv_not_terminal id (h.ev_quiet he)]

/-- Calls recorded in a run that ended before stage `k`. -/
theorem StoppedBefore.call_stage {k : Nat} {t : Worker} {id : String} {core : Core} {conn : Conn}
    {r : State} (hs : StoppedBefore k t id core conn r) {c : Callee}
    (hc : Ev.call c ∈ r.out) : c = .abortHandled ∨ callStage c < k := by
  obtain ⟨_, _, pre, hq, h | h⟩ := hs
  · obtain ⟨m, code, h⟩ := h
    rw [h] at hc
    simp only [List.mem_append, List.mem_singleton, failed] at hc
    rcases hc with hc | hc
    · exact Or.inr (quietEv_call (hq.ev_quiet hc)).1
    · exact absurd hc (by simp)
  · rw [h] at hc
    simp only [List.mem_append, List.mem_singleton] at hc
    rcases hc with hc | hc
    · exact Or.inr (quietEv_call (hq.ev_quiet hc)).1
    · left; simpa using hc

/-- A run that ended early never reports success. -/
theorem StoppedBefore.no_succeed {k : Nat} {t : Worker} {id : String} {core : Core}
    {conn : Conn} {r : State} (hs : StoppedBefore k t id core conn r) :
    ∀ e ∈ r.out, isSucceed e = false := by
  obtain ⟨_, _, pre, hq, h | h⟩ := hs
  · obtain ⟨m, code, h⟩ := h
    intro e he
    rw [h] at he
    simp only [List.mem_append, List.mem_singleton] at he
    rcases he with he | he
    · exact quietEv_not_succeed (hq.ev_quiet he)
    · subst he; simp [failed, isSucceed]
  · intro e he
    rw [h] at he
    simp only [List.mem_append, List.mem_singleton] at he
    rcases he with he | he
    · exact quietEv_not_succeed (hq.ev_quiet he)
    · subst he; rfl

/-- Terminal events of a run that ended early: one `failed`, or none together
with an acknowledged abort. -/
theorem StoppedBefore.terminal_events {k : Nat} {t : Worker} {id : String} {core : Core}
    {conn : Conn} {r : State} (hs : StoppedBefore k t id core conn r) :
    (∃ m code, terminals id r.out = [failed id m code] ∧ Ev.call .abortHandled ∉ r.out)
    ∨ (terminals id r.out = [] ∧ Ev.call .abortHandled ∈ r.out) := by
  obtain ⟨_, _, pre, hq, h | h⟩ := hs
  · obtain ⟨m, code, h⟩ := h
    left
    refine ⟨m, code, ?_, ?_⟩
    · have := hq.no_terminals id
      simp only [terminals] at this
      simp [h, terminals, List.filter_append, this, failed, isTerminal]
    · rw [h]
      simp only [List.mem_append, List.mem_singleton, failed, not_or]
      exact ⟨fun hc => (quietEv_call (hq.ev_quiet hc)).2 rfl, by simp⟩
  · right
    have := hq.no_terminals id
    simp only [terminals] at this
    simp [h, terminals, List.filter_append, this, isTerminal]

theorem emit_extends (σ : State) (e : Ev) : σ.out <+: (σ.emit e).out := by
  simp [State.emit]

theorem stageOpen_extends (K : Consts) (E : RequestEnv) (t : Worker) (id : String)
    (v : ParameterMap) (σ : State) : σ.out <+: (stageOpen K E t id v σ).2.out := by
  unfold stageOpen
  cases E.sessionOpen with
  | throws => simp [State.emit]
  | returns o =>
    cases o with
    | none => simp [State.emit, State.remove_one]
    | some session =>
      cases E.sessionWait with
      | throws => simp [State.emit]
      | returns _ =>
        cases E.checkDaemonNeed with
        | throws => simp [State.emit]
        | returns _ =>
          cases E.storeSession with
          | throws => simp [State.emit]
          | returns cvmSession =>
            simp only [State.emit, State.emitAll, State.putSession, List.append_assoc]
            exact List.prefix_append _ _

theorem stageConsent_extends (K : Consts) (E : RequestEnv) (t : Worker) (id : String)
    (v : ParameterMap) (res : Int) (σ : State) :
    σ.out <+: (stageConsent K E t id v res σ).2.out := by
  unfold stageConsent
  by_cases h0 : res = 0
  · simp only [h0, if_true, confirm, __callbackConfim]
    cases E.confirm with
    | throws => simp [State.emit]
    | returns answer =>
      by_cases ha : answer = K.UI_OK
      · simp only [ha, ne_eq, not_true_eq_false, if_false]
        refine List.IsPrefix.trans ?_ (stageOpen_extends K E t id v _)
        simp [State.emit]
      · simp only [ne_eq, ha, not_false_eq_true, if_true]
        cases E.abortedAfterConfirm <;> simp [State.emit, State.remove_one]
  · simp only [h0, if_false]
    refine List.IsPrefix.trans ?_ (stageOpen_extends K E t id v _)
    simp [State.emit]

theorem stageValidate_extends (K : Consts) (E : RequestEnv) (t : Worker) (id : String)
    (v : ParameterMap) (σ : State) : σ.out <+: (stageValidate K E t id v σ).2.out := by
  unfold stageValidate
  cases E.sessionValidate with
  | throws => simp [State.emit]
  | returns res =>
    by_cases h2 : res = 2
    · simp [h2, State.emit, State.remove_one]
    · simp only [h2, if_false]
      exact (emit_extends σ _).trans (stageConsent_extends K E t id v res _)

theorem stageSignature_extends (K : Consts) (E : RequestEnv) (t : Worker) (id salt : String)
    (v : ParameterMap) (σ : State) : σ.out <+: (stageSignature K E t id salt v σ).2.out := by
  unfold stageSignature
  cases E.signatureValidate with
  | throws => simp [State.emit]
  | returns res =>
    by_cases h : res < 0
    · simp [h, State.emit, State.remove_one]
    · simp only [h, if_false]
      refine List.IsPrefix.trans ?_ (stageValidate_extends K E t id v _)
      simp [State.emit]

theorem requestSession_catch_extends (K : Consts) (t : Worker) (id : String)
    (p : Exit × State) : p.2.out <+: (requestSession_catch K t id p).out := by
  obtain ⟨e, σ⟩ := p
  cases e <;> simp [requestSession_catch, State.emit, State.remove_one]

theorem stageOpen_spec (K : Consts) (E : RequestEnv) (t : Worker) (id : String)
    (v : ParameterMap) (σ : State) :
    ∃ l, (stageOpen K E t id v σ).2.out = σ.out ++ l
      ∧ Ev.call (.sessionOpen v) ∈ l
      ∧ (∀ e ∈ l, isInteract e = false)
      ∧ (stageOpen K E t id v σ).2.conn.throttle = σ.conn.throttle
      ∧ TailClass E id (stageOpen K E t id v σ).1 l := by
  unfold stageOpen
  cases E.sessionOpen with
  | throws =>
    simp only [State.emit, List.append_assoc]
    refine ⟨_, rfl, ?_, ?_, ?_, ?_⟩ <;>
      simp [isInteract, TailClass, terminals, isTerminal]
  | returns o =>
    cases o with
    | none =>
      simp only [State.emit, State.remove_one, List.append_assoc]
      refine ⟨_, rfl, ?_, ?_, ?_, ?_⟩ <;>
        simp [isInteract, TailClass, terminals, isTerminal, failed, Conn.throttle]
    | some session =>
      cases E.sessionWait with
      | throws =>
        simp only [State.emit, List.append_assoc]
        refine ⟨_, rfl, ?_, ?_, ?_, ?_⟩ <;>
          simp [isInteract, TailClass, terminals, isTerminal]
      | returns _ =>
        cases E.checkDaemonNeed with
        | throws =>
          simp only [State.emit, List.append_assoc]
          refine ⟨_, rfl, ?_, ?_, ?_, ?_⟩ <;>
            simp [isInteract, TailClass, terminals, isTerminal]
        | returns _ =>
          cases E.storeSession with
          | throws =>
            simp only [State.emit, List.append_assoc]
            refine ⟨_, rfl, ?_, ?_, ?_, ?_⟩ <;>
              simp [isInteract, TailClass, terminals, isTerminal]
          | returns cvmSession =>
            unfold initialPush sendStateVariables enablePeriodicJobs
            cases ha : cvmSession.isAborting
            · cases hi : E.sessionStateInfoToJSON with
              | throws =>
                simp only [ha, hi, State.emit, State.emitAll, State.putSession,
                  List.append_assoc, Bool.false_eq_true, if_false]
                refine ⟨_, rfl, ?_, ?_, ?_, ?_⟩ <;>
                  simp [isInteract, TailClass, terminals, isTerminal, succeedOpen, hi]
              | returns info =>
                simp only [ha, hi, State.emit, State.emitAll, State.putSession,
                  List.append_assoc, Bool.false_eq_true, if_false]
                refine ⟨_, rfl, ?_, ?_, ?_, ?_⟩ <;>
                  simp [isInteract, TailClass, terminals, isTerminal, succeedOpen]
            · simp only [ha, State.emit, State.emitAll, State.putSession, List.append_assoc,
                if_true]
              refine ⟨_, rfl, ?_, ?_, ?_, ?_⟩ <;>
                simp [isInteract, TailClass, terminals, isTerminal, succeedOpen]

theorem TailClass.prepend {E : RequestEnv} {id : String} {exit : Exit} {l : List Ev}
    (h : TailClass E id exit l) (front : List Ev) (ht : terminals id front = [])
    (ha : Ev.call .abortHandled ∉ front) : TailClass E id exit (front ++ l) := by
  have hterm : terminals id (front ++ l) = terminals id l := by
    simp only [terminals] at ht
    simp [terminals, List.filter_append, ht]
  cases exit <;> simp only [TailClass, hterm, List.mem_append, ha, false_or] at h ⊢ <;> exact h

theorem stageConsent_spec (K : Consts) (E : RequestEnv) (t : Worker) (id : String)
    (v : ParameterMap) (res : Int) (σ : State) :
    ∃ l, (stageConsent K E t id v res σ).2.out = σ.out ++ l
      ∧ TailClass E id (stageConsent K E t id v res σ).1 l
      ∧ (res = 0 → consentPrompt K E σ.conn.domain v ∈ l)
      ∧ (res ≠ 0 → (∀ e ∈ l, isInteract e = false) ∧ Ev.call (.sessionOpen v) ∈ l
          ∧ (stageConsent K E t id v res σ).2.conn.throttle = σ.conn.throttle) := by
  unfold stageConsent
  by_cases h0 : res = 0
  · simp only [h0, if_true, confirm, __callbackConfim]
    cases E.confirm with
    | throws =>
      simp only [State.emit, List.append_assoc]
      refine ⟨_, rfl, ?_, ?_, ?_⟩ <;>
        simp [TailClass, terminals, isTerminal, consentPrompt]
    | returns answer =>
      by_cases ha : answer = K.UI_OK
      · simp only [ha, ne_eq, not_true_eq_false, if_false]
        generalize hp : stageOpen K E t id v _ = p
        obtain ⟨l, h1, _, _, _, h5⟩ := stageOpen_spec K E t id v _
        rw [hp] at h1 h5
        simp only [State.emit, List.append_assoc] at h1
        rw [h1]
        refine ⟨_, rfl, ?_, ?_, ?_⟩
        · exact (h5.prepend [_, _, _, _] (by simp [terminals, isTerminal]) (by simp))
        · intro _; simp [consentPrompt]
        · intro h; exact h.elim
      · simp only [ne_eq, ha, not_false_eq_true, if_true]
        cases E.abortedAfterConfirm
        · simp only [State.emit, State.remove_one, List.append_assoc, Bool.false_eq_true,
            if_false]
          refine ⟨_, rfl, ?_, ?_, ?_⟩ <;>
            simp [TailClass, terminals, isTerminal, consentPrompt, failed]
        · simp only [State.emit, State.remove_one, List.append_assoc, if_true]
          refine ⟨_, rfl, ?_, ?_, ?_⟩ <;>
            simp [TailClass, terminals, isTerminal, consentPrompt]
  · simp only [h0, if_false]
    generalize hp : stageOpen K E t id v _ = p
    obtain ⟨l, h1, h2, h3, h4, h5⟩ := stageOpen_spec K E t id v _
    rw [hp] at h1 h4 h5
    simp only [State.emit, List.append_assoc] at h1 h4
    rw [h1]
    refine ⟨_, rfl, ?_, fun h => h.elim, fun _ => ⟨?_, ?_, h4⟩⟩
    · exact (h5.prepend [_, _] (by simp [terminals, isTerminal]) (by simp))
    · intro e he
      simp only [List.mem_append, List.mem_singleton] at he
      rcases he with he | he | he
      · subst he; rfl
      · subst he; rfl
      · exact h3 e he
    · simp [h2]

/-- What the handler of lines 663-672 adds to the trace. -/
theorem requestSession_catch_out (K : Consts) (t : Worker) (id : String) (p : Exit × State) :
    (requestSession_catch K t id p).conn.throttle = p.2.conn.throttle
    ∧ ((p.1 ≠ .thrown ∧ (requestSession_catch K t id p).out = p.2.out)
      ∨ (p.1 = .thrown ∧ (requestSession_catch K t id p).out = p.2.out ++
          [failed id "Unexpected exception occured while requesting session"
            K.HVE_EXTERNAL_ERROR])) := by
  obtain ⟨e, σ⟩ := p
  cases e <;> simp [requestSession_catch, State.emit, State.remove_one, Conn.throttle]

theorem handleAction_throttle (K : Consts) (A : ActionEnv) (id action : String)
    (parameters : ParameterMap) (σ : State) :
    (handleAction K A id action parameters σ).conn.throttle = σ.conn.throttle := by
  unfold handleAction requestSessionAction privilegedAction
  simp only [State.emit, State.push_back, Conn.throttle]
  repeat' split
  all_goals rfl

theorem handleAction_thread_throttle (K : Consts) (S : SessionEnv) (t : Worker)
    (session_id : Int) (eventID action : String) (parameters : ParameterMap) (σ : State) :
    (handleAction_thread K S t session_id eventID action parameters σ).conn.throttle
      = σ.conn.throttle := by
  unfold handleAction_thread
  simp only [State.emitAll, State.putSession, State.remove_one, Conn.throttle]
  repeat' split
  all_goals rfl

theorem requestSession_thread_blocked (K : Consts) (E : RequestEnv) (t : Worker)
    (eventID vmcpURL : String) (σ : State) (hb : σ.conn.throttleBlock = true) :
    requestSession_thread K E t eventID vmcpURL σ
      = (σ.emit (failed eventID "Request denied by throttle protection"
          K.HVE_ACCESS_DENIED)).remove_one t := by
  simp [requestSession_thread, hb]

theorem installHV_upToCoreFlag_throttle (K : Consts) (I : InstallEnv) (t : Worker)
    (eventID : String) (σ : State) :
    (installHV_upToCoreFlag K I t eventID σ).2.conn.throttle = σ.conn.throttle := by
  unfold installHV_upToCoreFlag
  simp only [confirm, __callbackConfim, raiseAll_eq]
  repeat' split
  all_goals simp [State.emit, State.emitAll, State.remove_one, clearCoreFlag, Conn.throttle]

theorem installHV_blocked (K : Consts) (I : InstallEnv) (E : RequestEnv) (t : Worker)
    (eventID vmcpURL : String) (σ : State) (hb : σ.conn.throttleBlock = true) :
    (installHV_andRequestSession_thread K I E t eventID vmcpURL σ).conn.throttleBlock = true := by
  unfold installHV_andRequestSession_thread
  have h := installHV_upToCoreFlag_throttle K I t eventID σ
  generalize installHV_upToCoreFlag K I t eventID σ = p at h
  obtain ⟨o, σ2⟩ := p
  have hb2 : σ2.conn.throttleBlock = true := by
    simp only [Conn.throttle, Prod.mk.injEq] at h
    rw [h.2.2]; exact hb
  cases o with
  | none => exact hb2
  | some site =>
    cases site
    · show (if I.abortedAfterConfirm = true then (clearConnFlag σ2).emit (.call .abortHandled)
        else clearConnFlag σ2).conn.throttleBlock = true
      split <;> simpa [clearConnFlag, State.emit] using hb2
    · simpa [installHV_fromConnFlag, clearConnFlag, State.emit] using hb2
    · simpa [installHV_fromConnFlag, clearConnFlag] using hb2
    · show (requestSession_thread K E t eventID vmcpURL (clearConnFlag σ2)).conn.throttleBlock
        = true
      rw [requestSession_thread_blocked _ _ _ _ _ _ (by simpa [clearConnFlag] using hb2)]
      simpa [State.emit, State.remove_one, clearConnFlag] using hb2
    · simpa [installHV_fromConnFlag, clearConnFlag] using hb2

theorem Activity.run_blocked (K : Consts) (a : Activity) (σ : State)
    (hb : σ.conn.throttleBlock = true) : (a.run K σ).conn.throttleBlock = true := by
  cases a with
  | incoming A id name parameters =>
    have := handleAction_throttle K A id name parameters σ
    simp only [Conn.throttle, Prod.mk.injEq] at this
    simp [Activity.run, this.2.2, hb]
  | worker w =>
    cases w with
    | requestSession E t eventID vmcpURL =>
      simp only [Activity.run, WorkerRun.run]
      rw [requestSession_thread_blocked K E t eventID vmcpURL σ hb]
      simpa [State.emit, State.remove_one] using hb
    | installAndRequest I E t eventID vmcpURL =>
      exact installHV_blocked K I E t eventID vmcpURL σ hb
    | sessionAction S t session_id eventID action parameters =>
      have := handleAction_thread_throttle K S t session_id eventID action parameters σ
      simp only [Conn.throttle, Prod.mk.injEq] at this
      simp [Activity.run, WorkerRun.run, this.2.2, hb]

theorem runAll_blocked (K : Consts) (as : List Activity) (σ : State)
    (hb : σ.conn.throttleBlock = true) : (runAll K as σ).conn.throttleBlock = true := by
  induction as generalizing σ with
  | nil => exact hb
  | cons a as ih => exact ih _ (a.run_blocked K σ hb)

/-- C4. `throttleBlock` is absorbing: from a state with `throttleBlock = true`,
any sequence of incoming actions and worker runs ends with
`throttleBlock = true`; and a `requestSession` action carrying `vmcp` does
nothing but emit `failed("Request denied by throttle protection",
ACCESS_DENIED)`: no worker is added to `runningThreads` and nothing is
called. -/
theorem throttleBlock_absorbing (K : Consts) (σ : State)
    (hb : σ.conn.throttleBlock = true) :
    (∀ as : List Activity, (runAll K as σ).conn.throttleBlock = true)
    ∧ (∀ (A : ActionEnv) (id : String) (parameters : ParameterMap),
        parameters.contains "vmcp" = true →
        handleAction K A id "requestSession" parameters σ
          = σ.emit (failed id "Request denied by throttle protection" K.HVE_ACCESS_DENIED)) := by
  refine ⟨fun as => runAll_blocked K as σ hb, fun A id parameters hv => ?_⟩
  simp [handleAction, requestSessionAction, hv, hb]

theorem requestSessionAction_running (K : Consts) (A : ActionEnv) (id : String)
    (parameters : ParameterMap) (σ : State) :
    (requestSessionAction K A id parameters σ).core.running = σ.core.running := by
  unfold requestSessionAction
  simp only [State.emit, State.push_back]
  repeat' split
  all_goals rfl

theorem privilegedAction_running (id action : String) (parameters : ParameterMap) (σ : State)
    (h : action ≠ "stopService") :
    (privilegedAction id action parameters σ).core.running = σ.core.running := by
  unfold privilegedAction
  simp only [State.emit, h, if_false]
  repeat' split
  all_goals rfl

/-- C5. On a connection with `privileged = false`, handling `stopService`,
`enumSessions` or `controlSession` leaves the daemon core as it is (so
`core.running` is unchanged) and adds no `reply` frame to the output, and the
session handler emits nothing for these names; and whenever `handleAction`
changes `core.running`, the connection is privileged and the action is
`stopService`. -/
theorem privileged_only (K : Consts) (A : ActionEnv) (id action : String)
    (parameters : ParameterMap) (σ : State) :
    (σ.conn.privileged = false →
      action = "stopService" ∨ action = "enumSessions" ∨ action = "controlSession" →
      (handleAction K A id action parameters σ).core = σ.core
      ∧ (∀ e ∈ (handleAction K A id action parameters σ).out, isReply e = true → e ∈ σ.out)
      ∧ (∀ (S : SessionEnv) (eventID : String) (p : ParameterMap) (s : Session),
          (Session.handleAction K S eventID action p s).2.2 = []))
    ∧ ((handleAction K A id action parameters σ).core.running ≠ σ.core.running →
        σ.conn.privileged = true ∧ action = "stopService") := by
  constructor
  · intro hp ha
    have hne : action ≠ "handshake" ∧ action ≠ "interactionCallback" ∧ action ≠ "requestSession"
        ∧ action ≠ "start" ∧ action ≠ "stop" ∧ action ≠ "pause" ∧ action ≠ "resume"
        ∧ action ≠ "hibernate" ∧ action ≠ "reset" ∧ action ≠ "close" ∧ action ≠ "sync"
        ∧ action ≠ "get" ∧ action ≠ "set" ∧ action ≠ "setProperty" := by
      rcases ha with h | h | h <;> subst h <;> decide
    obtain ⟨h1, h2, h3, h4, h5, h6, h7, h8, h9, h10, h11, h12, h13, h14⟩ := hne
    refine ⟨?_, ?_, ?_⟩
    · simp only [handleAction, h1, h2, h3, hp, if_false]
      split
      · split <;> simp [State.emit, State.push_back]
      · simp
    · simp only [handleAction, h1, h2, h3, hp, if_false]
      split
      · split
        · intro e he hr
          simp only [State.emit, List.mem_append, List.mem_singleton] at he
          rcases he with he | he
          · exact he
          · subst he; simp [isReply] at hr
        · intro e he _
          simpa [State.push_back] using he
      · intro e he _
        simpa using he
    · intro S eventID p s
      simp only [Session.handleAction, h4, h5, h6, h7, h8, h9, h10, h11, h12, h13, h14, if_false]
      split <;> rfl
  · intro hr
    by_contra hcon
    apply hr
    unfold handleAction
    by_cases h1 : action = "handshake"
    · by_cases hc : parameters.contains "auth" = true <;> simp [h1, hc, State.emit]
    · rw [if_neg h1]
      by_cases h2 : action = "interactionCallback"
      · rw [if_pos h2]
        simp only [State.emit]
        split <;> rfl
      · rw [if_neg h2]
        by_cases h3 : action = "requestSession"
        · rw [if_pos h3]
          exact requestSessionAction_running K A id parameters σ
        · rw [if_neg h3]
          by_cases h4 : parameters.contains "session_id" = true
          · rw [if_pos h4]
            simp only [State.emit, State.push_back]
            split <;> rfl
          · rw [if_neg h4]
            by_cases h5 : σ.conn.privileged = true
            · rw [if_pos h5]
              exact privilegedAction_running id action parameters σ (fun hs => hcon ⟨h5, hs⟩)
            · rw [if_neg h5]

theorem Quiet.no_sessionValidate {k : Nat} (hk : k ≤ 7) {l : List Ev} (hq : Quiet k l) :
    ∀ e ∈ l, isSessionValidate e = false := by
  intro e he
  have h := hq.ev_quiet he
  cases e with
  | call c =>
    have := (quietEv_call h).1
    cases c <;> simp_all [isSessionValidate, callStage]
    omega
  | _ => rfl

/-- What a run emits after the call of `hv->sessionValidate`. -/
theorem eventsAfter_validatePrefix (E : RequestEnv) (id domain url salt hostID js : String)
    (vd : ParameterMap) (l : List Ev) :
    eventsAfter isSessionValidate (validatePrefix E id domain url salt hostID js vd ++ l) = l := by
  have h := (quiet_signaturePrefix E id domain url salt hostID js vd).no_sessionValidate
    (le_refl 7)
  simp only [validatePrefix, List.append_assoc, List.singleton_append]
  rw [eventsAfter_append_of_none _ _ _ h]
  exact eventsAfter_cons_pos _ _ _ rfl

/-- A run that ended before `hv->sessionValidate` was called shows no consent
prompt. -/
theorem StoppedBefore.not_prompted {k : Nat} (hk : k ≤ 7) {t : Worker} {id : String}
    {core : Core} {conn : Conn} {r : State} (hs : StoppedBefore k t id core conn r) :
    promptedForConsent r.out = false := by
  have hno : ∀ e ∈ r.out, isSessionValidate e = false := by
    obtain ⟨_, _, pre, hq, h | h⟩ := hs
    · obtain ⟨m, code, h⟩ := h
      intro e he
      rw [h] at he
      rcases List.mem_append.mp he with he | he
      · exact hq.no_sessionValidate hk e he
      · simp only [List.mem_singleton] at he
        subst he; rfl
    · intro e he
      rw [h] at he
      rcases List.mem_append.mp he with he | he
      · exact hq.no_sessionValidate hk e he
      · simp only [List.mem_singleton] at he
        subst he; rfl
  simp [promptedForConsent, eventsAfter_none _ _ hno]

/-- A run that shows the consent prompt is not blocked and went through the
consent stage with a new session. -/
theorem prompted_run (K : Consts) (E : RequestEnv) (t : Worker) (id url : String)
    (core : Core) (conn : Conn)
    (hp : promptedForConsent (requestSession_thread K E t id url (State.init core conn)).out
      = true) :
    conn.throttleBlock = false
    ∧ ∃ salt hostID js vd,
        requestSession_thread K E t id url (State.init core conn)
          = requestSession_catch K t id
            (stageConsent K E t id vd 0
              { core := core, conn := conn,
                out := validatePrefix E id conn.domain url salt hostID js vd }) := by
  rcases reach_ready K E t id url core conn with ⟨hb, _⟩ | ⟨_, h⟩
  · refine ⟨hb, ?_⟩
    rcases reach_validate K E t id url core conn hb with ⟨salt, hostID, js, vd, _, h⟩ | h
    · cases hs : E.sessionValidate with
      | throws =>
        exfalso
        have hout : (requestSession_thread K E t id url (State.init core conn)).out
            = validatePrefix E id conn.domain url salt hostID js vd
              ++ [failedUnexpected K id] := by
          rw [h]
          simp [stageValidate, hs, requestSession_catch, State.emit, State.remove_one,
            validatePrefix, failedUnexpected]
        rw [hout, promptedForConsent, eventsAfter_validatePrefix] at hp
        simp [isInteract, failedUnexpected, failed] at hp
      | returns res =>
        by_cases h2 : res = 2
        · exfalso
          have hout : (requestSession_thread K E t id url (State.init core conn)).out
              = validatePrefix E id conn.domain url salt hostID js vd
                ++ [failed id "The password specified is invalid for this session"
                    K.HVE_PASSWORD_DENIED] := by
            rw [h]
            simp [stageValidate, hs, h2, requestSession_catch, State.emit, State.remove_one,
              validatePrefix]
          rw [hout, promptedForConsent, eventsAfter_validatePrefix] at hp
          simp [isInteract, failed] at hp
        · have hrun : requestSession_thread K E t id url (State.init core conn)
              = requestSession_catch K t id
                (stageConsent K E t id vd res
                  { core := core, conn := conn,
                    out := validatePrefix E id conn.domain url salt hostID js vd }) := by
            rw [h]; simp [stageValidate, hs, h2, State.emit, validatePrefix]
          by_cases h0 : res = 0
          · subst h0
            exact ⟨salt, hostID, js, vd, hrun⟩
          · exfalso
            obtain ⟨l, h1, _, _, h4⟩ := stageConsent_spec K E t id vd res
              { core := core, conn := conn,
                out := validatePrefix E id conn.domain url salt hostID js vd }
            obtain ⟨_, hco⟩ := requestSession_catch_out K t id
              (stageConsent K E t id vd res
                { core := core, conn := conn,
                  out := validatePrefix E id conn.domain url salt hostID js vd })
            rw [← hrun] at hco
            have hl := (h4 h0).1
            rcases hco with ⟨_, hco⟩ | ⟨_, hco⟩
            · rw [hco, h1, promptedForConsent, eventsAfter_validatePrefix] at hp
              simp only [List.any_eq_true] at hp
              obtain ⟨e, he, hi⟩ := hp
              rw [hl e he] at hi
              exact absurd hi (by simp)
            · rw [hco, h1, promptedForConsent, List.append_assoc,
                eventsAfter_validatePrefix] at hp
              simp only [List.any_eq_true, List.mem_append, List.mem_singleton] at hp
              obtain ⟨e, he | he, hi⟩ := hp
              · rw [hl e he] at hi
                exact absurd hi (by simp)
              · subst he
                simp [isInteract, failed] at hi
    · rw [h.not_prompted (le_refl 7)] at hp
      exact absurd hp (by simp)
  · rw [h] at hp
    simp [promptedForConsent, eventsAfter, List.dropWhile, isSessionValidate, failed] at hp

/-- A denied run took the throttle accounting of lines 598-605. -/
theorem denied_step (K : Consts) (q : Request) (core : Core) (conn : Conn)
    (hd : q.denied K core conn = true) :
    conn.throttleBlock = false
    ∧ (q.run K core conn).conn
        = { manageThrottling K q.E conn with
            runningThreads := (manageThrottling K q.E conn).runningThreads.erase q.thisThread } := by
  simp only [Request.denied, Bool.and_eq_true, Bool.not_eq_true'] at hd
  obtain ⟨⟨hp, hans⟩, hab⟩ := hd
  cases hconf : q.E.confirm with
  | throws => simp [hconf] at hans
  | returns answer =>
    simp only [hconf, bne_iff_ne, ne_eq] at hans
    unfold Request.run at hp ⊢
    obtain ⟨hb, salt, hostID, js, vd, hrun⟩ :=
      prompted_run K q.E q.thisThread q.eventID q.vmcpURL core conn hp
    refine ⟨hb, ?_⟩
    rw [hrun]
    simp [stageConsent, confirm, __callbackConfim, hconf, hans, hab,
      requestSession_catch, State.emit, State.remove_one, manageThrottling]

theorem manageThrottling_block (K : Consts) (E : RequestEnv) (c : Conn)
    (h : E.getMillis - c.throttleTimestamp ≤ K.THROTTLE_TIMESPAN)
    (hge : c.throttleDenies + 1 ≥ K.THROTTLE_TRIES) :
    manageThrottling K E c
      = { c with throttleDenies := c.throttleDenies + 1, throttleBlock := true } := by
  unfold manageThrottling
  rw [if_pos h]
  exact if_pos hge

theorem manageThrottling_count (K : Consts) (E : RequestEnv) (c : Conn)
    (h : E.getMillis - c.throttleTimestamp ≤ K.THROTTLE_TIMESPAN)
    (hlt : ¬ c.throttleDenies + 1 ≥ K.THROTTLE_TRIES) :
    manageThrottling K E c = { c with throttleDenies := c.throttleDenies + 1 } := by
  unfold manageThrottling
  rw [if_pos h]
  exact if_neg hlt

theorem manageThrottling_restart (K : Consts) (E : RequestEnv) (c : Conn)
    (h : ¬ E.getMillis - c.throttleTimestamp ≤ K.THROTTLE_TIMESPAN) :
    manageThrottling K E c
      = { c with throttleDenies := 1, throttleTimestamp := E.getMillisAgain } := by
  unfold manageThrottling
  exact if_neg h

/-- Denials that fall inside the window of `throttleTimestamp` count up to
`THROTTLE_TRIES` and then block the connection. -/
theorem denials_block (K : Consts) (t0 : Int) :
    ∀ (qs : List Request) (core : Core) (conn : Conn), qs ≠ [] →
      conn.throttleBlock = false → conn.throttleTimestamp = t0 →
      conn.throttleDenies + qs.length = K.THROTTLE_TRIES →
      allDenied K qs core conn = true →
      (∀ q ∈ qs, q.E.getMillis - t0 ≤ K.THROTTLE_TIMESPAN) →
      (runRequests K qs core conn).2.throttleBlock = true := by
  intro qs
  induction qs with
  | nil => intro _ _ h; exact absurd rfl h
  | cons q rest ih =>
    intro core conn _ hb ht hn hall hwin
    simp only [allDenied, Bool.and_eq_true] at hall
    obtain ⟨hd, hrest⟩ := hall
    obtain ⟨_, hconn⟩ := denied_step K q core conn hd
    have hq : q.E.getMillis - conn.throttleTimestamp ≤ K.THROTTLE_TIMESPAN := by
      rw [ht]; exact hwin q (List.mem_cons_self _ _)
    simp only [runRequests]
    cases rest with
    | nil =>
      have hge : conn.throttleDenies + 1 ≥ K.THROTTLE_TRIES := by
        simp only [List.length_singleton, Nat.cast_one] at hn
        omega
      rw [manageThrottling_block K q.E conn hq hge] at hconn
      simp only [runRequests, hconn]
    | cons q2 rest2 =>
      have hlt : ¬ (conn.throttleDenies + 1 ≥ K.THROTTLE_TRIES) := by
        simp only [List.length_cons, Nat.cast_add, Nat.cast_one] at hn
        omega
      rw [manageThrottling_count K q.E conn hq hlt] at hconn
      apply ih _ _ (List.cons_ne_nil _ _)
      · rw [hconn]; exact hb
      · rw [hconn]; exact ht
      · rw [hconn]
        simp only [List.length_cons, Nat.cast_add, Nat.cast_one] at hn ⊢
        omega
      · exact hrest
      · exact fun q' hq' => hwin q' (List.mem_cons_of_mem _ hq')

/-- C3 (amended). On a freshly constructed connection, with
`THROTTLE_TRIES >= 2`, after `THROTTLE_TRIES` consecutive runs that are each
denied at the consent prompt, where the first denial reads a clock value
greater than `THROTTLE_TIMESPAN` and every later denial reads the clock at
most `THROTTLE_TIMESPAN` after the timestamp recorded at the first one,
`throttleBlock` is true; and after any further actions and worker runs every
`requestSession` worker emits `failed(ACCESS_DENIED)` and nothing else. -/
theorem throttle_blocks_after_tries (K : Consts) (domain : String) (core : Core)
    (q1 : Request) (qs : List Request)
    (htries : ((q1 :: qs).length : Int) = K.THROTTLE_TRIES) (h2 : 2 ≤ K.THROTTLE_TRIES)
    (hdenied : allDenied K (q1 :: qs) core (Conn.new domain) = true)
    (hfirst : K.THROTTLE_TIMESPAN < q1.E.getMillis)
    (hwindow : ∀ q ∈ qs, q.E.getMillis - q1.E.getMillisAgain ≤ K.THROTTLE_TIMESPAN) :
    (runRequests K (q1 :: qs) core (Conn.new domain)).2.throttleBlock = true
    ∧ ∀ (as : List Activity) (q : Request),
        (q.run K
          (runAll K as
            { core := (runRequests K (q1 :: qs) core (Conn.new domain)).1
              conn := (runRequests K (q1 :: qs) core (Conn.new domain)).2
              out := [] }).core
          (runAll K as
            { core := (runRequests K (q1 :: qs) core (Conn.new domain)).1
              conn := (runRequests K (q1 :: qs) core (Conn.new domain)).2
              out := [] }).conn).out
        = [failed q.eventID "Request denied by throttle protection" K.HVE_ACCESS_DENIED] := by
  have hblock : (runRequests K (q1 :: qs) core (Conn.new domain)).2.throttleBlock = true := by
    simp only [allDenied, Bool.and_eq_true] at hdenied
    obtain ⟨hd, hrest⟩ := hdenied
    obtain ⟨_, hconn⟩ := denied_step K q1 core (Conn.new domain) hd
    have hgt : ¬ (q1.E.getMillis - (Conn.new domain).throttleTimestamp ≤ K.THROTTLE_TIMESPAN) := by
      simp only [Conn.new]; omega
    simp only [runRequests]
    have hne : qs ≠ [] := by
      intro h
      subst h
      simp only [List.length_singleton, Nat.cast_one] at htries
      omega
    rw [manageThrottling_restart K q1.E (Conn.new domain) hgt] at hconn
    apply denials_block K q1.E.getMillisAgain qs _ _ hne
    · rw [hconn]; rfl
    · rw [hconn]
    · rw [hconn]
      simp only [List.length_cons, Nat.cast_add, Nat.cast_one] at htries
      show (1 : Int) + qs.length = K.THROTTLE_TRIES
      omega
    · exact hrest
    · exact hwindow
  refine ⟨hblock, fun as q => ?_⟩
  have hb := runAll_blocked K as
    { core := (runRequests K (q1 :: qs) core (Conn.new domain)).1
      conn := (runRequests K (q1 :: qs) core (Conn.new domain)).2
      out := [] } hblock
  rcases reach_ready K q.E q.thisThread q.eventID q.vmcpURL
      (runAll K as
        { core := (runRequests K (q1 :: qs) core (Conn.new domain)).1
          conn := (runRequests K (q1 :: qs) core (Conn.new domain)).2
          out := [] }).core
      (runAll K as
        { core := (runRequests K (q1 :: qs) core (Conn.new domain)).1
          conn := (runRequests K (q1 :: qs) core (Conn.new domain)).2
          out := [] }).conn with ⟨hf, _⟩ | ⟨_, h⟩
  · rw [hb] at hf; exact absurd hf (by simp)
  · simp [Request.run, h]

theorem eachPreceded_append (P Q : Ev → Bool) (prev : Option Ev) (l₁ l₂ : List Ev) :
    eachPreceded P Q prev (l₁ ++ l₂)
      = (eachPreceded P Q prev l₁ && eachPreceded P Q (lastOr prev l₁) l₂) := by
  induction l₁ generalizing prev with
  | nil => simp [eachPreceded, lastOr]
  | cons e l ih =>
    show eachPreceded P Q prev (e :: (l ++ l₂)) = _
    simp only [eachPreceded, lastOr, ih, Bool.and_assoc]

theorem lastOr_append (prev : Option Ev) (l₁ l₂ : List Ev) :
    lastOr prev (l₁ ++ l₂) = lastOr (lastOr prev l₁) l₂ := by
  induction l₁ generalizing prev with
  | nil => rfl
  | cons e l ih =>
    show lastOr prev (e :: (l ++ l₂)) = _
    simp only [lastOr, ih]

/-- What a monitor tick emits for the session, and what it does to the
record. -/
theorem tick_shape (K : Consts) (T : TickEnv) (s : Session) :
    (processPeriodicJobs K T s).1.uuid_str = s.uuid_str
    ∧ (processPeriodicJobs K T s).1.acceptPeriodicJobs = s.acceptPeriodicJobs
    ∧ (((processPeriodicJobs K T s).2.filter (isSessionEmission s.uuid_str) = []
          ∧ (processPeriodicJobs K T s).1.apiPortOnline = s.apiPortOnline)
      ∨ ((∃ url, (processPeriodicJobs K T s).2.filter (isSessionEmission s.uuid_str)
              = [apiStateChanged true url s.uuid_str])
          ∧ s.acceptPeriodicJobs = true ∧ s.apiPortOnline = false
          ∧ T.sessionState = K.SS_RUNNING
          ∧ (processPeriodicJobs K T s).1.apiPortOnline = true)
      ∨ ((∃ url, (processPeriodicJobs K T s).2.filter (isSessionEmission s.uuid_str)
              = [apiStateChanged false url s.uuid_str])
          ∧ s.apiPortOnline = true
          ∧ (processPeriodicJobs K T s).1.apiPortOnline = false)) := by
  unfold processPeriodicJobs
  by_cases ha : s.isAborting = true
  · simp [ha]
  · by_cases hp : s.acceptPeriodicJobs = true
    · by_cases hr : s.periodicsRunning = true
      · simp [ha, hp, hr]
      · simp only [ha, hp, hr, Bool.not_true, Bool.false_eq_true, if_false]
        unfold periodicJobsThread
        simp only [ha, if_false]
        cases T.update with
        | throws => simp [hp, isSessionEmission]
        | returns _ =>
          by_cases hs : T.sessionState = K.SS_RUNNING
          · cases ho : s.apiPortOnline
            · cases T.isAPIAliveShort with
              | throws => simp [hp, hs, ho, isSessionEmission]
              | returns b =>
                cases b <;> simp [hp, hs, ho, isSessionEmission, apiStateChanged]
            · by_cases hc : s.apiPortCounter + 1 > 10
              · cases T.isAPIAliveLong with
                | throws => simp [hp, hs, ho, hc, isSessionEmission]
                | returns b =>
                  cases b
                  · by_cases hd : s.apiPortDownCounter + 1 ≥ K.CVMWA_SESS_APIPORT_DOWN_RETRIES
                    · simp [hp, hs, ho, hc, hd, isSessionEmission, apiStateChanged]
                    · simp [hp, hs, ho, hc, hd, isSessionEmission]
                  · simp [hp, hs, ho, hc, isSessionEmission]
              · simp [hp, hs, ho, hc, isSessionEmission]
          · cases ho : s.apiPortOnline <;> simp [hp, hs, ho, isSessionEmission, apiStateChanged]
    · simp [ha, hp]

/-- What the `stateChanged` callback emits for the session, and what it does
to the record. -/
theorem callback_shape (K : Consts) (C : CallbackEnv) (args : List Variant) (s : Session) :
    (__cbStateChanged K C args s).1.uuid_str = s.uuid_str
    ∧ (__cbStateChanged K C args s).1.acceptPeriodicJobs = s.acceptPeriodicJobs
    ∧ (((__cbStateChanged K C args s).2.filter (isSessionEmission s.uuid_str) = []
          ∧ (__cbStateChanged K C args s).1 = s)
      ∨ ((∃ info, (__cbStateChanged K C args s).2.filter (isSessionEmission s.uuid_str)
              = [Ev.stateVariables s.uuid_str info, Ev.sendEvent "stateChanged" args s.uuid_str])
          ∧ (__cbStateChanged K C args s).1 = s)
      ∨ ((∃ info url, (__cbStateChanged K C args s).2.filter (isSessionEmission s.uuid_str)
              = [Ev.stateVariables s.uuid_str info, Ev.sendEvent "stateChanged" args s.uuid_str,
                 apiStateChanged false url s.uuid_str])
          ∧ s.apiPortOnline = true
          ∧ (__cbStateChanged K C args s).1.apiPortOnline = false)) := by
  unfold __cbStateChanged sendStateVariables
  by_cases ha : s.isAborting = true
  · simp [ha]
  · simp only [ha, if_false]
    cases C.sessionStateInfoToJSON with
    | throws => simp
    | returns info =>
      cases hg : getInt args with
      | none => simp [isSessionEmission]
      | some st =>
        by_cases hc : st ≠ K.SS_RUNNING ∧ s.apiPortOnline = true
        · simp [hc, isSessionEmission, apiStateChanged]
        · simp only [hc, if_false]
          simp [isSessionEmission]

/-- What the initial push emits for the session, and what it does to the
record. -/
theorem push_shape (E : RequestEnv) (eventID : String) (s : Session) :
    (initialPush E eventID s).2.1.uuid_str = s.uuid_str
    ∧ (initialPush E eventID s).2.1.apiPortOnline = s.apiPortOnline
    ∧ (((initialPush E eventID s).2.2.filter (isSessionEmission s.uuid_str) = []
          ∧ (initialPush E eventID s).2.1 = s)
      ∨ (initialPush E eventID s).2.2.filter (isSessionEmission s.uuid_str)
          = [Ev.sendEvent "stateChanged" [.int E.localState] s.uuid_str]
      ∨ (∃ info, (initialPush E eventID s).2.2.filter (isSessionEmission s.uuid_str)
          = [Ev.stateVariables s.uuid_str info,
             Ev.sendEvent "stateChanged" [.int E.localState] s.uuid_str])) := by
  unfold initialPush sendStateVariables enablePeriodicJobs
  cases ha : s.isAborting
  · cases E.sessionStateInfoToJSON with
    | throws => simp [isSessionEmission]
    | returns info => simp [isSessionEmission]
  · simp [isSessionEmission]

theorem isOnline_stateChanged (args : List Variant) (id : String) :
    isOnline (Ev.sendEvent "stateChanged" args id) = false := by
  cases args with
  | nil => rfl
  | cons a tl =>
    cases a with
    | bool b => cases b <;> simp [isOnline]
    | _ => rfl

theorem isOnline_stateVariables (id data : String) :
    isOnline (Ev.stateVariables id data) = false := rfl

theorem isOnline_offline (url id : String) :
    isOnline (apiStateChanged false url id) = false := rfl

theorem step_inv (K : Consts) (st : SessionStep) (s : Session) (prev : Option Ev)
    (hinv : StepInv s prev) :
    eachPreceded stateChangedOrOffline isOnline prev
        ((st.run K s).2.filter (isSessionEmission s.uuid_str)) = true
    ∧ StepInv (st.run K s).1 (lastOr prev ((st.run K s).2.filter (isSessionEmission s.uuid_str)))
    ∧ (st.run K s).1.uuid_str = s.uuid_str := by
  obtain ⟨hi1, hi2⟩ := hinv
  cases st with
  | openPush E eventID =>
    obtain ⟨h1, h2, h3⟩ := push_shape E eventID s
    simp only [SessionStep.run]
    refine ⟨?_, ?_, h1⟩
    · rcases h3 with ⟨h3, _⟩ | h3 | ⟨info, h3⟩ <;> rw [h3] <;>
        simp [eachPreceded, isOnline]
    · rcases h3 with ⟨h3, heq⟩ | h3 | ⟨info, h3⟩ <;> rw [h3]
      · rw [heq]; exact ⟨hi1, hi2⟩
      · simp [StepInv, lastOr, isStateChanged]
      · simp [StepInv, lastOr, isStateChanged]
  | tick T =>
    obtain ⟨h1, h2, h3⟩ := tick_shape K T s
    simp only [SessionStep.run]
    refine ⟨?_, ?_, h1⟩
    · rcases h3 with ⟨h3, _⟩ | ⟨⟨url, h3⟩, hacc, hoff, _, _⟩ | ⟨⟨url, h3⟩, _, _⟩ <;> rw [h3]
      · rfl
      · cases prev with
        | none => exact absurd rfl (hi1 hacc)
        | some d =>
          rcases hi2 d rfl with hd | hd | ⟨_, hd⟩
          · simp [eachPreceded, stateChangedOrOffline, hd]
          · simp [eachPreceded, stateChangedOrOffline, hd]
          · rw [hoff] at hd; exact absurd hd (by simp)
      · simp [eachPreceded, isOnline, apiStateChanged]
    · rcases h3 with ⟨h3, hon⟩ | ⟨⟨url, h3⟩, _, _, _, hon⟩ | ⟨⟨url, h3⟩, _, _⟩ <;> rw [h3]
      · simp only [lastOr, StepInv, h2, hon]
        exact ⟨hi1, hi2⟩
      · simp [StepInv, lastOr, isOnline, apiStateChanged, hon]
      · simp [StepInv, lastOr, isOffline, apiStateChanged]
  | stateChanged C args =>
    obtain ⟨h1, h2, h3⟩ := callback_shape K C args s
    simp only [SessionStep.run]
    refine ⟨?_, ?_, h1⟩
    · rcases h3 with ⟨h3, _⟩ | ⟨⟨info, h3⟩, _⟩ | ⟨⟨info, url, h3⟩, _, _⟩ <;> rw [h3] <;>
        simp [eachPreceded, isOnline_stateChanged, isOnline_stateVariables, isOnline_offline]
    · rcases h3 with ⟨h3, heq⟩ | ⟨⟨info, h3⟩, _⟩ | ⟨⟨info, url, h3⟩, _, _⟩ <;> rw [h3]
      · rw [heq]; exact ⟨hi1, hi2⟩
      · simp [StepInv, lastOr, isStateChanged]
      · simp [StepInv, lastOr, isOffline, apiStateChanged]

theorem runSteps_preceded (K : Consts) (steps : List SessionStep) :
    ∀ (s : Session) (prev : Option Ev), StepInv s prev →
      eachPreceded stateChangedOrOffline isOnline prev
        ((runSteps K steps s).2.filter (isSessionEmission s.uuid_str)) = true := by
  induction steps with
  | nil => intro s prev _; rfl
  | cons st rest ih =>
    intro s prev hinv
    obtain ⟨h1, h2, h3⟩ := step_inv K st s prev hinv
    simp only [runSteps, List.filter_append, eachPreceded_append, h1, Bool.true_and]
    have := ih (st.run K s).1 _ h2
    rw [h3] at this
    exact this

/-- C10 (amended). In every event trace of a session produced by initial
pushes, monitor ticks and `stateChanged` callbacks, starting from a record
that does not yet accept periodic jobs, each emitted `apiStateChanged(true, _)`
is immediately preceded, among that session's emissions, by a `stateChanged`
event or by `apiStateChanged(false, _)`. -/
theorem online_preceded (K : Consts) (steps : List SessionStep) (s : Session)
    (hfresh : s.acceptPeriodicJobs = false) :
    eachPreceded stateChangedOrOffline isOnline none (sessionTrace K steps s) = true :=
  runSteps_preceded K steps s none
    ⟨fun h => by rw [hfresh] at h; exact absurd h (by simp), fun d hd => by simp at hd⟩

theorem terminals_quiet_append {k : Nat} {pre : List Ev} (hq : Quiet k pre) (id : String)
    (l : List Ev) : terminals id (pre ++ l) = terminals id l := by
  have := hq.no_terminals id
  simp only [terminals] at this
  simp [terminals, List.filter_append, this]

/-- A run that stops right after a quiet prefix with one `failed`. -/
theorem stopped_of_out {k : Nat} (t : Worker) (id : String) (core : Core) (conn : Conn)
    (r : State) (pre : List Ev) (m : String) (code : Int) (hq : Quiet k pre)
    (hcore : r.core = core)
    (hconn : r.conn = { conn with runningThreads := conn.runningThreads.erase t })
    (hout : r.out = pre ++ [failed id m code]) : StoppedBefore k t id core conn r :=
  ⟨hcore, hconn, pre, hq, Or.inl ⟨m, code, hout⟩⟩

/-- C1. In every run of `requestSession_thread` that calls
`keystore.signatureValidate` and gets a negative code `res`, the only terminal
event is `failed` carrying `res`; no `succeed` is emitted and neither
`hv.sessionOpen` nor `Core.storeSession` is called. -/
theorem requestSession_signature_rejected
    (K : Consts) (E : RequestEnv) (thisThread : Worker) (eventID vmcpURL : String)
    (core : Core) (conn : Conn) (res : Int)
    (hcall : ∃ domain salt vmcpData, Ev.call (.signatureValidate domain salt vmcpData) ∈
      (requestSession_thread K E thisThread eventID vmcpURL (State.init core conn)).out)
    (hres : E.signatureValidate = .returns res) (hneg : res < 0) :
    terminals eventID (requestSession_thread K E thisThread eventID vmcpURL
        (State.init core conn)).out
      = [failed eventID "The VMCP response signature could not be validated" res]
    ∧ (∀ e ∈ (requestSession_thread K E thisThread eventID vmcpURL
        (State.init core conn)).out, isSucceed e = false)
    ∧ (∀ vmcpData, Ev.call (.sessionOpen vmcpData) ∉
        (requestSession_thread K E thisThread eventID vmcpURL (State.init core conn)).out)
    ∧ (∀ hvSession, Ev.call (.storeSession hvSession) ∉
        (requestSession_thread K E thisThread eventID vmcpURL (State.init core conn)).out) := by
  obtain ⟨d, s, v, hc⟩ := hcall
  rcases reach_ready K E thisThread eventID vmcpURL core conn with ⟨hb, _⟩ | ⟨_, h⟩
  · rcases reach_signature K E thisThread eventID vmcpURL core conn hb with
      ⟨salt, hostID, js, vd, _, _, h⟩ | h
    · have hq : Quiet 7 (parsePrefix E eventID conn.domain vmcpURL salt hostID js
          ++ [Ev.call (.signatureValidate conn.domain salt vd)]) :=
        ((quiet_parsePrefix E eventID conn.domain vmcpURL salt hostID js).mono_quiet (by decide)).append_quiet
          (by simp [Quiet, quietEv, callStage])
      have hs : StoppedBefore 7 thisThread eventID core conn
          (requestSession_thread K E thisThread eventID vmcpURL (State.init core conn)) := by
        rw [h]
        refine stopped_of_out thisThread eventID core conn _ _
          "The VMCP response signature could not be validated" res hq ?_ ?_ ?_ <;>
          simp [stageSignature, hres, hneg, requestSession_catch, State.emit, State.remove_one]
      refine ⟨?_, hs.no_succeed, ?_, ?_⟩
      · rw [h]
        simp only [stageSignature, hres, hneg, requestSession_catch, State.emit,
          State.remove_one, if_true, List.append_assoc]
        rw [terminals_quiet_append (quiet_parsePrefix E eventID conn.domain vmcpURL salt hostID js)]
        simp [terminals, isTerminal, failed]
      · intro vmcpData hmem
        rcases hs.call_stage hmem with h' | h' <;> simp [callStage] at h'
      · intro hvSession hmem
        rcases hs.call_stage hmem with h' | h' <;> simp [callStage] at h'
    · rcases h.call_stage hc with h' | h' <;> simp [callStage] at h'
  · simp [h, failed] at hc

/-- C2 (amended). In every run of `requestSession_thread` in which the keystore
is valid and the run asks `keystore.isDomainValid(domain)` and gets `false`,
the trace is: the two progress messages, the call of `waitTillReady`, the
prompts that `waitTillReady` raised, then the keystore stage and
`failed("The domain is not trusted", NOT_TRUSTED)`.  That `failed` is the only
terminal event; the `interact` events of the run are the prompts that
`waitTillReady` raised, so none is sent once `waitTillReady` has returned and
no consent prompt is shown; the run downloads nothing and never emits
`succeed`. -/
theorem requestSession_untrusted_domain
    (K : Consts) (E : RequestEnv) (thisThread : Worker) (eventID vmcpURL : String)
    (core : Core) (conn : Conn)
    (hcall : ∃ domain, Ev.call (.isDomainValid domain) ∈
      (requestSession_thread K E thisThread eventID vmcpURL (State.init core conn)).out)
    (hvalid : E.keystoreValid = true) (hdomain : E.isDomainValid = .returns false) :
    (requestSession_thread K E thisThread eventID vmcpURL (State.init core conn)).out
      = [.progress eventID "Preparing for session request",
         .progress eventID "Initializing hypervisor",
         .call .waitTillReady]
        ++ readyFrames E
        ++ [.progress eventID "Initializing crypto store",
            .call .updateAuthorizedKeystore,
            .call (.isDomainValid conn.domain),
            failed eventID "The domain is not trusted" K.HVE_NOT_TRUSTED]
    ∧ terminals eventID (requestSession_thread K E thisThread eventID vmcpURL
        (State.init core conn)).out
      = [failed eventID "The domain is not trusted" K.HVE_NOT_TRUSTED]
    ∧ (requestSession_thread K E thisThread eventID vmcpURL
        (State.init core conn)).out.filter isInteract = readyFrames E
    ∧ promptedForConsent (requestSession_thread K E thisThread eventID vmcpURL
        (State.init core conn)).out = false
    ∧ (∀ url, Ev.call (.downloadText url) ∉
        (requestSession_thread K E thisThread eventID vmcpURL (State.init core conn)).out)
    ∧ (∀ e ∈ (requestSession_thread K E thisThread eventID vmcpURL
        (State.init core conn)).out, isSucceed e = false) := by
  obtain ⟨d, hc⟩ := hcall
  rcases reach_ready K E thisThread eventID vmcpURL core conn with ⟨hb, _⟩ | ⟨_, h⟩
  · have hs : StoppedBefore 3 thisThread eventID core conn
        (requestSession_thread K E thisThread eventID vmcpURL (State.init core conn)) := by
      rcases reach_fetch K E thisThread eventID vmcpURL core conn hb with ⟨h1, _⟩ | h
      · have := h1.trusted
        rw [hdomain] at this
        simp at this
      · exact h
    have hout : (requestSession_thread K E thisThread eventID vmcpURL (State.init core conn)).out
        = readyPrefix E eventID
          ++ [.progress eventID "Initializing crypto store",
              .call .updateAuthorizedKeystore,
              .call (.isDomainValid conn.domain),
              failed eventID "The domain is not trusted" K.HVE_NOT_TRUSTED] := by
      rcases reach_keystore K E thisThread eventID vmcpURL core conn hb with ⟨_, _, h⟩ | h
      · rw [h] at hc ⊢
        unfold stageKeystore at hc ⊢
        cases hu : E.updateAuthorizedKeystore with
        | throws =>
          simp [hu, requestSession_catch, State.emit, State.remove_one, readyPrefix, failed] at hc
        | returns u =>
          simp [hvalid, hdomain, requestSession_catch, State.emit, State.remove_one]
      · rcases h.call_stage hc with h' | h' <;> simp [callStage] at h'
    refine ⟨by rw [hout]; rfl, ?_, ?_, hs.not_prompted (by decide), ?_, hs.no_succeed⟩
    · rw [hout, terminals_quiet_append (quiet_readyPrefix E eventID)]
      simp [terminals, isTerminal, failed]
    · rw [hout]
      simp [readyPrefix, List.filter_append, filter_interact_readyFrames, isInteract, failed]
    · intro url hmem
      rcases hs.call_stage hmem with h' | h' <;> simp [callStage] at h'
  · simp [h, failed] at hc

/-- C7. In every run of `requestSession_thread` that parsed the VMCP response
into the map `vmcpData`, `keystore.signatureValidate` is called if and only
if the map contains `name`, `secret` and `signature` and, when it contains
`diskURL`, also `diskChecksum`; otherwise the only terminal event is one
`failed` with `USAGE_ERROR`. -/
theorem requestSession_schema_check
    (K : Consts) (E : RequestEnv) (thisThread : Worker) (eventID vmcpURL : String)
    (core : Core) (conn : Conn) (vmcpData : ParameterMap)
    (hcall : ∃ text, Ev.call (.jsonParse text) ∈
      (requestSession_thread K E thisThread eventID vmcpURL (State.init core conn)).out)
    (hparsed : E.jsonParse = .returns (some vmcpData)) :
    ((∃ domain salt v, Ev.call (.signatureValidate domain salt v) ∈
        (requestSession_thread K E thisThread eventID vmcpURL (State.init core conn)).out)
      ↔ schemaOK vmcpData)
    ∧ (¬ schemaOK vmcpData →
        ∃ message, terminals eventID (requestSession_thread K E thisThread eventID vmcpURL
          (State.init core conn)).out = [failed eventID message K.HVE_USAGE_ERROR]) := by
  obtain ⟨text, hc⟩ := hcall
  rcases reach_ready K E thisThread eventID vmcpURL core conn with ⟨hb, _⟩ | ⟨_, h⟩
  · rcases reach_parse K E thisThread eventID vmcpURL core conn hb with
      ⟨salt, hostID, js, _, h⟩ | h
    · have hq := quiet_parsePrefix E eventID conn.domain vmcpURL salt hostID js
      have hrun : requestSession_thread K E thisThread eventID vmcpURL (State.init core conn)
          = requestSession_catch K thisThread eventID
              (stageSchema K E thisThread eventID salt vmcpData
                { core := core, conn := conn,
                  out := parsePrefix E eventID conn.domain vmcpURL salt hostID js }) := by
        rw [h]; simp [stageParse, hparsed, State.emit, parsePrefix]
      have hstop : ∀ m, ¬ schemaOK vmcpData →
          requestSession_thread K E thisThread eventID vmcpURL (State.init core conn)
            = State.remove_one (State.mk core conn
                (parsePrefix E eventID conn.domain vmcpURL salt hostID js
                  ++ [failed eventID m K.HVE_USAGE_ERROR])) thisThread →
          ((∃ domain salt v, Ev.call (.signatureValidate domain salt v) ∈
              (requestSession_thread K E thisThread eventID vmcpURL (State.init core conn)).out)
            ↔ schemaOK vmcpData)
          ∧ (¬ schemaOK vmcpData →
              ∃ message, terminals eventID (requestSession_thread K E thisThread eventID vmcpURL
                (State.init core conn)).out = [failed eventID message K.HVE_USAGE_ERROR]) := by
        intro m hno heq
        have hs : StoppedBefore 6 thisThread eventID core conn
            (requestSession_thread K E thisThread eventID vmcpURL (State.init core conn)) := by
          rw [heq]
          exact ⟨rfl, rfl, _, hq.mono_quiet (by decide), Or.inl ⟨m, _, rfl⟩⟩
        refine ⟨⟨?_, fun hok => absurd hok hno⟩, fun _ => ⟨m, ?_⟩⟩
        · rintro ⟨d, s, v, hmem⟩
          rcases hs.call_stage hmem with h' | h' <;> simp [callStage] at h'
        · rw [heq]
          simp only [State.remove_one]
          rw [terminals_quiet_append hq]
          simp [terminals, isTerminal, failed]
      cases hn : vmcpData.contains "name"
      · exact hstop "Missing 'name' parameter from the VMCP response" (by simp [schemaOK, hn])
          (by rw [hrun]; simp [stageSchema, hn, requestSession_catch, State.emit])
      · cases hsec : vmcpData.contains "secret"
        · exact hstop "Missing 'secret' parameter from the VMCP response"
            (by simp [schemaOK, hsec])
            (by rw [hrun]; simp [stageSchema, hn, hsec, requestSession_catch, State.emit])
        · cases hsig : vmcpData.contains "signature"
          · exact hstop "Missing 'signature' parameter from the VMCP response"
              (by simp [schemaOK, hsig])
              (by rw [hrun]; simp [stageSchema, hn, hsec, hsig, requestSession_catch, State.emit])
          · by_cases hd : vmcpData.contains "diskURL" = true ∧ vmcpData.contains "diskChecksum" = false
            · exact hstop
                "A 'diskURL' was specified, but no 'diskChecksum' was found in the VMCP response"
                (by simp [schemaOK, hd.1, hd.2])
                (by rw [hrun]
                    simp [stageSchema, hn, hsec, hsig, hd.1, hd.2, requestSession_catch,
                      State.emit])
            · have hok : schemaOK vmcpData := by
                refine ⟨hn, hsec, hsig, fun hu => ?_⟩
                cases hck : vmcpData.contains "diskChecksum"
                · exact absurd ⟨hu, hck⟩ hd
                · rfl
              refine ⟨⟨fun _ => hok, fun _ => ⟨conn.domain, salt, vmcpData, ?_⟩⟩,
                fun hno => absurd hok hno⟩
              have hsch : stageSchema K E thisThread eventID salt vmcpData
                  { core := core, conn := conn,
                    out := parsePrefix E eventID conn.domain vmcpURL salt hostID js }
                  = stageSignature K E thisThread eventID salt vmcpData
                      { core := core, conn := conn,
                        out := parsePrefix E eventID conn.domain vmcpURL salt hostID js } := by
                unfold stageSchema
                simp only [hn, hsec, hsig]
                cases hu : vmcpData.contains "diskURL"
                · simp
                · have := hok.2.2.2 hu
                  simp [this]
              rw [hrun, hsch]
              refine (requestSession_catch_extends K thisThread eventID _).subset ?_
              unfold stageSignature
              cases E.signatureValidate with
              | throws => simp [State.emit]
              | returns res =>
                by_cases hr : res < 0
                · simp [hr, State.emit, State.remove_one]
                · simp only [hr, if_false]
                  refine (stageValidate_extends K E thisThread eventID vmcpData _).subset ?_
                  simp [State.emit]
    · rcases h.call_stage hc with h' | h' <;> simp [callStage] at h'
  · simp [h, failed] at hc

theorem Quiet.no_abort {k : Nat} {pre : List Ev} (hq : Quiet k pre) :
    Ev.call .abortHandled ∉ pre :=
  fun hc => (quietEv_call (hq.ev_quiet hc)).2 rfl

theorem interacts_validatePrefix (E : RequestEnv) (id domain url salt hostID js : String)
    (vd : ParameterMap) :
    (validatePrefix E id domain url salt hostID js vd).filter isInteract = readyFrames E := by
  simp [validatePrefix, signaturePrefix, parsePrefix, fetchPrefix, keystorePrefix, readyPrefix,
    List.filter_append, filter_interact_readyFrames, isInteract]

/-- The prompts of the consent stage: the confirm prompt when the session is
new, none otherwise. -/
theorem stageConsent_interacts (K : Consts) (E : RequestEnv) (t : Worker) (id : String)
    (v : ParameterMap) (res : Int) (σ : State) :
    ∃ l, (stageConsent K E t id v res σ).2.out = σ.out ++ l
      ∧ l.filter isInteract = if res = 0 then [consentPrompt K E σ.conn.domain v] else [] := by
  unfold stageConsent
  by_cases h0 : res = 0
  · simp only [h0, if_true, confirm, __callbackConfim]
    cases E.confirm with
    | throws =>
      simp only [State.emit, List.append_assoc]
      exact ⟨_, rfl, by simp [isInteract, consentPrompt]⟩
    | returns answer =>
      by_cases ha : answer = K.UI_OK
      · simp only [ha, ne_eq, not_true_eq_false, if_false]
        generalize hp : stageOpen K E t id v _ = p
        obtain ⟨l, h1, _, h3, _, _⟩ := stageOpen_spec K E t id v _
        rw [hp] at h1
        simp only [State.emit, List.append_assoc] at h1
        rw [h1]
        refine ⟨_, rfl, ?_⟩
        have hl : l.filter isInteract = [] := List.filter_eq_nil_iff.mpr (by simpa using h3)
        simp [List.filter_cons, isInteract, consentPrompt, hl]
      · simp only [ne_eq, ha, not_false_eq_true, if_true]
        cases E.abortedAfterConfirm
        · simp only [State.emit, State.remove_one, List.append_assoc, Bool.false_eq_true,
            if_false]
          exact ⟨_, rfl, by simp [isInteract, consentPrompt, failed]⟩
        · simp only [State.emit, State.remove_one, List.append_assoc, if_true]
          exact ⟨_, rfl, by simp [isInteract, consentPrompt]⟩
  · simp only [h0, if_false]
    generalize hp : stageOpen K E t id v _ = p
    obtain ⟨l, h1, _, h3, _, _⟩ := stageOpen_spec K E t id v _
    rw [hp] at h1
    simp only [State.emit, List.append_assoc] at h1
    rw [h1]
    refine ⟨_, rfl, ?_⟩
    have hl : l.filter isInteract = [] := List.filter_eq_nil_iff.mpr (by simpa using h3)
    simp [List.filter_cons, isInteract, hl]

/-- C6. In every run of `requestSession_thread` that reaches
`hv.sessionValidate` (the signature was valid): an `interact` event is sent
after that call if and only if `sessionValidate` returns 0, and then it is the
confirm prompt of lines 585-588 and the only one; a result of 2 gives
`failed(PASSWORD_DENIED)` as the only terminal event, with no prompt after the
call and no `sessionOpen`; a result of 1 calls `sessionOpen` with no prompt
after the call and leaves the throttle fields as they were.  The `interact`
events before the call are the prompts that `waitTillReady` raised. -/
theorem requestSession_session_validity
    (K : Consts) (E : RequestEnv) (thisThread : Worker) (eventID vmcpURL : String)
    (core : Core) (conn : Conn)
    (hcall : ∃ vmcpData, Ev.call (.sessionValidate vmcpData) ∈
      (requestSession_thread K E thisThread eventID vmcpURL (State.init core conn)).out) :
    (promptedForConsent
        (requestSession_thread K E thisThread eventID vmcpURL (State.init core conn)).out = true
      ↔ E.sessionValidate = .returns 0)
    ∧ (E.sessionValidate = .returns 0 →
        ∃ vmcpData,
          (eventsAfter isSessionValidate
            (requestSession_thread K E thisThread eventID vmcpURL
              (State.init core conn)).out).filter isInteract
            = [consentPrompt K E conn.domain vmcpData])
    ∧ (E.sessionValidate = .returns 2 →
        terminals eventID
            (requestSession_thread K E thisThread eventID vmcpURL (State.init core conn)).out
          = [failed eventID "The password specified is invalid for this session"
              K.HVE_PASSWORD_DENIED]
        ∧ (∀ e ∈ eventsAfter isSessionValidate
            (requestSession_thread K E thisThread eventID vmcpURL (State.init core conn)).out,
            isInteract e = false)
        ∧ (∀ vmcpData, Ev.call (.sessionOpen vmcpData) ∉
            (requestSession_thread K E thisThread eventID vmcpURL (State.init core conn)).out))
    ∧ (E.sessionValidate = .returns 1 →
        (∃ vmcpData, Ev.call (.sessionOpen vmcpData) ∈
            (requestSession_thread K E thisThread eventID vmcpURL (State.init core conn)).out)
        ∧ (∀ e ∈ eventsAfter isSessionValidate
            (requestSession_thread K E thisThread eventID vmcpURL (State.init core conn)).out,
            isInteract e = false)
        ∧ (requestSession_thread K E thisThread eventID vmcpURL
            (State.init core conn)).conn.throttle = conn.throttle)
    ∧ (requestSession_thread K E thisThread eventID vmcpURL
        (State.init core conn)).out.filter isInteract
      = readyFrames E
        ++ (eventsAfter isSessionValidate
            (requestSession_thread K E thisThread eventID vmcpURL
              (State.init core conn)).out).filter isInteract := by
  obtain ⟨v0, hc⟩ := hcall
  rcases reach_ready K E thisThread eventID vmcpURL core conn with ⟨hb, _⟩ | ⟨_, h⟩
  · rcases reach_validate K E thisThread eventID vmcpURL core conn hb with
      ⟨salt, hostID, js, vd, _, h⟩ | h
    · have hq := quiet_signaturePrefix E eventID conn.domain vmcpURL salt hostID js vd
      have hqv := quiet_validatePrefix E eventID conn.domain vmcpURL salt hostID js vd
      -- the shape of the trace: the prefix up to the call, then `tl`
      have key : ∀ tl : List Ev,
          (requestSession_thread K E thisThread eventID vmcpURL (State.init core conn)).out
            = validatePrefix E eventID conn.domain vmcpURL salt hostID js vd ++ tl →
          eventsAfter isSessionValidate
              (requestSession_thread K E thisThread eventID vmcpURL (State.init core conn)).out
            = tl
          ∧ (requestSession_thread K E thisThread eventID vmcpURL
              (State.init core conn)).out.filter isInteract
            = readyFrames E ++ tl.filter isInteract := by
        intro tl htl
        rw [htl, eventsAfter_validatePrefix, List.filter_append, interacts_validatePrefix]
        exact ⟨rfl, rfl⟩
      cases hs : E.sessionValidate with
      | throws =>
        have hout : (requestSession_thread K E thisThread eventID vmcpURL
            (State.init core conn)).out
            = validatePrefix E eventID conn.domain vmcpURL salt hostID js vd
              ++ [failedUnexpected K eventID] := by
          rw [h]
          simp [stageValidate, hs, requestSession_catch, State.emit, State.remove_one,
            validatePrefix, failedUnexpected]
        obtain ⟨k1, k2⟩ := key _ hout
        refine ⟨⟨fun h' => ?_, fun h' => by simp at h'⟩, fun h' => by simp at h',
          fun h' => by simp at h', fun h' => by simp at h', ?_⟩
        · rw [promptedForConsent, k1] at h'
          simp [isInteract, failedUnexpected, failed] at h'
        · rw [k2, k1]
      | returns res =>
        by_cases h2 : res = 2
        · subst h2
          have hq8 : Quiet 8 (signaturePrefix E eventID conn.domain vmcpURL salt hostID js vd
              ++ [Ev.call (.sessionValidate vd)]) :=
            (hq.mono_quiet (by decide)).append_quiet (by simp [Quiet, quietEv, callStage])
          have hst : StoppedBefore 8 thisThread eventID core conn
              (requestSession_thread K E thisThread eventID vmcpURL (State.init core conn)) := by
            rw [h]
            simp only [stageValidate, hs, State.emit, if_true]
            exact stopped_failed K thisThread eventID core conn _ hq8 _ _
          have hout : (requestSession_thread K E thisThread eventID vmcpURL
              (State.init core conn)).out
              = validatePrefix E eventID conn.domain vmcpURL salt hostID js vd
                ++ [failed eventID "The password specified is invalid for this session"
                    K.HVE_PASSWORD_DENIED] := by
            rw [h]
            simp [stageValidate, hs, requestSession_catch, State.emit, State.remove_one,
              validatePrefix]
          obtain ⟨k1, k2⟩ := key _ hout
          refine ⟨⟨fun h' => ?_, fun h' => by simp at h'⟩, fun h' => by simp at h',
            fun _ => ⟨?_, ?_, ?_⟩, fun h' => by simp at h', ?_⟩
          · rw [promptedForConsent, k1] at h'
            simp [isInteract, failed] at h'
          · rw [hout, terminals_quiet_append hqv]
            simp [terminals, isTerminal, failed]
          · rw [k1]
            simp [isInteract, failed]
          · intro vmcpData hmem
            rcases hst.call_stage hmem with h' | h' <;> simp [callStage] at h'
          · rw [k2, k1]
        · have hrun : requestSession_thread K E thisThread eventID vmcpURL (State.init core conn)
              = requestSession_catch K thisThread eventID
                (stageConsent K E thisThread eventID vd res
                  { core := core, conn := conn,
                    out := validatePrefix E eventID conn.domain vmcpURL salt hostID js vd }) := by
            rw [h]; simp [stageValidate, hs, h2, State.emit, validatePrefix]
          obtain ⟨l, h1, _, _, h4⟩ := stageConsent_spec K E thisThread eventID vd res
            { core := core, conn := conn,
              out := validatePrefix E eventID conn.domain vmcpURL salt hostID js vd }
          obtain ⟨l2, h1b, hint⟩ := stageConsent_interacts K E thisThread eventID vd res
            { core := core, conn := conn,
              out := validatePrefix E eventID conn.domain vmcpURL salt hostID js vd }
          have hll : l2 = l := List.append_cancel_left (h1b.symm.trans h1)
          subst hll
          obtain ⟨hct, hco⟩ := requestSession_catch_out K thisThread eventID
            (stageConsent K E thisThread eventID vd res
              { core := core, conn := conn,
                out := validatePrefix E eventID conn.domain vmcpURL salt hostID js vd })
          rw [← hrun] at hct hco
          -- the events after the call: `l2`, and the `failed` of the handler if any
          have htail : ∃ tl, eventsAfter isSessionValidate
                (requestSession_thread K E thisThread eventID vmcpURL
                  (State.init core conn)).out = tl
              ∧ (requestSession_thread K E thisThread eventID vmcpURL
                  (State.init core conn)).out.filter isInteract
                = readyFrames E ++ tl.filter isInteract
              ∧ tl.filter isInteract = l2.filter isInteract
              ∧ (∀ e ∈ l2, e ∈ (requestSession_thread K E thisThread eventID vmcpURL
                  (State.init core conn)).out) := by
            rcases hco with ⟨_, hco⟩ | ⟨_, hco⟩
            · obtain ⟨k1, k2⟩ := key l2 (by rw [hco, h1])
              exact ⟨l2, k1, k2, rfl, fun e he => by rw [hco, h1]; simp [he]⟩
            · obtain ⟨k1, k2⟩ := key (l2 ++ [failed eventID
                  "Unexpected exception occured while requesting session" K.HVE_EXTERNAL_ERROR])
                (by rw [hco, h1, List.append_assoc])
              exact ⟨_, k1, k2, by simp [List.filter_append, isInteract, failed],
                fun e he => by rw [hco, h1]; simp [he]⟩
          obtain ⟨tl, k1, k2, k3, hsub⟩ := htail
          have hprompted : promptedForConsent
              (requestSession_thread K E thisThread eventID vmcpURL (State.init core conn)).out
              = decide (res = 0) := by
            rw [promptedForConsent, k1]
            by_cases h0 : res = 0
            · have : consentPrompt K E conn.domain vd ∈ tl.filter isInteract := by
                rw [k3, hint, if_pos h0]; simp
              have hm := List.mem_filter.mp this
              simp only [h0, decide_True, List.any_eq_true]
              exact ⟨_, hm.1, hm.2⟩
            · have hnil : tl.filter isInteract = [] := by rw [k3, hint, if_neg h0]
              simp only [h0, decide_False]
              rw [Bool.eq_false_iff]
              intro hany
              simp only [List.any_eq_true] at hany
              obtain ⟨e, he, hi⟩ := hany
              have : e ∈ tl.filter isInteract := List.mem_filter.mpr ⟨he, hi⟩
              rw [hnil] at this
              simp at this
          have hquiet : res ≠ 0 → ∀ e ∈ eventsAfter isSessionValidate
              (requestSession_thread K E thisThread eventID vmcpURL (State.init core conn)).out,
              isInteract e = false := by
            intro h0 e he
            rw [k1] at he
            have hnil : tl.filter isInteract = [] := by rw [k3, hint, if_neg h0]
            cases hi : isInteract e with
            | false => rfl
            | true =>
              have : e ∈ tl.filter isInteract := List.mem_filter.mpr ⟨he, hi⟩
              rw [hnil] at this
              simp at this
          refine ⟨?_, fun h' => ?_, fun h' => ?_, fun h' => ?_, ?_⟩
          · rw [hprompted]
            constructor
            · intro hd
              have : res = 0 := by simpa using hd
              rw [this]
            · intro h'
              have : res = 0 := Call.returns.inj h'
              simp [this]
          · have h0 : res = 0 := Call.returns.inj h'
            exact ⟨vd, by rw [k1, k3, hint, if_pos h0]⟩
          · exact absurd (Call.returns.inj h') h2
          · have h1' : res = 1 := Call.returns.inj h'
            have h0 : res ≠ 0 := by rw [h1']; decide
            obtain ⟨_, h6, h7⟩ := h4 h0
            exact ⟨⟨vd, hsub _ h6⟩, hquiet h0, by rw [hct, h7]⟩
          · rw [k2, k1]
    · rcases h.call_stage hc with h' | h' <;> simp [callStage] at h'
  · simp [h, failed] at hc

/-- C8 (amended). Every run of `requestSession_thread`, whatever its calls
return or throw, ends in one of three ways: an abort was acknowledged and no
terminal event was emitted; or no abort was acknowledged and exactly one
terminal event was emitted; or `sendStateVariables` threw after `succeed` had
been fired, and the terminal events are that `succeed` followed by
`failed(EXTERNAL_ERROR)`. -/
theorem requestSession_terminal_events
    (K : Consts) (E : RequestEnv) (thisThread : Worker) (eventID vmcpURL : String)
    (core : Core) (conn : Conn) :
    (Ev.call .abortHandled ∈
        (requestSession_thread K E thisThread eventID vmcpURL (State.init core conn)).out
      ∧ terminals eventID
          (requestSession_thread K E thisThread eventID vmcpURL (State.init core conn)).out = [])
    ∨ (Ev.call .abortHandled ∉
        (requestSession_thread K E thisThread eventID vmcpURL (State.init core conn)).out
      ∧ ∃ e, terminals eventID
          (requestSession_thread K E thisThread eventID vmcpURL (State.init core conn)).out = [e])
    ∨ (Ev.call .abortHandled ∉
        (requestSession_thread K E thisThread eventID vmcpURL (State.init core conn)).out
      ∧ E.sessionStateInfoToJSON = .throws
      ∧ ∃ uuid, terminals eventID
          (requestSession_thread K E thisThread eventID vmcpURL (State.init core conn)).out
            = [succeedOpen eventID uuid, failedUnexpected K eventID]) := by
  rcases reach_ready K E thisThread eventID vmcpURL core conn with ⟨hb, _⟩ | ⟨_, h⟩
  · rcases reach_consent K E thisThread eventID vmcpURL core conn hb with
      ⟨salt, hostID, js, vd, res, _, _, _, h⟩ | h
    · have hq := quiet_validatePrefix E eventID conn.domain vmcpURL salt hostID js vd
      obtain ⟨l, h1, h2, _, _⟩ := stageConsent_spec K E thisThread eventID vd res
        { core := core, conn := conn,
          out := validatePrefix E eventID conn.domain vmcpURL salt hostID js vd }
      obtain ⟨_, hco⟩ := requestSession_catch_out K thisThread eventID
        (stageConsent K E thisThread eventID vd res
          { core := core, conn := conn,
            out := validatePrefix E eventID conn.domain vmcpURL salt hostID js vd })
      rw [← h] at hco
      rcases hco with ⟨hne, hco⟩ | ⟨hth, hco⟩
      · rw [hco, h1, terminals_quiet_append hq]
        simp only [List.mem_append, hq.no_abort, false_or]
        cases hex : (stageConsent K E thisThread eventID vd res
          { core := core, conn := conn,
            out := validatePrefix E eventID conn.domain vmcpURL salt hostID js vd }).1 with
        | thrown => exact absurd hex hne
        | returned =>
          rw [hex] at h2
          rcases h2 with ⟨ha, ht⟩ | ⟨ha, m, code, ht⟩
          · exact Or.inl ⟨ha, ht⟩
          · exact Or.inr (Or.inl ⟨ha, _, ht⟩)
        | completed =>
          rw [hex] at h2
          obtain ⟨ha, uuid, ht⟩ := h2
          exact Or.inr (Or.inl ⟨ha, _, ht⟩)
      · rw [hth] at h2
        obtain ⟨ha, ht⟩ := h2
        have hab : Ev.call .abortHandled ∉
            (requestSession_thread K E thisThread eventID vmcpURL (State.init core conn)).out := by
          rw [hco, h1]
          simp [hq.no_abort, ha, failed]
        have hterm : terminals eventID
            (requestSession_thread K E thisThread eventID vmcpURL (State.init core conn)).out
            = terminals eventID l ++ [failedUnexpected K eventID] := by
          rw [hco, h1, List.append_assoc, terminals_quiet_append hq]
          simp [terminals, List.filter_append, isTerminal, failed, failedUnexpected]
        rcases ht with ht | ⟨hi, uuid, ht⟩
        · exact Or.inr (Or.inl ⟨hab, _, by rw [hterm, ht]; rfl⟩)
        · exact Or.inr (Or.inr ⟨hab, hi, uuid, by rw [hterm, ht]; rfl⟩)
    · rcases h.terminal_events with ⟨m, code, ht, ha⟩ | ⟨ht, ha⟩
      · exact Or.inr (Or.inl ⟨ha, _, ht⟩)
      · exact Or.inl ⟨ha, ht⟩
  · right; left
    rw [h]
    exact ⟨by simp [failed],
      failed eventID "Request denied by throttle protection" K.HVE_ACCESS_DENIED,
      by simp [terminals, isTerminal, failed]⟩

/-! ## Instances and counterexamples at concrete inputs -/

/-- Instance of C1: the keystore rejects the signature with code -12; the run
calls `signatureValidate` and its only terminal event is `failed` with -12. -/
theorem requestSession_signature_rejected_witness :
    (∃ domain salt vmcpData, Ev.call (.signatureValidate domain salt vmcpData) ∈
      (requestSession_thread sampleConsts { sampleEnv with signatureValidate := .returns (-12) }
        sampleWorker "e1" "https://example.test/vmcp"
        (State.init sampleCore (Conn.new "example.test"))).out)
    ∧ terminals "e1"
        (requestSession_thread sampleConsts { sampleEnv with signatureValidate := .returns (-12) }
          sampleWorker "e1" "https://example.test/vmcp"
          (State.init sampleCore (Conn.new "example.test"))).out
      = [failed "e1" "The VMCP response signature could not be validated" (-12)] :=
  have h : ∃ domain salt vmcpData, Ev.call (.signatureValidate domain salt vmcpData) ∈
      (requestSession_thread sampleConsts { sampleEnv with signatureValidate := .returns (-12) }
        sampleWorker "e1" "https://example.test/vmcp"
        (State.init sampleCore (Conn.new "example.test"))).out :=
    ⟨"example.test", "s", sampleVmcp, by decide⟩
  ⟨h, (requestSession_signature_rejected sampleConsts
    { sampleEnv with signatureValidate := .returns (-12) } sampleWorker "e1"
    "https://example.test/vmcp" sampleCore (Conn.new "example.test") (-12) h rfl
    (by decide)).1⟩

/-- Counterexample to C2 as stated: `waitTillReady` asks the user to accept a
licence while the hypervisor gets ready; the keystore is valid and then
rejects the domain.  The run has sent an `interact` event before it fails with
`NOT_TRUSTED`. -/
theorem prompt_before_domain_gate :
    licenceEnv.keystoreValid = true
    ∧ licenceEnv.isDomainValid = .returns false
    ∧ (sampleRun licenceEnv).out
      = [ .progress "e1" "Preparing for session request",
          .progress "e1" "Initializing hypervisor",
          .call .waitTillReady,
          .sendEvent "interact"
            [.str "confirmLicenseURL", .str "License", .str "https://example.test/license"] "",
          .progress "e1" "Initializing crypto store",
          .call .updateAuthorizedKeystore,
          .call (.isDomainValid "example.test"),
          failed "e1" "The domain is not trusted" sampleConsts.HVE_NOT_TRUSTED ]
    ∧ (sampleRun licenceEnv).out.any isInteract = true := by
  decide

/-- Instance of C2 as amended, on the run of `licenceEnv`: the only terminal
event is `failed("The domain is not trusted", NOT_TRUSTED)` and the only
`interact` event is the licence prompt of `waitTillReady`. -/
theorem requestSession_untrusted_domain_witness :
    (∃ domain, Ev.call (.isDomainValid domain) ∈ (sampleRun licenceEnv).out)
    ∧ terminals "e1" (sampleRun licenceEnv).out
      = [failed "e1" "The domain is not trusted" sampleConsts.HVE_NOT_TRUSTED]
    ∧ (sampleRun licenceEnv).out.filter isInteract = readyFrames licenceEnv
    ∧ promptedForConsent (sampleRun licenceEnv).out = false :=
  have h : ∃ domain, Ev.call (.isDomainValid domain) ∈ (sampleRun licenceEnv).out :=
    ⟨"example.test", by decide⟩
  have t := requestSession_untrusted_domain sampleConsts licenceEnv sampleWorker "e1"
    "https://example.test/vmcp" sampleCore (Conn.new "example.test") h rfl rfl
  ⟨h, t.2.1, t.2.2.1, t.2.2.2.1⟩

/-- Instance of C3 as amended: with `THROTTLE_TRIES = 2` and
`THROTTLE_TIMESPAN = 5000`, two denials at clock readings 100000 and 101000
on a fresh connection set `throttleBlock`. -/
theorem throttle_blocks_after_tries_witness :
    allDenied sampleConsts [deniedRequest 100000, deniedRequest 101000] sampleCore
      (Conn.new "example.test") = true
    ∧ (runRequests sampleConsts [deniedRequest 100000, deniedRequest 101000] sampleCore
      (Conn.new "example.test")).2.throttleBlock = true :=
  ⟨by decide, (throttle_blocks_after_tries sampleConsts "example.test" sampleCore
    (deniedRequest 100000) [deniedRequest 101000] (by decide) (by decide) (by decide)
    (by decide) (by decide)).1⟩

/-- Counterexample to C3 as stated: with `THROTTLE_TRIES = 2` and
`THROTTLE_TIMESPAN = 5000`, a fresh connection (timestamp 0) sees two
consecutive denials at clock readings 4000 and 6000, which are 2000 ms apart.
The first is counted in the window that starts at 0, the second falls out of
that window and restarts the count at 1: `throttleBlock` stays false and a
third request is shown the consent prompt. -/
theorem throttle_window_straddled :
    (([deniedRequest 4000, deniedRequest 6000].length : Int) = sampleConsts.THROTTLE_TRIES)
    ∧ allDenied sampleConsts [deniedRequest 4000, deniedRequest 6000] sampleCore
        (Conn.new "example.test") = true
    ∧ (6000 : Int) - 4000 ≤ sampleConsts.THROTTLE_TIMESPAN
    ∧ (runRequests sampleConsts [deniedRequest 4000, deniedRequest 6000] sampleCore
        (Conn.new "example.test")).2.throttleBlock = false
    ∧ ((deniedRequest 7000).run sampleConsts
        (runRequests sampleConsts [deniedRequest 4000, deniedRequest 6000] sampleCore
          (Conn.new "example.test")).1
        (runRequests sampleConsts [deniedRequest 4000, deniedRequest 6000] sampleCore
          (Conn.new "example.test")).2).out.any isInteract = true
    ∧ promptedForConsent ((deniedRequest 7000).run sampleConsts
        (runRequests sampleConsts [deniedRequest 4000, deniedRequest 6000] sampleCore
          (Conn.new "example.test")).1
        (runRequests sampleConsts [deniedRequest 4000, deniedRequest 6000] sampleCore
          (Conn.new "example.test")).2).out = true := by
  decide

/-- Instance of C4: a blocked connection stays blocked after a
`requestSession` worker has run. -/
theorem throttleBlock_absorbing_witness :
    blockedState.conn.throttleBlock = true
    ∧ (runAll sampleConsts
        [.worker (.requestSession sampleEnv sampleWorker "e1" "https://example.test/vmcp")]
        blockedState).conn.throttleBlock = true :=
  ⟨rfl, (throttleBlock_absorbing sampleConsts blockedState rfl).1
    [.worker (.requestSession sampleEnv sampleWorker "e1" "https://example.test/vmcp")]⟩

/-- Instance of C6: in the run where every call succeeds, `sessionValidate`
is called, returns 0, and the consent prompt is shown after the call. -/
theorem requestSession_session_validity_witness :
    (∃ vmcpData, Ev.call (.sessionValidate vmcpData) ∈ (sampleRun sampleEnv).out)
    ∧ (promptedForConsent (sampleRun sampleEnv).out = true
        ↔ sampleEnv.sessionValidate = .returns 0) :=
  have h : ∃ vmcpData, Ev.call (.sessionValidate vmcpData) ∈ (sampleRun sampleEnv).out :=
    ⟨sampleVmcp, by decide⟩
  ⟨h, (requestSession_session_validity sampleConsts sampleEnv sampleWorker "e1"
    "https://example.test/vmcp" sampleCore (Conn.new "example.test") h).1⟩

/-- Instance of C7: the response parses into a map with `name`, `secret` and
`signature`, and `signatureValidate` is called. -/
theorem requestSession_schema_check_witness :
    (∃ text, Ev.call (.jsonParse text) ∈ (sampleRun sampleEnv).out)
    ∧ ((∃ domain salt v, Ev.call (.signatureValidate domain salt v) ∈ (sampleRun sampleEnv).out)
        ↔ schemaOK sampleVmcp) :=
  have h : ∃ text, Ev.call (.jsonParse text) ∈ (sampleRun sampleEnv).out := ⟨"t", by decide⟩
  ⟨h, (requestSession_schema_check sampleConsts sampleEnv sampleWorker "e1"
    "https://example.test/vmcp" sampleCore (Conn.new "example.test") sampleVmcp h rfl).1⟩

/-- Counterexample to C8 as stated: every call succeeds and the user accepts,
but `sessionStateInfoToJSON` throws inside `sendStateVariables`, after
`succeed` has been fired.  No abort is observed and the run emits two terminal
events on its event id, `succeed` and then `failed(EXTERNAL_ERROR)`. -/
theorem succeed_then_failed :
    Ev.call .abortHandled ∉ (sampleRun { sampleEnv with sessionStateInfoToJSON := .throws }).out
    ∧ terminals "e1" (sampleRun { sampleEnv with sessionStateInfoToJSON := .throws }).out
      = [ Ev.fire "e1" "succeed" [.str "Session open successfully", .int 1],
          failed "e1" "Unexpected exception occured while requesting session"
            sampleConsts.HVE_EXTERNAL_ERROR ] := by
  decide

/-- Instance of C10 as amended, on the trace of `flappingSteps`. -/
theorem online_preceded_witness :
    sampleSession.acceptPeriodicJobs = false
    ∧ eachPreceded stateChangedOrOffline isOnline none
        (sessionTrace sampleConsts flappingSteps sampleSession) = true :=
  ⟨rfl, online_preceded sampleConsts flappingSteps sampleSession rfl⟩

/-- Counterexample to C10 as stated: the session runs all the time, its API
port answers, stays silent for two long probes and answers again.  The second
`apiStateChanged(true, _)` is immediately preceded by
`apiStateChanged(false, _)`, not by `stateChanged(RUNNING)`. -/
theorem online_after_offline :
    sessionTrace sampleConsts flappingSteps sampleSession
      = [ Ev.stateVariables "1" "info",
          Ev.sendEvent "stateChanged" [.int 5] "1",
          Ev.sendEvent "apiStateChanged" [.bool true, .str "http://127.0.0.1:80"] "1",
          Ev.sendEvent "apiStateChanged" [.bool false, .str "http://127.0.0.1:80"] "1",
          Ev.sendEvent "apiStateChanged" [.bool true, .str "http://127.0.0.1:80"] "1" ]
    ∧ eachPreceded (isStateChangedTo sampleConsts.SS_RUNNING) isOnline none
        (sessionTrace sampleConsts flappingSteps sampleSession) = false := by
  decide

/-! ## The download stage -/

theorem initialPush_late (E : RequestEnv) (id : String) (s : Session) :
    ∀ e ∈ (initialPush E id s).2.2, lateEv 9 e = true := by
  cases h1 : E.sessionStateInfoToJSON <;> cases h2 : s.isAborting <;>
    simp [initialPush, sendStateVariables, enablePeriodicJobs, h1, h2, lateEv]

theorem stageOpen_late (K : Consts) (E : RequestEnv) (t : Worker) (id : String)
    (v : ParameterMap) (σ : State) :
    ∃ l, (stageOpen K E t id v σ).2.out = σ.out ++ l ∧ ∀ e ∈ l, lateEv 9 e = true := by
  unfold stageOpen
  cases E.sessionOpen with
  | throws => exact ⟨_, by simp only [State.emit, List.append_assoc]; rfl, by simp [lateEv, callStage]⟩
  | returns o =>
    cases o with
    | none =>
      exact ⟨_, by simp only [State.emit, State.remove_one, List.append_assoc]; rfl,
        by simp [lateEv, callStage, failed]⟩
    | some session =>
      cases E.sessionWait with
      | throws =>
        exact ⟨_, by simp only [State.emit, List.append_assoc]; rfl, by simp [lateEv, callStage]⟩
      | returns _ =>
        cases E.checkDaemonNeed with
        | throws =>
          exact ⟨_, by simp only [State.emit, List.append_assoc]; rfl,
            by simp [lateEv, callStage]⟩
        | returns _ =>
          cases hst : E.storeSession with
          | throws =>
            exact ⟨_, by simp only [State.emit, List.append_assoc]; rfl,
              by simp [lateEv, callStage]⟩
          | returns cvmSession =>
            refine ⟨_, by simp only [State.emit, State.emitAll, State.putSession,
              List.append_assoc]; rfl, ?_⟩
            simpa [lateEv, callStage] using initialPush_late E id cvmSession

theorem stageConsent_late (K : Consts) (E : RequestEnv) (t : Worker) (id : String)
    (v : ParameterMap) (res : Int) (σ : State) :
    ∃ l, (stageConsent K E t id v res σ).2.out = σ.out ++ l ∧ ∀ e ∈ l, lateEv 9 e = true := by
  unfold stageConsent
  by_cases h0 : res = 0
  · simp only [h0, if_true, confirm, __callbackConfim]
    cases E.confirm with
    | throws => exact ⟨_, by simp only [State.emit, List.append_assoc]; rfl, by simp [lateEv]⟩
    | returns answer =>
      by_cases ha : answer = K.UI_OK
      · simp only [ha, ne_eq, not_true_eq_false, if_false]
        generalize hp : stageOpen K E t id v _ = p
        obtain ⟨l, hl, hlate⟩ := stageOpen_late K E t id v _
        rw [hp] at hl
        refine ⟨_, by rw [hl]; simp only [State.emit, List.append_assoc]; rfl, ?_⟩
        simpa [lateEv, callStage] using hlate
      · simp only [ne_eq, ha, not_false_eq_true, if_true]
        cases E.abortedAfterConfirm
        · exact ⟨_, by simp only [State.emit, State.remove_one, List.append_assoc]; rfl,
            by simp [lateEv, failed]⟩
        · exact ⟨_, by simp only [State.emit, State.remove_one, List.append_assoc]; rfl,
            by simp [lateEv]⟩
  · simp only [h0, if_false]
    generalize hp : stageOpen K E t id v _ = p
    obtain ⟨l, hl, hlate⟩ := stageOpen_late K E t id v _
    rw [hp] at hl
    refine ⟨_, by rw [hl]; simp only [State.emit, List.append_assoc]; rfl, ?_⟩
    simpa [lateEv, callStage] using hlate

theorem lateEv_mono {j k : Nat} (h : j ≤ k) {e : Ev} (he : lateEv k e = true) :
    lateEv j e = true := by
  cases e with
  | call c => cases c <;> simp_all [lateEv, callStage] <;> omega
  | _ => rfl

theorem stageValidate_late (K : Consts) (E : RequestEnv) (t : Worker) (id : String)
    (v : ParameterMap) (σ : State) :
    ∃ l, (stageValidate K E t id v σ).2.out = σ.out ++ l ∧ ∀ e ∈ l, lateEv 7 e = true := by
  unfold stageValidate
  cases E.sessionValidate with
  | throws => exact ⟨_, by simp only [State.emit]; rfl, by simp [lateEv, callStage]⟩
  | returns res =>
    by_cases h2 : res = 2
    · simp only [h2, if_true]
      exact ⟨_, by simp only [State.emit, State.remove_one, List.append_assoc]; rfl,
        by simp [lateEv, callStage, failed]⟩
    · simp only [h2, if_false]
      generalize hp : stageConsent K E t id v res _ = p
      obtain ⟨l, hl, hlate⟩ := stageConsent_late K E t id v res _
      rw [hp] at hl
      refine ⟨_, by rw [hl]; simp only [State.emit, List.append_assoc]; rfl, ?_⟩
      have h7 : ∀ e ∈ l, lateEv 7 e = true := fun e he => lateEv_mono (by decide) (hlate e he)
      simpa [lateEv, callStage] using h7

theorem stageSignature_late (K : Consts) (E : RequestEnv) (t : Worker) (id salt : String)
    (v : ParameterMap) (σ : State) :
    ∃ l, (stageSignature K E t id salt v σ).2.out = σ.out ++ l
      ∧ ∀ e ∈ l, lateEv 6 e = true := by
  unfold stageSignature
  cases E.signatureValidate with
  | throws => exact ⟨_, by simp only [State.emit]; rfl, by simp [lateEv, callStage]⟩
  | returns res =>
    by_cases h : res < 0
    · simp only [h, if_true]
      exact ⟨_, by simp only [State.emit, State.remove_one, List.append_assoc]; rfl,
        by simp [lateEv, callStage, failed]⟩
    · simp only [h, if_false]
      generalize hp : stageValidate K E t id v _ = p
      obtain ⟨l, hl, hlate⟩ := stageValidate_late K E t id v _
      rw [hp] at hl
      refine ⟨_, by rw [hl]; simp only [State.emit, List.append_assoc]; rfl, ?_⟩
      have h6 : ∀ e ∈ l, lateEv 6 e = true := fun e he => lateEv_mono (by decide) (hlate e he)
      simpa [lateEv, callStage] using h6

theorem stageSchema_late (K : Consts) (E : RequestEnv) (t : Worker) (id salt : String)
    (v : ParameterMap) (σ : State) :
    ∃ l, (stageSchema K E t id salt v σ).2.out = σ.out ++ l
      ∧ ∀ e ∈ l, lateEv 6 e = true := by
  unfold stageSchema
  split
  · exact ⟨_, by simp only [State.emit, State.remove_one]; rfl, by simp [lateEv, failed]⟩
  · split
    · exact ⟨_, by simp only [State.emit, State.remove_one]; rfl, by simp [lateEv, failed]⟩
    · split
      · exact ⟨_, by simp only [State.emit, State.remove_one]; rfl, by simp [lateEv, failed]⟩
      · split
        · exact ⟨_, by simp only [State.emit, State.remove_one]; rfl, by simp [lateEv, failed]⟩
        · exact stageSignature_late K E t id salt v σ

theorem stageParse_late (K : Consts) (E : RequestEnv) (t : Worker) (id salt js : String)
    (σ : State) :
    ∃ l, (stageParse K E t id salt js σ).2.out
        = σ.out ++ [.progress id "Validating VMCP data", .call (.jsonParse js)] ++ l
      ∧ ∀ e ∈ l, lateEv 6 e = true := by
  unfold stageParse
  cases E.jsonParse with
  | throws =>
    exact ⟨_, by simp only [State.emit, State.remove_one, List.append_assoc]; rfl,
      by simp [lateEv, failed]⟩
  | returns o =>
    cases o with
    | none =>
      exact ⟨_, by simp only [State.emit, State.remove_one, List.append_assoc]; rfl,
        by simp [lateEv, failed]⟩
    | some v =>
      obtain ⟨l, hl, hlate⟩ := stageSchema_late K E t id salt v
        ((σ.emit (.progress id "Validating VMCP data")).emit (.call (.jsonParse js)))
      exact ⟨l, by simpa [State.emit] using hl, hlate⟩

theorem requestSession_catch_late (K : Consts) (t : Worker) (id : String) (p : Exit × State) :
    ∃ l, (requestSession_catch K t id p).out = p.2.out ++ l ∧ ∀ e ∈ l, lateEv 9 e = true := by
  obtain ⟨e, σ⟩ := p
  cases e
  · exact ⟨[], by simp [requestSession_catch], by simp⟩
  · exact ⟨_, by simp only [requestSession_catch, State.emit, State.remove_one]; rfl,
      by simp [lateEv, failed]⟩
  · exact ⟨[], by simp [requestSession_catch, State.remove_one], by simp⟩

/-- A run that got past the download: its trace is the fetch prefix, the
parse of the downloaded text, and events of later stages. -/
theorem parsed_trace (K : Consts) (E : RequestEnv) (t : Worker) (id url : String)
    (core : Core) (conn : Conn) (salt hostID js : String)
    (h : requestSession_thread K E t id url (State.init core conn)
      = requestSession_catch K t id
          (stageParse K E t id salt js
            { core := core, conn := conn, out := fetchPrefix E id conn.domain url salt hostID })) :
    ∃ l, (requestSession_thread K E t id url (State.init core conn)).out
        = fetchPrefix E id conn.domain url salt hostID
          ++ [.progress id "Validating VMCP data", .call (.jsonParse js)] ++ l
      ∧ ∀ e ∈ l, lateEv 6 e = true := by
  rw [h]
  generalize hp : stageParse K E t id salt js _ = p
  obtain ⟨l, hl, hlate⟩ := stageParse_late K E t id salt js
    { core := core, conn := conn, out := fetchPrefix E id conn.domain url salt hostID }
  rw [hp] at hl
  obtain ⟨l', hl', hlate'⟩ := requestSession_catch_late K t id p
  refine ⟨l ++ l', by rw [hl', hl]; simp, ?_⟩
  intro e he
  rcases List.mem_append.mp he with he | he
  · exact hlate e he
  · exact lateEv_mono (by decide) (hlate' e he)

/-- C19 (amended). In every run of `requestSession_thread` that calls
`downloadText` and gets the return value `res` with the text `text`: when
`res` is negative the only terminal event is `failed("Unable to contact the
VMCP endpoint", res)` and the parser is never called; when `res` is zero or
positive the worker goes on and hands `text` to the parser. -/
theorem requestSession_download_result
    (K : Consts) (E : RequestEnv) (thisThread : Worker) (eventID vmcpURL : String)
    (core : Core) (conn : Conn) (res : Int) (text : String)
    (hcall : ∃ url, Ev.call (.downloadText url) ∈
      (requestSession_thread K E thisThread eventID vmcpURL (State.init core conn)).out)
    (hres : E.downloadText = .returns (res, text)) :
    (res < 0 →
      terminals eventID
          (requestSession_thread K E thisThread eventID vmcpURL (State.init core conn)).out
        = [failed eventID "Unable to contact the VMCP endpoint" res]
      ∧ ∀ js, Ev.call (.jsonParse js) ∉
          (requestSession_thread K E thisThread eventID vmcpURL (State.init core conn)).out)
    ∧ (0 ≤ res →
        Ev.call (.jsonParse text) ∈
          (requestSession_thread K E thisThread eventID vmcpURL (State.init core conn)).out) := by
  obtain ⟨u, hc⟩ := hcall
  rcases reach_ready K E thisThread eventID vmcpURL core conn with ⟨hb, _⟩ | ⟨_, h⟩
  · refine ⟨fun hneg => ?_, fun hpos => ?_⟩
    · have hs : StoppedBefore 4 thisThread eventID core conn
          (requestSession_thread K E thisThread eventID vmcpURL (State.init core conn)) := by
        rcases reach_parse K E thisThread eventID vmcpURL core conn hb with ⟨_, _, _, h1, _⟩ | h
        · obtain ⟨r, hr, hr0⟩ := h1.downloaded
          rw [hres] at hr
          simp only [Call.returns.injEq, Prod.mk.injEq] at hr
          omega
        · exact h
      refine ⟨?_, ?_⟩
      · rcases reach_fetch K E thisThread eventID vmcpURL core conn hb with ⟨_, h⟩ | h
        · rw [h] at hc ⊢
          unfold stageFetch at hc ⊢
          cases hg : E.generateSalt with
          | throws =>
            simp [hg, requestSession_catch, State.emit, State.remove_one, keystorePrefix,
              readyPrefix, failed] at hc
          | returns salt =>
            cases hh : E.calculateHostID with
            | throws =>
              simp [hg, hh, requestSession_catch, State.emit, State.remove_one, keystorePrefix,
                readyPrefix, failed] at hc
            | returns hostID =>
              simp [hres, hneg, requestSession_catch, State.emit, State.remove_one,
                keystorePrefix, readyPrefix, failed, terminals, isTerminal]
        · rcases h.call_stage hc with h' | h' <;> simp [callStage] at h'
      · intro js hmem
        rcases hs.call_stage hmem with h' | h' <;> simp [callStage] at h'
    · rcases reach_parse K E thisThread eventID vmcpURL core conn hb with
        ⟨salt, hostID, js, h1, h⟩ | h
      · obtain ⟨r, hr, _⟩ := h1.downloaded
        rw [hres] at hr
        simp only [Call.returns.injEq, Prod.mk.injEq] at hr
        obtain ⟨l, hl, _⟩ := parsed_trace K E thisThread eventID vmcpURL core conn salt hostID js h
        rw [hl, hr.2]
        simp
      · exfalso
        rcases reach_fetch K E thisThread eventID vmcpURL core conn hb with ⟨_, h'⟩ | h'
        · rw [h'] at hc h
          unfold stageFetch at hc h
          cases hg : E.generateSalt with
          | throws =>
            simp [hg, requestSession_catch, State.emit, State.remove_one, keystorePrefix,
              readyPrefix, failed] at hc
          | returns salt =>
            cases hh : E.calculateHostID with
            | throws =>
              simp [hg, hh, requestSession_catch, State.emit, State.remove_one, keystorePrefix,
                readyPrefix, failed] at hc
            | returns hostID =>
              have hn : ¬ res < 0 := not_lt.mpr hpos
              simp only [hg, hh, hres, hn, if_false] at h
              generalize hp : stageParse K E thisThread eventID salt text _ = p at h
              obtain ⟨l, hl, _⟩ := stageParse_late K E thisThread eventID salt text _
              rw [hp] at hl
              obtain ⟨l', hl', _⟩ := requestSession_catch_late K thisThread eventID p
              have hmem : Ev.call (.jsonParse text) ∈
                  (requestSession_catch K thisThread eventID p).out := by
                rw [hl', hl]; simp
              rcases h.call_stage hmem with h'' | h'' <;> simp [callStage] at h''
        · rcases h'.call_stage hc with h'' | h'' <;> simp [callStage] at h''
  · simp [h, failed] at hc

/-- C20. The URL that a run of `requestSession_thread` hands to the downloader
is the manifest URL, then the glue `&` when the manifest URL contains `?` and
`?` otherwise, then `cvm_salt=`, the salt, `&cvm_hostid=` and the host id; the
manifest URL is a prefix of it and it contains `?`. -/
theorem requestSession_download_url
    (K : Consts) (E : RequestEnv) (thisThread : Worker) (eventID vmcpURL : String)
    (core : Core) (conn : Conn) (url : String)
    (hcall : Ev.call (.downloadText url) ∈
      (requestSession_thread K E thisThread eventID vmcpURL (State.init core conn)).out) :
    ∃ salt hostID, E.generateSalt = .returns salt ∧ E.calculateHostID = .returns hostID
      ∧ url = newURL vmcpURL salt hostID
      ∧ url = vmcpURL ++ (if vmcpURL.toList.contains '?' then "&" else "?")
          ++ "cvm_salt=" ++ salt ++ "&cvm_hostid=" ++ hostID
      ∧ vmcpURL.toList <+: url.toList
      ∧ '?' ∈ url.toList := by
  have key : ∃ salt hostID, E.generateSalt = .returns salt ∧ E.calculateHostID = .returns hostID
      ∧ url = newURL vmcpURL salt hostID := by
    rcases reach_ready K E thisThread eventID vmcpURL core conn with ⟨hb, _⟩ | ⟨_, h⟩
    · rcases reach_fetch K E thisThread eventID vmcpURL core conn hb with ⟨_, h⟩ | h
      · rw [h] at hcall
        unfold stageFetch at hcall
        cases hg : E.generateSalt with
        | throws =>
          simp [hg, requestSession_catch, State.emit, State.remove_one, keystorePrefix,
            readyPrefix, failed] at hcall
        | returns salt =>
          cases hh : E.calculateHostID with
          | throws =>
            simp [hg, hh, requestSession_catch, State.emit, State.remove_one, keystorePrefix,
              readyPrefix, failed] at hcall
          | returns hostID =>
            refine ⟨salt, hostID, rfl, rfl, ?_⟩
            cases hd : E.downloadText with
            | throws =>
              simpa [hg, hh, hd, requestSession_catch, State.emit, State.remove_one,
                keystorePrefix, readyPrefix, failed] using hcall
            | returns p =>
              obtain ⟨res, js⟩ := p
              by_cases hr : res < 0
              · simpa [hg, hh, hd, hr, requestSession_catch, State.emit, State.remove_one,
                  keystorePrefix, readyPrefix, failed] using hcall
              · simp only [hg, hh, hd, hr, if_false] at hcall
                generalize hp : stageParse K E thisThread eventID salt js _ = p at hcall
                obtain ⟨l, hl, hlate⟩ := stageParse_late K E thisThread eventID salt js _
                rw [hp] at hl
                obtain ⟨l', hl', hlate'⟩ := requestSession_catch_late K thisThread eventID p
                rw [hl', hl] at hcall
                simp only [State.emit, List.mem_append, List.mem_cons, List.mem_singleton,
                  List.mem_nil_iff, or_false, keystorePrefix, readyPrefix] at hcall
                rcases hcall with hcall | hcall
                · rcases hcall with hcall | hcall
                  · simpa using hcall
                  · have := hlate _ hcall
                    simp [lateEv, callStage] at this
                · have := hlate' _ hcall
                  simp [lateEv, callStage] at this
      · rcases h.call_stage hcall with h' | h' <;> simp [callStage] at h'
    · simp [h, failed] at hcall
  obtain ⟨salt, hostID, hg, hh, hu⟩ := key
  have hform : url = vmcpURL ++ (if vmcpURL.toList.contains '?' then "&" else "?")
      ++ "cvm_salt=" ++ salt ++ "&cvm_hostid=" ++ hostID := by
    have hlit : ("&cvm_hostid=" : String) = "&" ++ "cvm_hostid=" := by decide
    rw [hu, hlit]
    simp only [newURL, String.append_assoc]
  refine ⟨salt, hostID, hg, hh, hu, hform, ?_, ?_⟩
  · rw [hform]
    simp only [String.append_assoc]
    simp
  · rw [hform]
    by_cases hq : vmcpURL.toList.contains '?' = true
    · have : '?' ∈ vmcpURL.data := by simpa using hq
      simp [this]
    · simp only [hq]
      simp

/-! ## Installation flags and thread list -/

theorem stageOpen_framed (K : Consts) (E : RequestEnv) (t : Worker) (id : String)
    (v : ParameterMap) (σ : State) : Framed t σ (stageOpen K E t id v σ) := by
  unfold stageOpen
  cases E.sessionOpen with
  | throws => simp [Framed, State.emit]
  | returns o =>
    cases o with
    | none => simp [Framed, State.emit, State.remove_one]
    | some session =>
      cases E.sessionWait with
      | throws => simp [Framed, State.emit]
      | returns _ =>
        cases E.checkDaemonNeed with
        | throws => simp [Framed, State.emit]
        | returns _ =>
          cases E.storeSession with
          | throws => simp [Framed, State.emit]
          | returns cvmSession =>
            cases h1 : E.sessionStateInfoToJSON <;> cases h2 : cvmSession.isAborting <;>
              simp [Framed, State.emit, State.emitAll, State.putSession, initialPush,
                sendStateVariables, enablePeriodicJobs, h1, h2]

theorem manageThrottling_frame (K : Consts) (E : RequestEnv) (c : Conn) :
    (manageThrottling K E c).installInProgress = c.installInProgress
    ∧ (manageThrottling K E c).runningThreads = c.runningThreads := by
  unfold manageThrottling
  split
  · simp only []
    split <;> simp
  · simp

theorem stageConsent_framed (K : Consts) (E : RequestEnv) (t : Worker) (id : String)
    (v : ParameterMap) (res : Int) (σ : State) :
    Framed t σ (stageConsent K E t id v res σ) := by
  unfold stageConsent
  by_cases h0 : res = 0
  · simp only [h0, if_true, confirm, __callbackConfim]
    cases E.confirm with
    | throws => simp [Framed, State.emit]
    | returns answer =>
      by_cases ha : answer = K.UI_OK
      · simp only [ha, ne_eq, not_true_eq_false, if_false]
        exact stageOpen_framed K E t id v _
      · simp only [ne_eq, ha, not_false_eq_true, if_true]
        cases E.abortedAfterConfirm
        · simp [Framed, State.emit, State.remove_one, manageThrottling_frame]
        · simp [Framed, State.emit, State.remove_one]
  · simp only [h0, if_false]
    exact stageOpen_framed K E t id v _

theorem stageValidate_framed (K : Consts) (E : RequestEnv) (t : Worker) (id : String)
    (v : ParameterMap) (σ : State) : Framed t σ (stageValidate K E t id v σ) := by
  unfold stageValidate
  cases E.sessionValidate with
  | throws => simp [Framed, State.emit]
  | returns res =>
    by_cases h2 : res = 2
    · simp [h2, Framed, State.emit, State.remove_one]
    · simp only [h2, if_false]
      exact stageConsent_framed K E t id v res _

theorem stageSignature_framed (K : Consts) (E : RequestEnv) (t : Worker) (id salt : String)
    (v : ParameterMap) (σ : State) : Framed t σ (stageSignature K E t id salt v σ) := by
  unfold stageSignature
  cases E.signatureValidate with
  | throws => simp [Framed, State.emit]
  | returns res =>
    by_cases h : res < 0
    · simp [h, Framed, State.emit, State.remove_one]
    · simp only [h, if_false]
      exact stageValidate_framed K E t id v _

theorem stageSchema_framed (K : Consts) (E : RequestEnv) (t : Worker) (id salt : String)
    (v : ParameterMap) (σ : State) : Framed t σ (stageSchema K E t id salt v σ) := by
  unfold stageSchema
  split
  · simp [Framed, State.emit, State.remove_one]
  · split
    · simp [Framed, State.emit, State.remove_one]
    · split
      · simp [Framed, State.emit, State.remove_one]
      · split
        · simp [Framed, State.emit, State.remove_one]
        · exact stageSignature_framed K E t id salt v σ

theorem stageParse_framed (K : Consts) (E : RequestEnv) (t : Worker) (id salt js : String)
    (σ : State) : Framed t σ (stageParse K E t id salt js σ) := by
  unfold stageParse
  cases E.jsonParse with
  | throws => simp [Framed, State.emit, State.remove_one]
  | returns o =>
    cases o with
    | none => simp [Framed, State.emit, State.remove_one]
    | some v => exact stageSchema_framed K E t id salt v _

theorem stageFetch_framed (K : Consts) (E : RequestEnv) (t : Worker) (id url : String)
    (σ : State) : Framed t σ (stageFetch K E t id url σ) := by
  unfold stageFetch
  cases E.generateSalt with
  | throws => simp [Framed, State.emit]
  | returns salt =>
    cases E.calculateHostID with
    | throws => simp [Framed, State.emit]
    | returns hostID =>
      cases E.downloadText with
      | throws => simp [Framed, State.emit]
      | returns p =>
        obtain ⟨res, js⟩ := p
        by_cases h : res < 0
        · simp [h, Framed, State.emit, State.remove_one]
        · simp only [h, if_false]
          exact stageParse_framed K E t id salt js _

theorem stageKeystore_framed (K : Consts) (E : RequestEnv) (t : Worker) (id url : String)
    (σ : State) : Framed t σ (stageKeystore K E t id url σ) := by
  unfold stageKeystore
  cases E.updateAuthorizedKeystore with
  | throws => simp [Framed, State.emit]
  | returns _ =>
    cases E.keystoreValid with
    | false => simp [Framed, State.emit, State.remove_one]
    | true =>
      cases E.isDomainValid with
      | throws => simp [Framed, State.emit]
      | returns valid =>
        cases valid with
        | false => simp [Framed, State.emit, State.remove_one]
        | true => exact stageFetch_framed K E t id url _

theorem stageReady_framed (K : Consts) (E : RequestEnv) (t : Worker) (id url : String)
    (σ : State) : Framed t σ (stageReady K E t id url σ) := by
  unfold stageReady
  simp only [raiseAll_eq]
  cases E.waitTillReady with
  | throws => simp [Framed, State.emit, State.emitAll]
  | returns _ =>
    cases E.abortedAfterReady with
    | true => simp [Framed, State.emit, State.emitAll, State.remove_one]
    | false => exact stageKeystore_framed K E t id url _

/-- A run of `requestSession_thread` leaves both installation flags as they
are and removes its thread from `runningThreads`. -/
theorem requestSession_thread_frame (K : Consts) (E : RequestEnv) (t : Worker)
    (id url : String) (σ : State) :
    (requestSession_thread K E t id url σ).core.installInProgress = σ.core.installInProgress
    ∧ (requestSession_thread K E t id url σ).conn.installInProgress = σ.conn.installInProgress
    ∧ (requestSession_thread K E t id url σ).conn.runningThreads
        = σ.conn.runningThreads.erase t := by
  unfold requestSession_thread
  by_cases hb : σ.conn.throttleBlock = true
  · simp [hb, State.emit, State.remove_one]
  · rw [if_neg hb]
    obtain ⟨h1, h2, h3⟩ := stageReady_framed K E t id url σ
    generalize stageReady K E t id url σ = p at h1 h2 h3
    obtain ⟨e, σ2⟩ := p
    cases e <;> simp_all [requestSession_catch, State.emit, State.remove_one]

/-! ## Bookkeeping of the installer -/

theorem installers_erase_le (l : List Worker) (t : Worker) :
    installers (l.erase t) ≤ installers l :=
  (List.erase_sublist t l).countP_le _

theorem installers_erase_installer (l : List Worker) (t : Worker) (hi : isInstaller t = true)
    (hm : t ∈ l) : installers (l.erase t) + 1 = installers l := by
  induction l with
  | nil => simp at hm
  | cons a l ih =>
    by_cases h : a = t
    · subst h
      simp [installers, List.countP_cons, hi]
    · have hm2 : t ∈ l := by
        rcases List.mem_cons.mp hm with h2 | h2
        · exact absurd h2.symm h
        · exact h2
      have hb : (a == t) = false := by simpa using h
      simp only [installers, List.erase_cons, hb, Bool.false_eq_true, if_false,
        List.countP_cons] at ih ⊢
      have := ih hm2
      omega

theorem handleAction_thread_frame (K : Consts) (S : SessionEnv) (t : Worker)
    (session_id : Int) (eventID action : String) (parameters : ParameterMap) (σ : State) :
    (handleAction_thread K S t session_id eventID action parameters σ).core.installInProgress
      = σ.core.installInProgress
    ∧ (handleAction_thread K S t session_id eventID action parameters σ).conn.installInProgress
      = σ.conn.installInProgress
    ∧ installers
        (handleAction_thread K S t session_id eventID action parameters σ).conn.runningThreads
      ≤ installers σ.conn.runningThreads := by
  unfold handleAction_thread
  cases σ.core.sessions.lookup session_id with
  | none => exact ⟨rfl, rfl, installers_erase_le _ _⟩
  | some session =>
    simp only []
    generalize Session.handleAction K S eventID action parameters session = r
    obtain ⟨e, s, evs⟩ := r
    cases e
    · exact ⟨rfl, rfl, installers_erase_le _ _⟩
    · exact ⟨rfl, rfl, le_refl _⟩
    · exact ⟨rfl, rfl, installers_erase_le _ _⟩

/-- What the installer thread has done to the bookkeeping once it has executed
`core.installInProgress = false`: the flag of the connection is as it was;
when an exception left the function, the flag of the core and the thread list
are as they were; otherwise the flag of the core is clear and the thread has
removed itself from the list, except before the hand-over. -/
theorem installHV_upToCoreFlag_frame (K : Consts) (I : InstallEnv) (t : Worker)
    (eventID : String) (σ : State) :
    (installHV_upToCoreFlag K I t eventID σ).2.conn.installInProgress
      = σ.conn.installInProgress
    ∧ ((installHV_upToCoreFlag K I t eventID σ).1 = none →
        (installHV_upToCoreFlag K I t eventID σ).2.core.installInProgress
          = σ.core.installInProgress
        ∧ (installHV_upToCoreFlag K I t eventID σ).2.conn.runningThreads
          = σ.conn.runningThreads)
    ∧ (∀ site, (installHV_upToCoreFlag K I t eventID σ).1 = some site →
        (installHV_upToCoreFlag K I t eventID σ).2.core.installInProgress = false
        ∧ (installHV_upToCoreFlag K I t eventID σ).2.conn.runningThreads
          = if site = .handOver then σ.conn.runningThreads
            else σ.conn.runningThreads.erase t) := by
  unfold installHV_upToCoreFlag
  simp only [confirm, __callbackConfim, raiseAll_eq]
  cases I.confirm with
  | throws => simp [State.emit]
  | returns answer =>
    by_cases ha : answer = K.UI_OK
    · simp only [ha, ne_eq, not_true_eq_false, if_false]
      cases I.installHypervisor with
      | throws => simp [State.emit, State.emitAll]
      | returns ans =>
        cases I.abortedAfterInstall with
        | true => simp [State.emit, State.emitAll, State.remove_one, clearCoreFlag]
        | false =>
          simp only [Bool.false_eq_true, if_false]
          by_cases hok : ans = K.HVE_OK
          · simp only [hok, ne_eq, not_true_eq_false, if_false]
            cases I.detectHypervisor with
            | throws => simp [State.emit, State.emitAll]
            | returns hv =>
              cases hv with
              | none => simp [State.emit, State.emitAll, State.remove_one, clearCoreFlag]
              | some h =>
                simp only []
                cases I.loadSessions with
                | throws => simp [State.emit, State.emitAll]
                | returns _ => simp [State.emit, State.emitAll, clearCoreFlag]
          · simp only [ne_eq, hok, not_false_eq_true, if_true]
            split <;> simp [State.emit, State.emitAll, State.remove_one, clearCoreFlag]
    · simp only [ne_eq, ha, not_false_eq_true, if_true]
      simp [State.emit, State.remove_one, clearCoreFlag]

/-- What the rest of the installer thread does to the bookkeeping: it clears
the flag of the connection and leaves the flag of the core alone; after the
hand-over `requestSession_thread` removes the thread from the list. -/
theorem installHV_fromConnFlag_frame (K : Consts) (I : InstallEnv) (E : RequestEnv)
    (t : Worker) (eventID vmcpURL : String) (site : FlagSite) (σ : State) :
    (installHV_fromConnFlag K I E t eventID vmcpURL site σ).core.installInProgress
      = σ.core.installInProgress
    ∧ (installHV_fromConnFlag K I E t eventID vmcpURL site σ).conn.installInProgress = false
    ∧ (installHV_fromConnFlag K I E t eventID vmcpURL site σ).conn.runningThreads
      = if site = .handOver then σ.conn.runningThreads.erase t else σ.conn.runningThreads := by
  cases site
  · show (if I.abortedAfterConfirm = true then (clearConnFlag σ).emit (.call .abortHandled)
        else clearConnFlag σ).core.installInProgress = _ ∧
      (if I.abortedAfterConfirm = true then (clearConnFlag σ).emit (.call .abortHandled)
        else clearConnFlag σ).conn.installInProgress = false ∧
      (if I.abortedAfterConfirm = true then (clearConnFlag σ).emit (.call .abortHandled)
        else clearConnFlag σ).conn.runningThreads = _
    split <;> simp [clearConnFlag, State.emit]
  · simp [installHV_fromConnFlag, clearConnFlag, State.emit]
  · simp [installHV_fromConnFlag, clearConnFlag]
  · obtain ⟨h1, h2, h3⟩ := requestSession_thread_frame K E t eventID vmcpURL (clearConnFlag σ)
    exact ⟨h1, h2, by simpa [installHV_fromConnFlag, clearConnFlag] using h3⟩
  · simp [installHV_fromConnFlag, clearConnFlag]

/-- What a run of the installer thread does to the installation bookkeeping:
nothing (an exception left it early), or it clears both flags and removes its
thread. -/
theorem installer_frame (K : Consts) (I : InstallEnv) (E : RequestEnv) (t : Worker)
    (eventID vmcpURL : String) (σ : State) :
    ((installHV_andRequestSession_thread K I E t eventID vmcpURL σ).core.installInProgress
        = σ.core.installInProgress
      ∧ (installHV_andRequestSession_thread K I E t eventID vmcpURL σ).conn.installInProgress
        = σ.conn.installInProgress
      ∧ (installHV_andRequestSession_thread K I E t eventID vmcpURL σ).conn.runningThreads
        = σ.conn.runningThreads)
    ∨ ((installHV_andRequestSession_thread K I E t eventID vmcpURL σ).core.installInProgress
        = false
      ∧ (installHV_andRequestSession_thread K I E t eventID vmcpURL σ).conn.installInProgress
        = false
      ∧ (installHV_andRequestSession_thread K I E t eventID vmcpURL σ).conn.runningThreads
        = σ.conn.runningThreads.erase t) := by
  unfold installHV_andRequestSession_thread
  obtain ⟨h1, h2, h3⟩ := installHV_upToCoreFlag_frame K I t eventID σ
  generalize installHV_upToCoreFlag K I t eventID σ = p at h1 h2 h3
  obtain ⟨o, σ2⟩ := p
  cases o with
  | none => exact Or.inl ⟨(h2 rfl).1, h1, (h2 rfl).2⟩
  | some site =>
    right
    obtain ⟨k1, k2, k3⟩ := installHV_fromConnFlag_frame K I E t eventID vmcpURL site σ2
    obtain ⟨m1, m2⟩ := h3 site rfl
    refine ⟨k1.trans m1, k2, ?_⟩
    show (installHV_fromConnFlag K I E t eventID vmcpURL site σ2).conn.runningThreads = _
    rw [k3]
    simp only at m2
    by_cases hs : site = .handOver
    · rw [if_pos hs]; rw [if_pos hs] at m2; rw [m2]
    · rw [if_neg hs]; rw [if_neg hs] at m2; rw [m2]

theorem cleanup_frame (Cl : CleanupEnv) (σ : State) :
    (cleanup Cl σ).conn.runningThreads = []
    ∧ (cleanup Cl σ).conn.installInProgress = false
    ∧ (cleanup Cl σ).core.installInProgress
        = (if σ.conn.installInProgress = true then false else σ.core.installInProgress) := by
  unfold cleanup join_all
  by_cases h : σ.conn.installInProgress = true
  · simp [h, State.emit, clearInstall]
  · simp [h, State.emit]

/-! ## The action router -/

/-- A `requestSession` action that finds no usable hypervisor while an
installation is in progress is refused. -/
theorem requestSession_refused (K : Consts) (A : ActionEnv) (id : String)
    (parameters : ParameterMap) (σ : State)
    (hinstall : σ.core.installInProgress = true)
    (hblock : σ.conn.throttleBlock = false)
    (hvmcp : parameters.contains "vmcp" = true)
    (hhv : hypervisorUsable A.syncHypervisorReflection = false) :
    handleAction K A id "requestSession" parameters σ
      = { core := { σ.core with hypervisor := A.syncHypervisorReflection }
          conn := σ.conn
          out := σ.out ++ [.call .syncHypervisorReflection,
            failed id
              "A hypervisor installation is in progress please wait until it's finished and try again."
              K.HVE_USAGE_ERROR] } := by
  simp [handleAction, requestSessionAction, hvmcp, hblock, hhv, hinstall, State.emit]

/-- A `requestSession` action that finds no usable hypervisor while no
installation is in progress sets both flags and starts the installer thread. -/
theorem requestSession_installs (K : Consts) (A : ActionEnv) (id : String)
    (parameters : ParameterMap) (σ : State)
    (hinstall : σ.core.installInProgress = false)
    (hblock : σ.conn.throttleBlock = false)
    (hvmcp : parameters.contains "vmcp" = true)
    (hhv : hypervisorUsable A.syncHypervisorReflection = false) :
    handleAction K A id "requestSession" parameters σ
      = { core := { σ.core with hypervisor := A.syncHypervisorReflection,
                                installInProgress := true }
          conn := { σ.conn with
            installInProgress := true
            runningThreads := σ.conn.runningThreads
              ++ [.installHV_andRequestSession_thread id (parameters.get "vmcp" "")] }
          out := σ.out ++ [.call .syncHypervisorReflection] } := by
  simp [handleAction, requestSessionAction, hvmcp, hblock, hhv, hinstall, State.emit,
    State.push_back]

/-- C11 (amended). On a connection that is not throttle-blocked, while
`core.installInProgress` is true, a `requestSession` action that carries
`vmcp` and finds no usable hypervisor after `syncHypervisorReflection` only
emits `failed(USAGE_ERROR)`: no thread is added and both `installInProgress`
flags stay as they are. -/
theorem requestSession_while_installing (K : Consts) (A : ActionEnv) (id : String)
    (parameters : ParameterMap) (σ : State)
    (hinstall : σ.core.installInProgress = true)
    (hblock : σ.conn.throttleBlock = false)
    (hvmcp : parameters.contains "vmcp" = true)
    (hhv : hypervisorUsable A.syncHypervisorReflection = false) :
    (handleAction K A id "requestSession" parameters σ).out
      = σ.out ++ [.call .syncHypervisorReflection,
          failed id
            "A hypervisor installation is in progress please wait until it's finished and try again."
            K.HVE_USAGE_ERROR]
    ∧ (handleAction K A id "requestSession" parameters σ).conn = σ.conn
    ∧ (handleAction K A id "requestSession" parameters σ).core
        = { σ.core with hypervisor := A.syncHypervisorReflection }
    ∧ (handleAction K A id "requestSession" parameters σ).core.installInProgress = true := by
  rw [requestSession_refused K A id parameters σ hinstall hblock hvmcp hhv]
  exact ⟨rfl, rfl, rfl, hinstall⟩

theorem handleAction_session_branch (K : Consts) (A : ActionEnv) (id action : String)
    (parameters : ParameterMap) (σ : State)
    (h1 : action ≠ "handshake") (h2 : action ≠ "interactionCallback")
    (h3 : action ≠ "requestSession") :
    handleAction K A id action parameters σ
      = if parameters.contains "session_id" then
          match σ.core.sessions.lookup (A.ston (parameters.get "session_id" "")) with
          | none => σ.emit (.sendError "Unable to find a session with the specified session id!" id)
          | some _ =>
            σ.push_back (.handleAction_thread (A.ston (parameters.get "session_id" "")) id action
              (parameters.erase "session_id"))
        else if σ.conn.privileged then privilegedAction id action parameters σ
        else σ := by
  unfold handleAction
  rw [if_neg h1, if_neg h2, if_neg h3]

theorem privilegedAction_other (id action : String) (parameters : ParameterMap) (σ : State)
    (h1 : action ≠ "stopService") (h2 : action ≠ "enumSessions")
    (h3 : action ≠ "controlSession") : privilegedAction id action parameters σ = σ := by
  unfold privilegedAction
  rw [if_neg h1, if_neg h2, if_neg h3]

/-- C13 (amended). For every session-scoped action name: when the parameters
carry a `session_id` that is not a key of `core.sessions`, `handleAction` only
sends the error frame "Unable to find a session with the specified session
id!" tagged with the request id; when the parameters carry no `session_id`,
`handleAction` does nothing at all.  In both cases no thread is added. -/
theorem session_action_without_session (K : Consts) (A : ActionEnv) (id action : String)
    (parameters : ParameterMap) (σ : State) (hverb : action ∈ sessionVerbs) :
    (parameters.contains "session_id" = true →
      σ.core.sessions.lookup (A.ston (parameters.get "session_id" "")) = none →
      handleAction K A id action parameters σ
        = σ.emit (.sendError "Unable to find a session with the specified session id!" id))
    ∧ (parameters.contains "session_id" = false →
        handleAction K A id action parameters σ = σ) := by
  have hne : action ≠ "handshake" ∧ action ≠ "interactionCallback" ∧ action ≠ "requestSession"
      ∧ action ≠ "stopService" ∧ action ≠ "enumSessions" ∧ action ≠ "controlSession" := by
    simp only [sessionVerbs, List.mem_cons, List.mem_singleton, List.mem_nil_iff, or_false]
      at hverb
    rcases hverb with h | h | h | h | h | h | h | h | h | h | h <;> subst h <;> decide
  obtain ⟨h1, h2, h3, h4, h5, h6⟩ := hne
  rw [handleAction_session_branch K A id action parameters σ h1 h2 h3]
  refine ⟨fun hc hl => ?_, fun hc => ?_⟩
  · rw [if_pos hc, hl]
  · rw [if_neg (by simp [hc]), privilegedAction_other id action parameters σ h4 h5 h6]
    simp

theorem sessionHandler_other (K : Consts) (S : SessionEnv) (eventID action : String)
    (parameters : ParameterMap) (s : Session) (h : action ∉ sessionVerbs) :
    (Session.handleAction K S eventID action parameters s).2 = (s, []) := by
  simp only [sessionVerbs, List.mem_cons, List.mem_singleton, List.mem_nil_iff, or_false,
    not_or] at h
  obtain ⟨h1, h2, h3, h4, h5, h6, h7, h8, h9, h10, h11⟩ := h
  unfold Session.handleAction
  by_cases ha : s.isAborting = true
  · rw [if_pos ha]
  · rw [if_neg ha, if_neg h1, if_neg h2, if_neg h3, if_neg h4, if_neg h5, if_neg h6, if_neg h7,
      if_neg h8, if_neg h9, if_neg h10, if_neg h11]

/-- C14 (amended). For every action name that is not one of the recognised
ones: when the parameters carry no `session_id`, `handleAction` emits nothing
and leaves the core and the connection as they are; when they carry the
`session_id` of a stored session, `handleAction` only adds the thread that
runs the session handler, and the session handler emits nothing and leaves the
record as it is. -/
theorem unknown_action_ignored (K : Consts) (A : ActionEnv) (id action : String)
    (parameters : ParameterMap) (σ : State) (hunknown : action ∉ recognisedActions) :
    (parameters.contains "session_id" = false →
      handleAction K A id action parameters σ = σ)
    ∧ (∀ session, parameters.contains "session_id" = true →
        σ.core.sessions.lookup (A.ston (parameters.get "session_id" "")) = some session →
        handleAction K A id action parameters σ
          = σ.push_back (.handleAction_thread (A.ston (parameters.get "session_id" "")) id
              action (parameters.erase "session_id")))
    ∧ (∀ (S : SessionEnv) (eventID : String) (p : ParameterMap) (s : Session),
        (Session.handleAction K S eventID action p s).2 = (s, [])) := by
  have hv : action ∉ sessionVerbs := fun h => hunknown (by simp [recognisedActions, h])
  simp only [recognisedActions, sessionVerbs, List.mem_append, List.mem_cons,
    List.mem_singleton, List.mem_nil_iff, or_false, not_or] at hunknown
  obtain ⟨⟨⟨h1, h2, h3⟩, _⟩, h4, h5, h6⟩ := hunknown
  rw [handleAction_session_branch K A id action parameters σ h1 h2 h3]
  refine ⟨fun hc => ?_, fun session hc hl => ?_, fun S eventID p s =>
    sessionHandler_other K S eventID action p s hv⟩
  · rw [if_neg (by simp [hc]), privilegedAction_other id action parameters σ h4 h5 h6]
    simp
  · rw [if_pos hc, hl]

/-! ## The daemon with several connections -/

theorem Daemon.update_core (d : Daemon) (i : Nat) (σ : State) (cr : List Worker)
    (pa : List Paused) : (d.update i σ cr pa).core = σ.core := rfl

theorem Daemon.update_conns_self (d : Daemon) (i : Nat) (σ : State) (cr : List Worker)
    (pa : List Paused) : (d.update i σ cr pa).conns i = σ.conn := by
  simp [Daemon.update]

theorem Daemon.update_conns_other (d : Daemon) (i j : Nat) (σ : State) (cr : List Worker)
    (pa : List Paused) (h : j ≠ i) : (d.update i σ cr pa).conns j = d.conns j := by
  simp [Daemon.update, h]

theorem Daemon.update_created_self (d : Daemon) (i : Nat) (σ : State) (cr : List Worker)
    (pa : List Paused) : (d.update i σ cr pa).created i = cr := by
  simp [Daemon.update]

theorem Daemon.update_created_other (d : Daemon) (i j : Nat) (σ : State) (cr : List Worker)
    (pa : List Paused) (h : j ≠ i) : (d.update i σ cr pa).created j = d.created j := by
  simp [Daemon.update, h]

theorem Daemon.update_paused_self (d : Daemon) (i : Nat) (σ : State) (cr : List Worker)
    (pa : List Paused) : (d.update i σ cr pa).paused i = pa := by
  simp [Daemon.update]

theorem Daemon.update_paused_other (d : Daemon) (i j : Nat) (σ : State) (cr : List Worker)
    (pa : List Paused) (h : j ≠ i) : (d.update i σ cr pa).paused j = d.paused j := by
  simp [Daemon.update, h]

theorem installers_append (l l2 : List Worker) :
    installers (l ++ l2) = installers l + installers l2 := by
  simp [installers, List.countP_append]

theorem installers_erase_other (l : List Worker) (t : Worker) (hi : isInstaller t = false) :
    installers (l.erase t) = installers l := by
  induction l with
  | nil => rfl
  | cons a l ih =>
    by_cases h : a = t
    · subst h
      simp [installers, List.countP_cons, hi]
    · have hb : (a == t) = false := by simpa using h
      simp only [installers, List.erase_cons, hb, Bool.false_eq_true, if_false,
        List.countP_cons] at ih ⊢
      omega

theorem spawnedBy_append (l l2 : List Worker) : spawnedBy l (l ++ l2) = l2 := by
  simp [spawnedBy]

theorem privilegedAction_frame (id action : String) (parameters : ParameterMap) (σ : State) :
    (privilegedAction id action parameters σ).core.installInProgress = σ.core.installInProgress
    ∧ (privilegedAction id action parameters σ).conn = σ.conn := by
  unfold privilegedAction
  by_cases a1 : action = "stopService"
  · rw [if_pos a1]; simp
  rw [if_neg a1]
  by_cases a2 : action = "enumSessions"
  · rw [if_pos a2]
    cases σ.core.hypervisor <;> simp [State.emit]
  rw [if_neg a2]
  by_cases a3 : action = "controlSession"
  · rw [if_pos a3]
    by_cases c1 : parameters.contains "session" = true
    · by_cases c2 : parameters.contains "action" = true <;> simp [c1, c2, State.emit]
    · simp [c1, State.emit]
  rw [if_neg a3]
  simp

/-- What `requestSessionAction` does to the installation bookkeeping: it leaves
the flags alone and creates no installer thread, or, when the flag of the core
was clear, it sets both flags and creates one installer thread. -/
theorem requestSessionAction_spawn (K : Consts) (A : ActionEnv) (id : String)
    (parameters : ParameterMap) (σ : State) :
    ((requestSessionAction K A id parameters σ).core.installInProgress
        = σ.core.installInProgress
      ∧ (requestSessionAction K A id parameters σ).conn.installInProgress
        = σ.conn.installInProgress
      ∧ ∃ l, (requestSessionAction K A id parameters σ).conn.runningThreads
          = σ.conn.runningThreads ++ l ∧ installers l = 0)
    ∨ (σ.core.installInProgress = false
      ∧ (requestSessionAction K A id parameters σ).core.installInProgress = true
      ∧ (requestSessionAction K A id parameters σ).conn.installInProgress = true
      ∧ ∃ t, isInstaller t = true
          ∧ (requestSessionAction K A id parameters σ).conn.runningThreads
            = σ.conn.runningThreads ++ [t]) := by
  unfold requestSessionAction
  by_cases hv : parameters.contains "vmcp" = true
  · rw [if_pos hv]
    by_cases hb : σ.conn.throttleBlock = true
    · rw [if_pos hb]
      exact Or.inl ⟨rfl, rfl, [], by simp [State.emit], rfl⟩
    · rw [if_neg hb]
      by_cases hu : hypervisorUsable A.syncHypervisorReflection = true
      · left
        refine ⟨?_, ?_, [.requestSession_thread id (parameters.get "vmcp" "")], ?_, ?_⟩ <;>
          simp [hu, State.emit, State.push_back, installers, isInstaller]
      · by_cases hi : σ.core.installInProgress = true
        · left
          refine ⟨?_, ?_, [], ?_, rfl⟩ <;> simp [hu, hi, State.emit]
        · right
          refine ⟨by simpa using hi, ?_, ?_,
            .installHV_andRequestSession_thread id (parameters.get "vmcp" ""), rfl, ?_⟩ <;>
            simp [hu, hi, State.emit, State.push_back]
  · rw [if_neg hv]
    exact Or.inl ⟨rfl, rfl, [], by simp [State.emit], rfl⟩

/-- What `handleAction` does to the installation bookkeeping: it leaves the
flags alone and creates no installer thread, or, when the flag of the core was
clear, it sets both flags and creates one installer thread. -/
theorem handleAction_spawn (K : Consts) (A : ActionEnv) (id action : String)
    (parameters : ParameterMap) (σ : State) :
    ((handleAction K A id action parameters σ).core.installInProgress
        = σ.core.installInProgress
      ∧ (handleAction K A id action parameters σ).conn.installInProgress
        = σ.conn.installInProgress
      ∧ ∃ l, (handleAction K A id action parameters σ).conn.runningThreads
          = σ.conn.runningThreads ++ l ∧ installers l = 0)
    ∨ (σ.core.installInProgress = false
      ∧ (handleAction K A id action parameters σ).core.installInProgress = true
      ∧ (handleAction K A id action parameters σ).conn.installInProgress = true
      ∧ ∃ t, isInstaller t = true
          ∧ (handleAction K A id action parameters σ).conn.runningThreads
            = σ.conn.runningThreads ++ [t]) := by
  by_cases h1 : action = "handshake"
  · left
    unfold handleAction
    rw [if_pos h1]
    by_cases hc : parameters.contains "auth" = true
    · exact ⟨by simp [hc, State.emit], by simp [hc, State.emit], [],
        by simp [hc, State.emit], rfl⟩
    · exact ⟨by simp [hc, State.emit], by simp [hc, State.emit], [],
        by simp [hc, State.emit], rfl⟩
  by_cases h2 : action = "interactionCallback"
  · left
    unfold handleAction
    rw [if_neg h1, if_pos h2]
    by_cases hc : parameters.contains "result" = true
    · exact ⟨by simp [hc, State.emit], by simp [hc, State.emit], [],
        by simp [hc, State.emit], rfl⟩
    · exact ⟨by simp [hc, State.emit], by simp [hc, State.emit], [],
        by simp [hc, State.emit], rfl⟩
  by_cases h3 : action = "requestSession"
  · unfold handleAction
    rw [if_neg h1, if_neg h2, if_pos h3]
    exact requestSessionAction_spawn K A id parameters σ
  left
  unfold handleAction
  rw [if_neg h1, if_neg h2, if_neg h3]
  by_cases hs : parameters.contains "session_id" = true
  · rw [if_pos hs]
    simp only []
    cases σ.core.sessions.lookup (A.ston (parameters.get "session_id" "")) with
    | none => exact ⟨rfl, rfl, [], by simp [State.emit], rfl⟩
    | some s =>
      exact ⟨rfl, rfl, [.handleAction_thread (A.ston (parameters.get "session_id" "")) id action
        (parameters.erase "session_id")], by simp [State.push_back],
        by simp [installers, isInstaller]⟩
  · rw [if_neg hs]
    by_cases hp : σ.conn.privileged = true
    · rw [if_pos hp]
      obtain ⟨k1, k2⟩ := privilegedAction_frame id action parameters σ
      exact ⟨k1, by rw [k2], [], by rw [k2]; simp, rfl⟩
    · rw [if_neg hp]
      exact ⟨rfl, rfl, [], by simp, rfl⟩

theorem Daemon.installing_of_le {d d2 : Daemon} {j : Nat}
    (h : installers (d2.created j) ≤ installers (d.created j)) (hi : d2.installing j) :
    d.installing j :=
  lt_of_lt_of_le hi h

/-- A step that leaves the flag of the core alone, sets no flag of a
connection and creates no installer thread keeps the bookkeeping consistent. -/
theorem Guarded.of_le {d d2 : Daemon} (g : Guarded d)
    (hcore : d2.core.installInProgress = d.core.installInProgress)
    (hflag : ∀ j, (d2.conns j).installInProgress = true → (d.conns j).installInProgress = true)
    (hcr : ∀ j, installers (d2.created j) ≤ installers (d.created j))
    (hpa : ∀ j, (d2.conns j).installInProgress = true → d2.paused j = [] → d.paused j = []) :
    Guarded d2 := by
  have hb : ∀ j, (d2.conns j).installInProgress = true → ¬ d2.betweenFlags j →
      ¬ d.betweenFlags j := by
    intro j hf hn hd
    apply hd
    apply hpa j hf
    by_contra hne
    exact hn hne
  refine ⟨fun i => le_trans (hcr i) (g.one i), fun i j hi hj => ?_, fun i hi => ?_,
    fun i hf hn => ?_, fun i j hfi hni hfj hnj => ?_⟩
  · exact g.single i j (Daemon.installing_of_le (hcr i) hi) (Daemon.installing_of_le (hcr j) hj)
  · rw [hcore]
    exact g.core i (Daemon.installing_of_le (hcr i) hi)
  · obtain ⟨k1, k2⟩ := g.owner i (hflag i hf) (hb i hf hn)
    exact ⟨by rw [hcore]; exact k1,
      fun j hj hi => k2 j hj (Daemon.installing_of_le (hcr j) hi)⟩
  · exact g.owners i j (hflag i hfi) (hb i hfi hni) (hflag j hfj) (hb j hfj hnj)

/-- A step on connection `i` that finds the flag of the core clear, sets it
and creates one installer thread keeps the bookkeeping consistent. -/
theorem Guarded.spawn {d d2 : Daemon} (g : Guarded d) (i : Nat)
    (h0 : d.core.installInProgress = false)
    (hcore : d2.core.installInProgress = true)
    (hflag : ∀ j, j ≠ i → (d2.conns j).installInProgress = (d.conns j).installInProgress)
    (hcri : installers (d2.created i) = installers (d.created i) + 1)
    (hcr : ∀ j, j ≠ i → d2.created j = d.created j)
    (hpa : ∀ j, d2.paused j = d.paused j) : Guarded d2 := by
  have hnone : ∀ j, ¬ d.installing j := by
    intro j hj
    have := g.core j hj
    rw [h0] at this
    exact absurd this (by simp)
  have hzero : ∀ j, installers (d.created j) = 0 := by
    intro j
    have := hnone j
    simpa [Daemon.installing] using this
  have hother : ∀ j, j ≠ i → ¬ d2.installing j := by
    intro j hj hi
    simp only [Daemon.installing, hcr j hj, hzero j] at hi
    exact absurd hi (by simp)
  have hown : ∀ j, (d2.conns j).installInProgress = true → ¬ d2.betweenFlags j → j = i := by
    intro j hf hn
    by_contra hj
    rw [hflag j hj] at hf
    have hn2 : ¬ d.betweenFlags j := by
      simpa [Daemon.betweenFlags, hpa j] using hn
    have := (g.owner j hf hn2).1
    rw [h0] at this
    exact absurd this (by simp)
  refine ⟨fun j => ?_, fun a b ha hb => ?_, fun _ _ => hcore, fun a hf hn => ⟨hcore, ?_⟩,
    fun a b hfa hna hfb hnb => ?_⟩
  · by_cases hj : j = i
    · subst hj
      rw [hcri, hzero j]
    · rw [hcr j hj, hzero j]
      exact Nat.zero_le _
  · have ha2 : a = i := by
      by_contra h; exact hother a h ha
    have hb2 : b = i := by
      by_contra h; exact hother b h hb
    rw [ha2, hb2]
  · intro j hj
    have ha := hown a hf hn
    subst ha
    exact hother j hj
  · rw [hown a hfa hna, hown b hfb hnb]

/-- The installer thread of connection `i` that had not cleared the flag of
the core has now done so and stands between its two flag statements: the
bookkeeping is consistent. -/
theorem Guarded.cleared {d d2 : Daemon} (g : Guarded d) (i : Nat)
    (hi : d.installing i)
    (hflag : ∀ j, j ≠ i → (d2.conns j).installInProgress = (d.conns j).installInProgress)
    (hcri : installers (d2.created i) + 1 = installers (d.created i))
    (hcr : ∀ j, j ≠ i → d2.created j = d.created j)
    (hpai : d2.paused i ≠ [])
    (hpa : ∀ j, j ≠ i → d2.paused j = d.paused j) : Guarded d2 := by
  have hnone : ∀ j, ¬ d2.installing j := by
    intro j hj
    by_cases h : j = i
    · subst h
      have := g.one j
      simp only [Daemon.installing] at hj
      omega
    · simp only [Daemon.installing, hcr j h] at hj
      exact h (g.single j i hj hi)
  have hown : ∀ j, (d2.conns j).installInProgress = true → ¬ d2.betweenFlags j → False := by
    intro j hf hn
    by_cases h : j = i
    · subst h
      exact hn hpai
    · rw [hflag j h] at hf
      have hn2 : ¬ d.betweenFlags j := by
        simpa [Daemon.betweenFlags, hpa j h] using hn
      exact (g.owner j hf hn2).2 i (fun hij => h hij.symm) hi
  refine ⟨fun j => ?_, fun a b ha _ => absurd ha (hnone a), fun a ha => absurd ha (hnone a),
    fun a hf hn => (hown a hf hn).elim, fun a b hfa hna _ _ => (hown a hfa hna).elim⟩
  have := hnone j
  simp only [Daemon.installing, not_lt, Nat.le_zero] at this
  rw [this]
  exact Nat.zero_le _

/-- The connection that holds the flag without an installer thread between its
two flag statements, and without a thread left to run, clears its flag: the
bookkeeping is consistent. -/
theorem Guarded.released {d d2 : Daemon} (g : Guarded d) (i : Nat)
    (hfi : (d.conns i).installInProgress = true) (hnb : ¬ d.betweenFlags i)
    (hcri : d.created i = [])
    (hflagi : (d2.conns i).installInProgress = false)
    (hflag : ∀ j, j ≠ i → (d2.conns j).installInProgress = (d.conns j).installInProgress)
    (hcr : ∀ j, d2.created j = d.created j)
    (hpa : ∀ j, d2.paused j = d.paused j) : Guarded d2 := by
  have hnone : ∀ j, ¬ d2.installing j := by
    intro j hj
    simp only [Daemon.installing, hcr j] at hj
    by_cases h : j = i
    · subst h
      rw [hcri] at hj
      simp [installers] at hj
    · exact (g.owner i hfi hnb).2 j h hj
  have hown : ∀ j, (d2.conns j).installInProgress = true → ¬ d2.betweenFlags j → False := by
    intro j hf hn
    by_cases h : j = i
    · subst h
      rw [hflagi] at hf
      exact absurd hf (by simp)
    · rw [hflag j h] at hf
      have hn2 : ¬ d.betweenFlags j := by
        simpa [Daemon.betweenFlags, hpa j] using hn
      exact h (g.owners j i hf hn2 hfi hnb)
  refine ⟨fun j => ?_, fun a b ha _ => absurd ha (hnone a), fun a ha => absurd ha (hnone a),
    fun a hf hn => (hown a hf hn).elim, fun a b hfa hna _ _ => (hown a hfa hna).elim⟩
  have := hnone j
  simp only [Daemon.installing, not_lt, Nat.le_zero] at this
  rw [this]
  exact Nat.zero_le _

/-- Every step keeps the installation bookkeeping consistent. -/
theorem Guarded.step_keeps (K : Consts) {d : Daemon} (g : Guarded d) (st : DaemonStep) :
    Guarded (st.run K d) := by
  cases st with
  | action i A id name parameters =>
    show Guarded (d.update i (handleAction K A id name parameters (d.view i))
      (d.created i ++ spawnedBy (d.conns i).runningThreads
        (handleAction K A id name parameters (d.view i)).conn.runningThreads) (d.paused i))
    rcases handleAction_spawn K A id name parameters (d.view i) with
      ⟨h1, h2, l, h3, h4⟩ | ⟨h0, h1, h2, t, ht, h3⟩
    · have hsp : spawnedBy (d.conns i).runningThreads
          (handleAction K A id name parameters (d.view i)).conn.runningThreads = l := by
        rw [h3]; exact spawnedBy_append _ _
      rw [hsp]
      refine g.of_le h1 (fun j hj => ?_) (fun j => ?_) (fun j _ hp => ?_)
      · by_cases h : j = i
        · subst h
          rw [Daemon.update_conns_self, h2] at hj
          exact hj
        · rwa [Daemon.update_conns_other _ _ _ _ _ _ h] at hj
      · by_cases h : j = i
        · subst h
          rw [Daemon.update_created_self, installers_append, h4]
          exact le_refl _
        · rw [Daemon.update_created_other _ _ _ _ _ _ h]
      · by_cases h : j = i
        · subst h
          rwa [Daemon.update_paused_self] at hp
        · rwa [Daemon.update_paused_other _ _ _ _ _ _ h] at hp
    · have hsp : spawnedBy (d.conns i).runningThreads
          (handleAction K A id name parameters (d.view i)).conn.runningThreads = [t] := by
        rw [h3]; exact spawnedBy_append _ _
      rw [hsp]
      refine g.spawn i h0 h1 (fun j hj => by rw [Daemon.update_conns_other _ _ _ _ _ _ hj]) ?_
        (fun j hj => Daemon.update_created_other _ _ _ _ _ _ hj) (fun j => ?_)
      · rw [Daemon.update_created_self, installers_append]
        simp [installers, ht]
      · by_cases h : j = i
        · subst h
          rw [Daemon.update_paused_self]
        · rw [Daemon.update_paused_other _ _ _ _ _ _ h]
  | worker i w =>
    cases w with
    | requestSession E t eventID vmcpURL =>
      show Guarded (if ((WorkerRun.requestSession E t eventID vmcpURL).bound
          && (d.created i).contains t) = true then
        d.update i (requestSession_thread K E t eventID vmcpURL (d.view i))
          ((d.created i).erase t) (d.paused i) else d)
      split
      · obtain ⟨h1, h2, _⟩ := requestSession_thread_frame K E t eventID vmcpURL (d.view i)
        refine g.of_le h1 (fun j hj => ?_) (fun j => ?_) (fun j _ hp => ?_)
        · by_cases h : j = i
          · subst h
            rw [Daemon.update_conns_self, h2] at hj
            exact hj
          · rwa [Daemon.update_conns_other _ _ _ _ _ _ h] at hj
        · by_cases h : j = i
          · subst h
            rw [Daemon.update_created_self]
            exact installers_erase_le _ _
          · rw [Daemon.update_created_other _ _ _ _ _ _ h]
        · by_cases h : j = i
          · subst h
            rwa [Daemon.update_paused_self] at hp
          · rwa [Daemon.update_paused_other _ _ _ _ _ _ h] at hp
      · exact g
    | sessionAction S t session_id eventID verb parameters =>
      show Guarded (if ((WorkerRun.sessionAction S t session_id eventID verb parameters).bound
          && (d.created i).contains t) = true then
        d.update i (handleAction_thread K S t session_id eventID verb parameters (d.view i))
          ((d.created i).erase t) (d.paused i) else d)
      split
      · obtain ⟨h1, h2, _⟩ :=
          handleAction_thread_frame K S t session_id eventID verb parameters (d.view i)
        refine g.of_le h1 (fun j hj => ?_) (fun j => ?_) (fun j _ hp => ?_)
        · by_cases h : j = i
          · subst h
            rw [Daemon.update_conns_self, h2] at hj
            exact hj
          · rwa [Daemon.update_conns_other _ _ _ _ _ _ h] at hj
        · by_cases h : j = i
          · subst h
            rw [Daemon.update_created_self]
            exact installers_erase_le _ _
          · rw [Daemon.update_created_other _ _ _ _ _ _ h]
        · by_cases h : j = i
          · subst h
            rwa [Daemon.update_paused_self] at hp
          · rwa [Daemon.update_paused_other _ _ _ _ _ _ h] at hp
      · exact g
    | installAndRequest I E t eventID vmcpURL =>
      show Guarded (if ((WorkerRun.installAndRequest I E t eventID vmcpURL).bound
          && (d.created i).contains t) = true then
        (match installHV_upToCoreFlag K I t eventID (d.view i) with
          | (none, σ) => d.update i σ ((d.created i).erase t) (d.paused i)
          | (some site, σ) =>
            d.update i σ ((d.created i).erase t)
              (d.paused i ++ [⟨site, I, E, t, eventID, vmcpURL⟩])) else d)
      by_cases hen : ((WorkerRun.installAndRequest I E t eventID vmcpURL).bound
          && (d.created i).contains t) = true
      · rw [if_pos hen]
        simp only [Bool.and_eq_true] at hen
        obtain ⟨hb, hm⟩ := hen
        have hinst : isInstaller t = true := by
          simp only [WorkerRun.bound, beq_iff_eq] at hb
          rw [hb]; rfl
        have hm2 : t ∈ d.created i := by simpa using hm
        have hcount := installers_erase_installer _ t hinst hm2
        obtain ⟨h1, h2, h3⟩ := installHV_upToCoreFlag_frame K I t eventID (d.view i)
        generalize installHV_upToCoreFlag K I t eventID (d.view i) = p at h1 h2 h3
        obtain ⟨o, σ2⟩ := p
        cases o with
        | none =>
          show Guarded (d.update i σ2 ((d.created i).erase t) (d.paused i))
          refine g.of_le (h2 rfl).1 (fun j hj => ?_) (fun j => ?_) (fun j _ hp => ?_)
          · by_cases h : j = i
            · subst h
              rw [Daemon.update_conns_self] at hj
              exact h1 ▸ hj
            · rwa [Daemon.update_conns_other _ _ _ _ _ _ h] at hj
          · by_cases h : j = i
            · subst h
              rw [Daemon.update_created_self]
              exact installers_erase_le _ _
            · rw [Daemon.update_created_other _ _ _ _ _ _ h]
          · by_cases h : j = i
            · subst h
              rwa [Daemon.update_paused_self] at hp
            · rwa [Daemon.update_paused_other _ _ _ _ _ _ h] at hp
        | some site =>
          show Guarded (d.update i σ2 ((d.created i).erase t)
            (d.paused i ++ [⟨site, I, E, t, eventID, vmcpURL⟩]))
          refine g.cleared i ?_ (fun j hj => by rw [Daemon.update_conns_other _ _ _ _ _ _ hj]) ?_
            (fun j hj => Daemon.update_created_other _ _ _ _ _ _ hj) ?_
            (fun j hj => Daemon.update_paused_other _ _ _ _ _ _ hj)
          · show 0 < installers (d.created i)
            omega
          · rw [Daemon.update_created_self]
            exact hcount
          · rw [Daemon.update_paused_self]
            simp
      · rw [if_neg hen]
        exact g
  | resume i k =>
    show Guarded (match (d.paused i).get? k with
      | none => d
      | some p => d.update i (p.resume K (d.view i)) (d.created i) ((d.paused i).eraseIdx k))
    cases (d.paused i).get? k with
    | none => exact g
    | some p =>
      show Guarded (d.update i (p.resume K (d.view i)) (d.created i) ((d.paused i).eraseIdx k))
      obtain ⟨k1, k2, _⟩ := installHV_fromConnFlag_frame K p.I p.E p.thisThread p.eventID
        p.vmcpURL p.site (d.view i)
      have hfalse : ((d.update i (p.resume K (d.view i)) (d.created i)
          ((d.paused i).eraseIdx k)).conns i).installInProgress = false := by
        rw [Daemon.update_conns_self]; exact k2
      refine g.of_le k1 (fun j hj => ?_) (fun j => ?_) (fun j hj hp => ?_)
      · by_cases h : j = i
        · subst h
          rw [hfalse] at hj
          exact absurd hj (by simp)
        · rwa [Daemon.update_conns_other _ _ _ _ _ _ h] at hj
      · by_cases h : j = i
        · subst h
          rw [Daemon.update_created_self]
        · rw [Daemon.update_created_other _ _ _ _ _ _ h]
      · by_cases h : j = i
        · subst h
          rw [hfalse] at hj
          exact absurd hj (by simp)
        · rwa [Daemon.update_paused_other _ _ _ _ _ _ h] at hp
  | cleanup i Cl =>
    show Guarded (if ((d.created i).isEmpty && (d.paused i).isEmpty) = true then
      d.update i (CernVMWebAPI.cleanup Cl (d.view i)) [] [] else d)
    by_cases hen : ((d.created i).isEmpty && (d.paused i).isEmpty) = true
    · rw [if_pos hen]
      simp only [Bool.and_eq_true, List.isEmpty_iff] at hen
      obtain ⟨hcr, hpa⟩ := hen
      obtain ⟨_, h2, h3⟩ := cleanup_frame Cl (d.view i)
      have hfalse : ((d.update i (CernVMWebAPI.cleanup Cl (d.view i)) [] []).conns
          i).installInProgress = false := by
        rw [Daemon.update_conns_self]; exact h2
      by_cases hf : (d.conns i).installInProgress = true
      · refine g.released i hf (by simp [Daemon.betweenFlags, hpa]) hcr hfalse
          (fun j hj => by rw [Daemon.update_conns_other _ _ _ _ _ _ hj]) (fun j => ?_) (fun j => ?_)
        · by_cases h : j = i
          · subst h
            rw [Daemon.update_created_self, hcr]
          · rw [Daemon.update_created_other _ _ _ _ _ _ h]
        · by_cases h : j = i
          · subst h
            rw [Daemon.update_paused_self, hpa]
          · rw [Daemon.update_paused_other _ _ _ _ _ _ h]
      · refine g.of_le ?_ (fun j hj => ?_) (fun j => ?_) (fun j hj hp => ?_)
        · show (CernVMWebAPI.cleanup Cl (d.view i)).core.installInProgress = _
          rw [h3]
          exact if_neg hf
        · by_cases h : j = i
          · subst h
            rw [hfalse] at hj
            exact absurd hj (by simp)
          · rwa [Daemon.update_conns_other _ _ _ _ _ _ h] at hj
        · by_cases h : j = i
          · subst h
            rw [Daemon.update_created_self]
            exact Nat.zero_le _
          · rw [Daemon.update_created_other _ _ _ _ _ _ h]
        · by_cases h : j = i
          · subst h
            exact hpa
          · rwa [Daemon.update_paused_other _ _ _ _ _ _ h] at hp
    · rw [if_neg hen]
      exact g

theorem Guarded.run_keeps (K : Consts) (steps : List DaemonStep) {d : Daemon} (g : Guarded d) :
    Guarded (runDaemon K steps d) := by
  induction steps generalizing d with
  | nil => exact g
  | cons st rest ih => exact ih (g.step_keeps K st)

theorem Guarded.at_start (core : Core) (domains : Nat → String) :
    Guarded (Daemon.start core domains) :=
  ⟨fun _ => by simp [Daemon.start, installers],
   fun _ _ h => by simp [Daemon.installing, Daemon.start, installers] at h,
   fun _ h => by simp [Daemon.installing, Daemon.start, installers] at h,
   fun _ h => by simp [Daemon.start, Conn.new] at h,
   fun _ _ h => by simp [Daemon.start, Conn.new] at h⟩

/-- A step in which no installer thread of connection `i` reaches
`core.installInProgress = false` leaves connection `i` with its installer
thread that has not cleared the flag of the core. -/
theorem installing_step (K : Consts) {d : Daemon} (i : Nat) (hi : d.installing i)
    (st : DaemonStep) (he : st.reachesCoreFlag i = false) : (st.run K d).installing i := by
  cases st with
  | action j A id name parameters =>
    show 0 < installers ((d.update j (handleAction K A id name parameters (d.view j))
      (d.created j ++ spawnedBy (d.conns j).runningThreads
        (handleAction K A id name parameters (d.view j)).conn.runningThreads)
      (d.paused j)).created i)
    by_cases h : i = j
    · subst h
      rw [Daemon.update_created_self, installers_append]
      exact Nat.lt_of_lt_of_le hi (Nat.le_add_right _ _)
    · rw [Daemon.update_created_other _ _ _ _ _ _ h]
      exact hi
  | worker j w =>
    cases w with
    | requestSession E t eventID vmcpURL =>
      show 0 < installers ((if ((WorkerRun.requestSession E t eventID vmcpURL).bound
          && (d.created j).contains t) = true then
        d.update j (requestSession_thread K E t eventID vmcpURL (d.view j))
          ((d.created j).erase t) (d.paused j) else d).created i)
      by_cases hen : ((WorkerRun.requestSession E t eventID vmcpURL).bound
          && (d.created j).contains t) = true
      · rw [if_pos hen]
        by_cases h : i = j
        · subst h
          simp only [Bool.and_eq_true] at hen
          have hk : isInstaller t = false := by
            have hb := hen.1
            simp only [WorkerRun.bound, beq_iff_eq] at hb
            rw [hb]; rfl
          rw [Daemon.update_created_self, installers_erase_other _ _ hk]
          exact hi
        · rw [Daemon.update_created_other _ _ _ _ _ _ h]
          exact hi
      · rw [if_neg hen]
        exact hi
    | sessionAction S t session_id eventID verb parameters =>
      show 0 < installers
        ((if ((WorkerRun.sessionAction S t session_id eventID verb parameters).bound
          && (d.created j).contains t) = true then
        d.update j (handleAction_thread K S t session_id eventID verb parameters (d.view j))
          ((d.created j).erase t) (d.paused j) else d).created i)
      by_cases hen : ((WorkerRun.sessionAction S t session_id eventID verb parameters).bound
          && (d.created j).contains t) = true
      · rw [if_pos hen]
        by_cases h : i = j
        · subst h
          simp only [Bool.and_eq_true] at hen
          have hk : isInstaller t = false := by
            have hb := hen.1
            simp only [WorkerRun.bound, beq_iff_eq] at hb
            rw [hb]; rfl
          rw [Daemon.update_created_self, installers_erase_other _ _ hk]
          exact hi
        · rw [Daemon.update_created_other _ _ _ _ _ _ h]
          exact hi
      · rw [if_neg hen]
        exact hi
    | installAndRequest I E t eventID vmcpURL =>
      have h : i ≠ j := by
        intro h
        subst h
        simp [DaemonStep.reachesCoreFlag] at he
      show 0 < installers ((if ((WorkerRun.installAndRequest I E t eventID vmcpURL).bound
          && (d.created j).contains t) = true then
        (match installHV_upToCoreFlag K I t eventID (d.view j) with
          | (none, σ) => d.update j σ ((d.created j).erase t) (d.paused j)
          | (some site, σ) =>
            d.update j σ ((d.created j).erase t)
              (d.paused j ++ [⟨site, I, E, t, eventID, vmcpURL⟩])) else d).created i)
      split
      · generalize installHV_upToCoreFlag K I t eventID (d.view j) = p
        obtain ⟨o, σ2⟩ := p
        cases o with
        | none =>
          show 0 < installers ((d.update j σ2 ((d.created j).erase t) (d.paused j)).created i)
          rw [Daemon.update_created_other _ _ _ _ _ _ h]
          exact hi
        | some site =>
          show 0 < installers ((d.update j σ2 ((d.created j).erase t)
            (d.paused j ++ [⟨site, I, E, t, eventID, vmcpURL⟩])).created i)
          rw [Daemon.update_created_other _ _ _ _ _ _ h]
          exact hi
      · exact hi
  | resume j k =>
    have hrun : (DaemonStep.resume j k).run K d
        = match (d.paused j).get? k with
          | none => d
          | some p =>
            d.update j (p.resume K (d.view j)) (d.created j) ((d.paused j).eraseIdx k) := rfl
    rw [hrun]
    cases (d.paused j).get? k with
    | none => exact hi
    | some p =>
      show 0 < installers ((d.update j (p.resume K (d.view j)) (d.created j)
        ((d.paused j).eraseIdx k)).created i)
      by_cases h : i = j
      · subst h
        rw [Daemon.update_created_self]
        exact hi
      · rw [Daemon.update_created_other _ _ _ _ _ _ h]
        exact hi
  | cleanup j Cl =>
    show 0 < installers ((if ((d.created j).isEmpty && (d.paused j).isEmpty) = true then
      d.update j (CernVMWebAPI.cleanup Cl (d.view j)) [] [] else d).created i)
    by_cases hen : ((d.created j).isEmpty && (d.paused j).isEmpty) = true
    · rw [if_pos hen]
      simp only [Bool.and_eq_true, List.isEmpty_iff] at hen
      by_cases h : i = j
      · subst h
        simp only [Daemon.installing, hen.1, installers, List.countP_nil, lt_self_iff_false] at hi
      · rw [Daemon.update_created_other _ _ _ _ _ _ h]
        exact hi
    · rw [if_neg hen]
      exact hi

theorem installing_run (K : Consts) (i : Nat) (steps : List DaemonStep) {d : Daemon}
    (hi : d.installing i) (he : ∀ st ∈ steps, st.reachesCoreFlag i = false) :
    (runDaemon K steps d).installing i := by
  induction steps generalizing d with
  | nil => exact hi
  | cons st rest ih =>
    exact ih (installing_step K i hi st (he st (List.mem_cons_self _ _)))
      (fun st2 h2 => he st2 (List.mem_cons_of_mem _ h2))

/-- C12 (amended). In every state that the daemon reaches from its start
through `handleAction` calls, thread steps and cleanups, where an installer
thread executes `core.installInProgress = false` and, as a later step,
`installInProgress = false`: at most one installer thread in the whole daemon
has not yet cleared the flag of the core, and while there is one the flag of
the core is set; a connection whose `installInProgress` is set and whose
installer thread does not stand between the two statements implies the flag of
the core, no other connection has an installer thread that has not cleared the
flag of the core, and at most one connection is in that situation.  When, with
the flag of the core clear, a `requestSession` action that finds no usable
hypervisor arrives on connection `i`, it creates the installer thread; and as
long as no installer thread of connection `i` has reached its statement
`core.installInProgress = false`, a `requestSession` action that finds no
usable hypervisor on a connection `j` only emits `failed(USAGE_ERROR)` and
creates no thread. -/
theorem single_installer (K : Consts) (core : Core) (domains : Nat → String)
    (steps : List DaemonStep) :
    (∀ i, installers ((runDaemon K steps (Daemon.start core domains)).created i) ≤ 1)
    ∧ (∀ i j, (runDaemon K steps (Daemon.start core domains)).installing i →
        (runDaemon K steps (Daemon.start core domains)).installing j → i = j)
    ∧ (∀ i, (runDaemon K steps (Daemon.start core domains)).installing i →
        (runDaemon K steps (Daemon.start core domains)).core.installInProgress = true)
    ∧ (∀ i, ((runDaemon K steps (Daemon.start core domains)).conns i).installInProgress = true →
        ¬ (runDaemon K steps (Daemon.start core domains)).betweenFlags i →
        (runDaemon K steps (Daemon.start core domains)).core.installInProgress = true
        ∧ ∀ j, j ≠ i → ¬ (runDaemon K steps (Daemon.start core domains)).installing j)
    ∧ (∀ i j,
        ((runDaemon K steps (Daemon.start core domains)).conns i).installInProgress = true →
        ¬ (runDaemon K steps (Daemon.start core domains)).betweenFlags i →
        ((runDaemon K steps (Daemon.start core domains)).conns j).installInProgress = true →
        ¬ (runDaemon K steps (Daemon.start core domains)).betweenFlags j → i = j)
    ∧ (∀ (i j : Nat) (A1 A2 : ActionEnv) (id1 id2 : String) (p1 p2 : ParameterMap)
        (mid : List DaemonStep) (d1 d2 : Daemon),
        (runDaemon K steps (Daemon.start core domains)).core.installInProgress = false →
        ((runDaemon K steps (Daemon.start core domains)).conns i).throttleBlock = false →
        p1.contains "vmcp" = true → hypervisorUsable A1.syncHypervisorReflection = false →
        d1 = (DaemonStep.action i A1 id1 "requestSession" p1).run K
          (runDaemon K steps (Daemon.start core domains)) →
        (∀ st ∈ mid, st.reachesCoreFlag i = false) →
        d2 = runDaemon K mid d1 →
        (d2.conns j).throttleBlock = false →
        p2.contains "vmcp" = true → hypervisorUsable A2.syncHypervisorReflection = false →
        d1.created i
          = (runDaemon K steps (Daemon.start core domains)).created i
            ++ [.installHV_andRequestSession_thread id1 (p1.get "vmcp" "")]
        ∧ d2.installing i
        ∧ handleAction K A2 id2 "requestSession" p2 (d2.view j)
          = { core := { d2.core with hypervisor := A2.syncHypervisorReflection }
              conn := d2.conns j
              out := [.call .syncHypervisorReflection,
                failed id2
                  "A hypervisor installation is in progress please wait until it's finished and try again."
                  K.HVE_USAGE_ERROR] }
        ∧ ((DaemonStep.action j A2 id2 "requestSession" p2).run K d2).created j
          = d2.created j) := by
  have g := Guarded.run_keeps K steps (Guarded.at_start core domains)
  refine ⟨g.one, g.single, g.core, g.owner, g.owners, ?_⟩
  intro i j A1 A2 id1 id2 p1 p2 mid d1 d2 h0 hb1 hv1 hu1 hd1 hmid hd2 hb2 hv2 hu2
  generalize runDaemon K steps (Daemon.start core domains) = d at g h0 hb1 hd1 ⊢
  have hact := requestSession_installs K A1 id1 p1 (d.view i) h0 hb1 hv1 hu1
  have hcr : d1.created i
      = d.created i ++ [.installHV_andRequestSession_thread id1 (p1.get "vmcp" "")] := by
    rw [hd1]
    show (d.update i (handleAction K A1 id1 "requestSession" p1 (d.view i))
      (d.created i ++ spawnedBy (d.conns i).runningThreads
        (handleAction K A1 id1 "requestSession" p1 (d.view i)).conn.runningThreads)
      (d.paused i)).created i = _
    rw [Daemon.update_created_self, hact]
    show d.created i ++ spawnedBy (d.conns i).runningThreads ((d.conns i).runningThreads ++ _) = _
    rw [spawnedBy_append]
  have g1 : Guarded d1 := by rw [hd1]; exact g.step_keeps K _
  have hi1 : d1.installing i := by
    show 0 < installers (d1.created i)
    rw [hcr, installers_append]
    simp [installers, isInstaller]
  have g2 : Guarded d2 := by rw [hd2]; exact g1.run_keeps K mid
  have hi2 : d2.installing i := by
    rw [hd2]; exact installing_run K i mid hi1 hmid
  have href := requestSession_refused K A2 id2 p2 (d2.view j) (g2.core i hi2) hb2 hv2 hu2
  refine ⟨hcr, hi2, ?_, ?_⟩
  · rw [href]
    rfl
  · show (d2.update j (handleAction K A2 id2 "requestSession" p2 (d2.view j))
      (d2.created j ++ spawnedBy (d2.conns j).runningThreads
        (handleAction K A2 id2 "requestSession" p2 (d2.view j)).conn.runningThreads)
      (d2.paused j)).created j = _
    rw [Daemon.update_created_self, href]
    show d2.created j ++ spawnedBy (d2.conns j).runningThreads (d2.conns j).runningThreads = _
    simp [spawnedBy]

/-! ## The session handler and the monitor -/

/-- C18. Whenever a run of `periodicJobsThread` that got past
`hvSession->update`, or a `stateChanged` callback that sent its frames and
read an integer state, sees a state other than `SS_RUNNING` on a session that
is not aborting: if `apiPortOnline` was true it sends exactly one
`apiStateChanged(false, apiURL)` and clears `apiPortOnline`; if
`apiPortOnline` was false it sends no `apiStateChanged` and the flag stays
false. -/
theorem offline_when_not_running (K : Consts) (T : TickEnv) (C : CallbackEnv)
    (args : List Variant) (s : Session) (hna : s.isAborting = false) :
    (T.update = .returns () → T.sessionState ≠ K.SS_RUNNING →
      (s.apiPortOnline = true →
        (periodicJobsThread K T s).2.filter isApiStateChanged
          = [apiStateChanged false ("http://" ++ T.apiHost ++ ":" ++ T.apiPort) s.uuid_str]
        ∧ (periodicJobsThread K T s).1.apiPortOnline = false)
      ∧ (s.apiPortOnline = false →
          (periodicJobsThread K T s).2.filter isApiStateChanged = []
          ∧ (periodicJobsThread K T s).1.apiPortOnline = false))
    ∧ (∀ data sessionState, C.sessionStateInfoToJSON = .returns data →
        getInt args = some sessionState → sessionState ≠ K.SS_RUNNING →
        (s.apiPortOnline = true →
          (__cbStateChanged K C args s).2.filter isApiStateChanged
            = [apiStateChanged false ("http://" ++ C.apiHost ++ ":" ++ C.apiPort) s.uuid_str]
          ∧ (__cbStateChanged K C args s).1.apiPortOnline = false)
        ∧ (s.apiPortOnline = false →
            (__cbStateChanged K C args s).2.filter isApiStateChanged = []
            ∧ (__cbStateChanged K C args s).1.apiPortOnline = false)) := by
  refine ⟨fun hu hs => ⟨fun ho => ?_, fun ho => ?_⟩,
    fun data st hi hg hs => ⟨fun ho => ?_, fun ho => ?_⟩⟩
  · simp [periodicJobsThread, hna, hu, hs, ho, apiStateChanged, isApiStateChanged]
  · simp [periodicJobsThread, hna, hu, hs, ho, isApiStateChanged]
  · simp [__cbStateChanged, hna, hi, hg, hs, ho, sendStateVariables, apiStateChanged,
      isApiStateChanged, List.filter_append]
  · simp [__cbStateChanged, hna, hi, hg, hs, ho, sendStateVariables, isApiStateChanged,
      List.filter_append]

theorem ParameterMap.get_set_same (m : ParameterMap) (k v d : String) :
    (m.set k v).get k d = v := by
  simp [ParameterMap.set, ParameterMap.get, List.find?]

theorem find_filter_ne (l : List (String × String)) (k k2 : String) (h : k2 ≠ k) :
    (l.filter (fun e => e.1 != k)).find? (fun e => e.1 == k2)
      = l.find? (fun e => e.1 == k2) := by
  induction l with
  | nil => rfl
  | cons a l ih =>
    by_cases h1 : a.1 = k
    · have h2 : a.1 ≠ k2 := fun h' => h (h'.symm.trans h1)
      have b1 : (a.1 != k) = false := by simp [h1]
      have b2 : (a.1 == k2) = false := by simp [h2]
      rw [List.filter_cons, List.find?_cons, b1, b2]
      simpa using ih
    · have b1 : (a.1 != k) = true := by simp [h1]
      rw [List.filter_cons, b1]
      by_cases h2 : a.1 = k2
      · have b2 : (a.1 == k2) = true := by simp [h2]
        simp [List.find?_cons, b2]
      · have b2 : (a.1 == k2) = false := by simp [h2]
        simp only [if_true, List.find?_cons, b2]
        exact ih

theorem ParameterMap.get_set_other (m : ParameterMap) (k v k2 d : String) (h : k2 ≠ k) :
    (m.set k v).get k2 d = m.get k2 d := by
  have hk : (k == k2) = false := by simpa using fun h' => h h'.symm
  simp only [ParameterMap.set, ParameterMap.get, ParameterMap.erase, List.find?, hk]
  rw [find_filter_ne _ k k2 h]

theorem ite_both {α : Type} {c : Prop} [Decidable c] {a1 a2 b1 b2 : α}
    (h1 : c → a1 = a2) (h2 : ¬ c → b1 = b2) :
    (if c then a1 else b1) = (if c then a2 else b2) := by
  by_cases h : c
  · rw [if_pos h, if_pos h]; exact h1 h
  · rw [if_neg h, if_neg h]; exact h2 h

theorem handler_set (K : Consts) (S : SessionEnv) (eventID k v : String) (p : ParameterMap)
    (s : Session) (hna : s.isAborting = false) (hk : p.get "key" "" = k)
    (hv : p.get "value" "" = v) :
    (Session.handleAction K S eventID "set" p s).2.1
      = if k ∈ writableKeys then { s with parameters := s.parameters.set k v } else s := by
  unfold Session.handleAction
  rw [if_neg (by simp [hna]), if_neg (by decide), if_neg (by decide), if_neg (by decide),
    if_neg (by decide), if_neg (by decide), if_neg (by decide), if_neg (by decide),
    if_neg (by decide), if_neg (by decide), if_pos rfl]
  simp only [hk, hv]
  by_cases h1 : k = "cpus"
  · rw [if_pos h1, if_pos (by rw [h1]; decide), h1]
  rw [if_neg h1]
  by_cases h2 : k = "disk"
  · rw [if_pos h2, if_pos (by rw [h2]; decide), h2]
  rw [if_neg h2]
  by_cases h3 : k = "memory"
  · rw [if_pos h3, if_pos (by rw [h3]; decide), h3]
  rw [if_neg h3]
  by_cases h4 : k = "cernvmVersion"
  · rw [if_pos h4, if_pos (by rw [h4]; decide), h4]
  rw [if_neg h4]
  by_cases h5 : k = "cernvmFlavor"
  · rw [if_pos h5, if_pos (by rw [h5]; decide), h5]
  rw [if_neg h5]
  by_cases h6 : k = "executionCap"
  · rw [if_pos h6, if_pos (by rw [h6]; decide), h6]
  rw [if_neg h6]
  by_cases h7 : k = "flags"
  · rw [if_pos h7, if_pos (by rw [h7]; decide), h7]
  rw [if_neg h7, if_neg]
  simp only [writableKeys, List.mem_cons, List.mem_singleton, List.mem_nil_iff, or_false,
    not_or]
  exact ⟨h1, h2, h3, h4, h5, h6, h7⟩

theorem handler_get_record (K : Consts) (S : SessionEnv) (eventID : String) (p : ParameterMap)
    (s : Session) : (Session.handleAction K S eventID "get" p s).2.1 = s := by
  unfold Session.handleAction
  by_cases hna : s.isAborting = true
  · rw [if_pos hna]
  · rw [if_neg hna, if_neg (by decide), if_neg (by decide), if_neg (by decide),
      if_neg (by decide), if_neg (by decide), if_neg (by decide), if_neg (by decide),
      if_neg (by decide), if_pos rfl]

theorem handler_get_writable (K : Consts) (S : SessionEnv) (eventID k : String)
    (p : ParameterMap) (s : Session) (hna : s.isAborting = false) (hk : p.get "key" "" = k)
    (hw : k ∈ writableKeys) :
    ∃ d, (Session.handleAction K S eventID "get" p s).2.2
      = [.fire eventID "succeed" [.str (s.parameters.get k d)]] := by
  unfold Session.handleAction
  rw [if_neg (by simp [hna]), if_neg (by decide), if_neg (by decide), if_neg (by decide),
    if_neg (by decide), if_neg (by decide), if_neg (by decide), if_neg (by decide),
    if_neg (by decide), if_pos rfl]
  simp only [hk]
  simp only [writableKeys, List.mem_cons, List.mem_singleton, List.mem_nil_iff, or_false] at hw
  rcases hw with h | h | h | h | h | h | h <;> subst h
  · exact ⟨"1", by simp⟩
  · exact ⟨"1024", by simp⟩
  · exact ⟨"512", by simp⟩
  · exact ⟨"1.17-11", by simp⟩
  · exact ⟨"prod", by simp⟩
  · exact ⟨"prod", by simp⟩
  · exact ⟨"0", by simp⟩

theorem handler_get_congr (K : Consts) (S : SessionEnv) (eventID : String) (p : ParameterMap)
    (s1 s2 : Session) (hna : s1.isAborting = s2.isAborting)
    (h : ∀ d, s1.parameters.get (p.get "key" "") d = s2.parameters.get (p.get "key" "") d) :
    (Session.handleAction K S eventID "get" p s1).2.2
      = (Session.handleAction K S eventID "get" p s2).2.2 := by
  unfold Session.handleAction
  rw [hna]
  by_cases ha : s2.isAborting = true
  · rw [if_pos ha, if_pos ha]
  · rw [if_neg ha, if_neg ha]
    simp only [if_neg (show ¬ ("get" = "start") by decide),
      if_neg (show ¬ ("get" = "stop") by decide), if_neg (show ¬ ("get" = "pause") by decide),
      if_neg (show ¬ ("get" = "resume") by decide),
      if_neg (show ¬ ("get" = "hibernate") by decide),
      if_neg (show ¬ ("get" = "reset") by decide), if_neg (show ¬ ("get" = "close") by decide),
      if_neg (show ¬ ("get" = "sync") by decide), if_true]
    generalize p.get "key" "" = key at h
    refine congrArg (fun x => [Ev.fire eventID "succeed" [Variant.str x]]) ?_
    refine ite_both (fun _ => rfl) (fun _ => ?_)
    refine ite_both (fun _ => rfl) (fun _ => ?_)
    refine ite_both (fun hc => by subst hc; exact h _) (fun _ => ?_)
    refine ite_both (fun hc => by subst hc; exact h _) (fun _ => ?_)
    refine ite_both (fun hc => by subst hc; exact h _) (fun _ => ?_)
    refine ite_both (fun hc => by subst hc; exact h _) (fun _ => ?_)
    refine ite_both (fun hc => by subst hc; exact h _) (fun _ => ?_)
    refine ite_both (fun hc => by subst hc; exact h _) (fun _ => ?_)
    refine ite_both (fun hc => by subst hc; exact h _) (fun _ => ?_)
    exact ite_both (fun hc => by subst hc; exact h _) (fun _ => rfl)

theorem keeps_step (K : Consts) (k v : String) (c : SessionCall) (s : Session)
    (hc : c.keeps k = true) (hna : s.isAborting = false)
    (hval : ∀ d, s.parameters.get k d = v) :
    (c.run K s).2.1.isAborting = false ∧ ∀ d, (c.run K s).2.1.parameters.get k d = v := by
  simp only [SessionCall.keeps, Bool.or_eq_true, Bool.and_eq_true, beq_iff_eq, bne_iff_ne]
    at hc
  unfold SessionCall.run
  rcases hc with hc | ⟨hc, hne⟩
  · rw [hc, handler_get_record]
    exact ⟨hna, hval⟩
  · rw [hc, handler_set K c.S c.eventID _ _ c.parameters s hna rfl rfl]
    split
    · exact ⟨hna, fun d => by
        simp only []
        rw [ParameterMap.get_set_other _ _ _ _ _ (Ne.symm hne)]
        exact hval d⟩
    · exact ⟨hna, hval⟩

theorem runCalls_keeps (K : Consts) (k v : String) (cs : List SessionCall) (s : Session)
    (hc : ∀ c ∈ cs, c.keeps k = true) (hna : s.isAborting = false)
    (hval : ∀ d, s.parameters.get k d = v) :
    (runCalls K cs s).isAborting = false ∧ ∀ d, (runCalls K cs s).parameters.get k d = v := by
  induction cs generalizing s with
  | nil => exact ⟨hna, hval⟩
  | cons c cs ih =>
    obtain ⟨h1, h2⟩ := keeps_step K k v c s (hc c (List.mem_cons_self _ _)) hna hval
    exact ih _ (fun c' hc' => hc c' (List.mem_cons_of_mem _ hc')) h1 h2

/-- C16. On a session that is not aborting, for a key `k` of the writable
set: after `set(k, v)`, and after any further `get` actions and `set` actions
on other keys, `get(k)` replies `succeed(v)`; and `set(k, v)` does not change
the reply of `get` for any other key. -/
theorem get_after_set (K : Consts) (S1 S2 : SessionEnv) (e1 e2 k v : String)
    (pset pget : ParameterMap) (mid : List SessionCall) (s : Session)
    (hw : k ∈ writableKeys) (hna : s.isAborting = false)
    (hkey : pset.get "key" "" = k) (hvalue : pset.get "value" "" = v)
    (hget : pget.get "key" "" = k) (hmid : ∀ c ∈ mid, c.keeps k = true) :
    (Session.handleAction K S2 e2 "get" pget
        (runCalls K mid (Session.handleAction K S1 e1 "set" pset s).2.1)).2.2
      = [.fire e2 "succeed" [.str v]]
    ∧ ∀ pother, pother.get "key" "" ≠ k →
        (Session.handleAction K S2 e2 "get" pother
            (Session.handleAction K S1 e1 "set" pset s).2.1).2.2
          = (Session.handleAction K S2 e2 "get" pother s).2.2 := by
  have hset := handler_set K S1 e1 k v pset s hna hkey hvalue
  rw [if_pos hw] at hset
  rw [hset]
  refine ⟨?_, fun pother hne => ?_⟩
  · obtain ⟨h1, h2⟩ := runCalls_keeps K k v mid { s with parameters := s.parameters.set k v }
      hmid hna (fun d => ParameterMap.get_set_same _ _ _ _)
    obtain ⟨d, hd⟩ := handler_get_writable K S2 e2 k pget _ h1 hget hw
    rw [hd, h2]
  · exact handler_get_congr K S2 e2 pother _ _ rfl
      (fun d => ParameterMap.get_set_other _ _ _ _ _ hne)

/-! ## Prompts woken by an abort -/

/-- The part of C15 that the code keeps: a run of `requestSession_thread`
whose consent prompt is answered with something other than `UI_OK` while
`userInteraction->aborted` is set acknowledges the abort and emits nothing
else after the prompt; the throttle fields stay as they are. -/
theorem requestSession_abort_silent
    (K : Consts) (E : RequestEnv) (thisThread : Worker) (eventID vmcpURL : String)
    (core : Core) (conn : Conn) (answer : Int)
    (hprompt : promptedForConsent (requestSession_thread K E thisThread eventID vmcpURL
      (State.init core conn)).out = true)
    (hanswer : E.confirm = .returns answer) (hne : answer ≠ K.UI_OK)
    (habort : E.abortedAfterConfirm = true) :
    ∃ pre vmcpData, Quiet 8 pre
      ∧ requestSession_thread K E thisThread eventID vmcpURL (State.init core conn)
        = { core := core
            conn := { conn with runningThreads := conn.runningThreads.erase thisThread }
            out := pre ++ [consentPrompt K E conn.domain vmcpData, .call .abortHandled] } := by
  obtain ⟨_, salt, hostID, js, vd, h⟩ :=
    prompted_run K E thisThread eventID vmcpURL core conn hprompt
  have hqv := quiet_validatePrefix E eventID conn.domain vmcpURL salt hostID js vd
  refine ⟨validatePrefix E eventID conn.domain vmcpURL salt hostID js vd
    ++ [.progress eventID "Validating request",
        .progress eventID "Session is new, asking user for confirmation"], vd,
    hqv.append_quiet (by simp [Quiet, quietEv]), ?_⟩
  rw [h]
  simp [stageConsent, confirm, __callbackConfim, hanswer, hne, habort,
    requestSession_catch, State.emit, State.remove_one, consentPrompt]

/-- The installer thread when its first prompt is answered with something
other than `UI_OK`: it fires `failed(USAGE_ERROR)` first and looks at
`userInteraction->aborted` afterwards. -/
theorem installer_declined (K : Consts) (I : InstallEnv) (E : RequestEnv) (t : Worker)
    (eventID vmcpURL : String) (σ : State) (answer : Int)
    (hanswer : I.confirm = .returns answer) (hne : answer ≠ K.UI_OK) :
    (installHV_andRequestSession_thread K I E t eventID vmcpURL σ).out
      = σ.out ++ [.sendEvent "interact" [.str "confirm",
            .str (installPrompt σ.core.hypervisor).1,
            .str (installPrompt σ.core.hypervisor).2] "",
          failed eventID "You must have a hypervisor installed in your system to continue."
            K.HVE_USAGE_ERROR]
        ++ (if I.abortedAfterConfirm = true then [.call .abortHandled] else []) := by
  unfold installHV_andRequestSession_thread installHV_upToCoreFlag
  simp only [confirm, __callbackConfim, hanswer, ne_eq, hne, not_false_eq_true, if_true,
    installHV_fromConnFlag]
  cases I.abortedAfterConfirm <;>
    simp [State.emit, State.remove_one, clearCoreFlag, clearConnFlag]

/-! ## Instances and counterexamples for the router, the installer and the session handler -/

/-- Counterexample to C11 as stated: `core.installInProgress` is true and the
connection is not blocked, but `syncHypervisorReflection` finds a usable
hypervisor.  The action emits no `failed` and starts the thread
`requestSession_thread`. -/
theorem requestSession_during_install_served :
    installingState.core.installInProgress = true
    ∧ installingState.conn.throttleBlock = false
    ∧ sampleRequest.contains "vmcp" = true
    ∧ (handleAction sampleConsts sampleAction "e1" "requestSession" sampleRequest
        installingState).out = [.call .syncHypervisorReflection]
    ∧ (handleAction sampleConsts sampleAction "e1" "requestSession" sampleRequest
        installingState).conn.runningThreads
      = [.requestSession_thread "e1" "https://example.test/vmcp"] := by
  decide

/-- Instance of C11 as amended: no hypervisor is found while an installation
is in progress. -/
theorem requestSession_while_installing_witness :
    (handleAction sampleConsts bareAction "e1" "requestSession" sampleRequest
        installingState).out
      = [.call .syncHypervisorReflection,
          failed "e1"
            "A hypervisor installation is in progress please wait until it's finished and try again."
            sampleConsts.HVE_USAGE_ERROR]
    ∧ (handleAction sampleConsts bareAction "e1" "requestSession" sampleRequest
        installingState).conn = installingState.conn :=
  ⟨(requestSession_while_installing sampleConsts bareAction "e1" sampleRequest installingState
      rfl rfl rfl rfl).1,
   (requestSession_while_installing sampleConsts bareAction "e1" sampleRequest installingState
      rfl rfl rfl rfl).2.1⟩

/-- Counterexample to C12 as stated.  After the steps of `declineSteps` the
flag of connection 0 is set while the flag of the core is clear; a
`requestSession` action on connection 1 then finds the flag of the core clear,
creates a second installer thread and sets the flag of connection 1: two
connections have `installInProgress` set. -/
theorem installer_flags_overlap :
    ((runDaemon sampleConsts declineSteps
        (Daemon.start bareCore (fun _ => "example.test"))).conns 0).installInProgress = true
    ∧ (runDaemon sampleConsts declineSteps
        (Daemon.start bareCore (fun _ => "example.test"))).core.installInProgress = false
    ∧ ((runDaemon sampleConsts
        (declineSteps ++ [.action 1 bareAction "e2" "requestSession" sampleRequest])
        (Daemon.start bareCore (fun _ => "example.test"))).conns 0).installInProgress = true
    ∧ ((runDaemon sampleConsts
        (declineSteps ++ [.action 1 bareAction "e2" "requestSession" sampleRequest])
        (Daemon.start bareCore (fun _ => "example.test"))).conns 1).installInProgress = true
    ∧ (runDaemon sampleConsts
        (declineSteps ++ [.action 1 bareAction "e2" "requestSession" sampleRequest])
        (Daemon.start bareCore (fun _ => "example.test"))).created 1
      = [.installHV_andRequestSession_thread "e2" "https://example.test/vmcp"] := by
  decide

/-- Instance of C12 as amended: on a daemon without hypervisor, connection 0
asks for a session and gets the installer thread; after a handshake on
connection 1, a request on connection 1 is refused. -/
theorem single_installer_witness :
    ((DaemonStep.action 0 bareAction "e1" "requestSession" sampleRequest).run sampleConsts
        (runDaemon sampleConsts [] (Daemon.start bareCore (fun _ => "example.test")))).created 0
      = [sampleInstaller]
    ∧ (handleAction sampleConsts bareAction "e2" "requestSession" sampleRequest
        ((runDaemon sampleConsts [.action 1 bareAction "h" "handshake" ⟨[]⟩]
          ((DaemonStep.action 0 bareAction "e1" "requestSession" sampleRequest).run sampleConsts
            (runDaemon sampleConsts [] (Daemon.start bareCore (fun _ => "example.test"))))).view
          1)).out
      = [.call .syncHypervisorReflection,
          failed "e2"
            "A hypervisor installation is in progress please wait until it's finished and try again."
            sampleConsts.HVE_USAGE_ERROR] :=
  have h := (single_installer sampleConsts bareCore (fun _ => "example.test") []).2.2.2.2.2 0 1
    bareAction bareAction "e1" "e2" sampleRequest sampleRequest
    [.action 1 bareAction "h" "handshake" ⟨[]⟩] _ _ rfl rfl rfl rfl rfl
    (by decide) rfl rfl rfl rfl
  ⟨h.1, congrArg State.out h.2.2.1⟩

/-- Counterexample to C13 as stated: `start` without `session_id` on a fresh
connection gets no error frame; nothing is emitted. -/
theorem start_without_session_id :
    "start" ∈ sessionVerbs
    ∧ (⟨[]⟩ : ParameterMap).contains "session_id" = false
    ∧ (handleAction sampleConsts sampleAction "r1" "start" ⟨[]⟩
        (State.init sampleCore (Conn.new "example.test"))).out = [] := by
  decide

/-- Instance of C13 as amended: `start` with a `session_id` that is not
stored. -/
theorem session_action_without_session_witness :
    "start" ∈ sessionVerbs
    ∧ handleAction sampleConsts sampleAction "r1" "start" ⟨[("session_id", "9999")]⟩
        (State.init sampleCore (Conn.new "example.test"))
      = (State.init sampleCore (Conn.new "example.test")).emit
          (.sendError "Unable to find a session with the specified session id!" "r1") :=
  ⟨by decide, (session_action_without_session sampleConsts sampleAction "r1" "start"
    ⟨[("session_id", "9999")]⟩ (State.init sampleCore (Conn.new "example.test"))
    (by decide)).1 rfl rfl⟩

/-- Counterexample to C14 as stated: the unknown action `foo` with a
`session_id` that is not stored gets an error frame. -/
theorem unknown_action_with_session_id :
    "foo" ∉ recognisedActions
    ∧ (handleAction sampleConsts sampleAction "r1" "foo" ⟨[("session_id", "9999")]⟩
        (State.init sampleCore (Conn.new "example.test"))).out
      = [.sendError "Unable to find a session with the specified session id!" "r1"] := by
  decide

/-- Instance of C14 as amended: the unknown action `foo` without
`session_id`. -/
theorem unknown_action_ignored_witness :
    "foo" ∉ recognisedActions
    ∧ handleAction sampleConsts sampleAction "r1" "foo" ⟨[]⟩
        (State.init sampleCore (Conn.new "example.test"))
      = State.init sampleCore (Conn.new "example.test") :=
  ⟨by decide, (unknown_action_ignored sampleConsts sampleAction "r1" "foo" ⟨[]⟩
    (State.init sampleCore (Conn.new "example.test")) (by decide)).1 rfl⟩

/-- C15, the failing input.  The first prompt of the installer thread is woken
by an abort (the answer is not `UI_OK` and `userInteraction->aborted` is set):
the thread fires `failed(USAGE_ERROR)` after the prompt and acknowledges the
abort only afterwards, where the claim asks for no further frame. -/
theorem installer_abort_fires_failed :
    abortedInstall.confirm = .returns 0
    ∧ (0 : Int) ≠ sampleConsts.UI_OK
    ∧ abortedInstall.abortedAfterConfirm = true
    ∧ (installHV_andRequestSession_thread sampleConsts abortedInstall sampleEnv sampleInstaller
        "e1" "https://example.test/vmcp"
        (State.init { bareCore with installInProgress := true }
          { Conn.new "example.test" with
            installInProgress := true, runningThreads := [sampleInstaller] })).out
      = [.sendEvent "interact" [.str "confirm", .str "Hypervisor required",
            .str "For this website to work you must have a hypervisor installed in your system. Would you like us to install VirtualBox for you?"] "",
          failed "e1" "You must have a hypervisor installed in your system to continue."
            sampleConsts.HVE_USAGE_ERROR,
          .call .abortHandled] := by
  decide

/-- Instance of C16: `set(cpus, 4)`, then a `get` of `disk` and a `set` of
`memory`, then `get(cpus)`. -/
theorem get_after_set_witness :
    (Session.handleAction sampleConsts sampleHandler "e4" "get" ⟨[("key", "cpus")]⟩
        (runCalls sampleConsts otherCalls
          (Session.handleAction sampleConsts sampleHandler "e1" "set"
            ⟨[("key", "cpus"), ("value", "4")]⟩ sampleSession).2.1)).2.2
      = [.fire "e4" "succeed" [.str "4"]] :=
  (get_after_set sampleConsts sampleHandler sampleHandler "e1" "e4" "cpus" "4"
    ⟨[("key", "cpus"), ("value", "4")]⟩ ⟨[("key", "cpus")]⟩ otherCalls sampleSession
    (by decide) rfl rfl rfl rfl (by decide)).1

/-- Instance of C18: a tick sees state 3 while the API port is online. -/
theorem offline_when_not_running_witness :
    (periodicJobsThread sampleConsts tickStopped
        { sampleSession with apiPortOnline := true }).2.filter isApiStateChanged
      = [apiStateChanged false "http://127.0.0.1:80" "1"]
    ∧ (periodicJobsThread sampleConsts tickStopped
        { sampleSession with apiPortOnline := true }).1.apiPortOnline = false :=
  ((offline_when_not_running sampleConsts tickStopped sampleCallback [.int 3]
    { sampleSession with apiPortOnline := true } rfl).1 rfl (by decide)).1 rfl

/-- Counterexample to C19 as stated: `downloadText` returns 1.  The worker
emits no `failed`, hands the text to the parser and ends with `succeed`. -/
theorem positive_download_code_parsed :
    (1 : Int) ≠ 0
    ∧ Ev.call (.jsonParse "t") ∈
        (sampleRun { sampleEnv with downloadText := .returns (1, "t") }).out
    ∧ terminals "e1" (sampleRun { sampleEnv with downloadText := .returns (1, "t") }).out
      = [.fire "e1" "succeed" [.str "Session open successfully", .int 1]] := by
  decide

/-- Instance of C19 as amended: `downloadText` returns -3. -/
theorem requestSession_download_result_witness :
    (∃ url, Ev.call (.downloadText url) ∈
      (sampleRun { sampleEnv with downloadText := .returns (-3, "") }).out)
    ∧ terminals "e1" (sampleRun { sampleEnv with downloadText := .returns (-3, "") }).out
      = [failed "e1" "Unable to contact the VMCP endpoint" (-3)] :=
  have h : ∃ url, Ev.call (.downloadText url) ∈
      (sampleRun { sampleEnv with downloadText := .returns (-3, "") }).out :=
    ⟨"https://example.test/vmcp?cvm_salt=s&cvm_hostid=h", by decide⟩
  ⟨h, ((requestSession_download_result sampleConsts
    { sampleEnv with downloadText := .returns (-3, "") } sampleWorker "e1"
    "https://example.test/vmcp" sampleCore (Conn.new "example.test") (-3) "" h rfl).1
    (by decide)).1⟩

/-- Instance of C20: the manifest URL has no `?`, so the glue is `?`. -/
theorem requestSession_download_url_witness :
    Ev.call (.downloadText "https://example.test/vmcp?cvm_salt=s&cvm_hostid=h") ∈
      (sampleRun sampleEnv).out
    ∧ ∃ salt hostID, sampleEnv.generateSalt = .returns salt
        ∧ sampleEnv.calculateHostID = .returns hostID
        ∧ "https://example.test/vmcp?cvm_salt=s&cvm_hostid=h"
          = "https://example.test/vmcp" ++ "?" ++ "cvm_salt=" ++ salt ++ "&cvm_hostid=" ++ hostID :=
  have h : Ev.call (.downloadText "https://example.test/vmcp?cvm_salt=s&cvm_hostid=h") ∈
      (sampleRun sampleEnv).out := by decide
  match requestSession_download_url sampleConsts sampleEnv sampleWorker "e1"
    "https://example.test/vmcp" sampleCore (Conn.new "example.test") _ h with
  | ⟨salt, hostID, h1, h2, _, h4, _⟩ => ⟨h, salt, hostID, h1, h2, h4⟩

/-! ## The long probe of the monitor -/

/-- A tick on a running session whose record says online, by the value of
`apiPortCounter` and the result of the long probe. -/
theorem tick_online (K : Consts) (T : TickEnv) (s : Session) (b : Bool)
    (hna : s.isAborting = false) (hon : s.apiPortOnline = true)
    (hu : T.update = .returns ()) (hs : T.sessionState = K.SS_RUNNING)
    (hb : T.isAPIAliveLong = .returns b) :
    periodicJobsThread K T s
      = if s.apiPortCounter + 1 > 10 then
          if b = true then
            ({ s with apiPortDownCounter := 0, apiPortCounter := 0, periodicsRunning := false },
              [.call (.hvSession s.uuid_str (.update false)), longProbe K s])
          else if s.apiPortDownCounter + 1 ≥ K.CVMWA_SESS_APIPORT_DOWN_RETRIES then
            ({ s with apiPortDownCounter := s.apiPortDownCounter + 1, apiPortOnline := false,
                      apiPortCounter := 0, periodicsRunning := false },
              [.call (.hvSession s.uuid_str (.update false)), longProbe K s,
               apiStateChanged false ("http://" ++ T.apiHost ++ ":" ++ T.apiPort) s.uuid_str])
          else
            ({ s with apiPortDownCounter := s.apiPortDownCounter + 1, apiPortCounter := 0,
                      periodicsRunning := false },
              [.call (.hvSession s.uuid_str (.update false)), longProbe K s])
        else
          ({ s with apiPortCounter := s.apiPortCounter + 1, periodicsRunning := false },
            [.call (.hvSession s.uuid_str (.update false))]) := by
  unfold periodicJobsThread
  simp only [hna, hu, hs, hon, hb, longProbe]
  cases b <;> simp

theorem issues_iff (K : Consts) (T : TickEnv) (s : Session) (b : Bool)
    (hna : s.isAborting = false) (hon : s.apiPortOnline = true)
    (hu : T.update = .returns ()) (hs : T.sessionState = K.SS_RUNNING)
    (hb : T.isAPIAliveLong = .returns b) :
    issuesLongProbe K T s = decide (s.apiPortCounter + 1 > 10) := by
  unfold issuesLongProbe
  rw [tick_online K T s b hna hon hu hs hb]
  by_cases hc : s.apiPortCounter + 1 > 10
  · simp only [hc, if_true, decide_True]
    cases b
    · by_cases hd : s.apiPortDownCounter + 1 ≥ K.CVMWA_SESS_APIPORT_DOWN_RETRIES <;>
        simp [hd, longProbe]
    · simp [longProbe]
  · simp [hc, longProbe]

theorem failedInARow_snoc (L : List Bool) (b : Bool) :
    failedInARow (L ++ [b]) = if b = true then 0 else failedInARow L + 1 := by
  cases b <;> simp [failedInARow, List.takeWhile]

/-- One tick of a running session that is online before and after it. -/
theorem online_step (K : Consts) (T : TickEnv) (s : Session) (c : Nat) (L : List Bool)
    (hna : s.isAborting = false) (hon : s.apiPortOnline = true)
    (hc : s.apiPortCounter = c) (hle : c ≤ 10)
    (hd : s.apiPortDownCounter = failedInARow L)
    (hlt : s.apiPortDownCounter < K.CVMWA_SESS_APIPORT_DOWN_RETRIES)
    (hT : T.running K) (hafter : (periodicJobsThread K T s).1.apiPortOnline = true) :
    (periodicJobsThread K T s).1.isAborting = false
    ∧ (periodicJobsThread K T s).1.uuid_str = s.uuid_str
    ∧ (periodicJobsThread K T s).1.apiPortCounter = (((c + 1) % 11 : Nat) : Int)
    ∧ (periodicJobsThread K T s).1.apiPortDownCounter
        = failedInARow (L ++ probeEntry K T s)
    ∧ (periodicJobsThread K T s).1.apiPortDownCounter < K.CVMWA_SESS_APIPORT_DOWN_RETRIES := by
  obtain ⟨hu, hs, b, hb⟩ := hT
  have htick := tick_online K T s b hna hon hu hs hb
  unfold probeEntry
  rw [issues_iff K T s b hna hon hu hs hb, hb]
  by_cases hp : s.apiPortCounter + 1 > 10
  · have hc10 : c = 10 := by rw [hc] at hp; omega
    subst hc10
    rw [if_pos hp] at htick
    rw [if_pos (by simpa using hp)]
    cases b
    · by_cases hr : s.apiPortDownCounter + 1 ≥ K.CVMWA_SESS_APIPORT_DOWN_RETRIES
      · rw [if_neg (by simp), if_pos hr] at htick
        rw [htick] at hafter
        simp at hafter
      · rw [if_neg (by simp), if_neg hr] at htick
        rw [htick, failedInARow_snoc]
        refine ⟨hna, rfl, rfl, ?_, ?_⟩
        · show s.apiPortDownCounter + 1 = _
          rw [hd]
          simp
        · show s.apiPortDownCounter + 1 < _
          omega
    · rw [if_pos rfl] at htick
      rw [htick, failedInARow_snoc]
      refine ⟨hna, rfl, rfl, ?_, ?_⟩
      · show (0 : Int) = _
        simp
      · show (0 : Int) < _
        have : (0 : Int) ≤ s.apiPortDownCounter := by rw [hd]; exact Int.ofNat_nonneg _
        omega
  · have hc10 : c < 10 := by rw [hc] at hp; omega
    rw [if_neg hp] at htick
    rw [if_neg (by simpa using hp), htick, List.append_nil]
    refine ⟨hna, rfl, ?_, hd, hlt⟩
    show s.apiPortCounter + 1 = _
    rw [hc, Nat.mod_eq_of_lt (by omega)]
    push_cast
    rfl

/-- A run of ticks of a running session that stays online: the tick counter
counts modulo 11 and the down counter counts the failed long probes in a row. -/
theorem online_run (K : Consts) (ts : List TickEnv) :
    ∀ (s : Session) (c : Nat) (L : List Bool),
      s.isAborting = false → s.apiPortCounter = c → c ≤ 10 →
      s.apiPortDownCounter = failedInARow L →
      s.apiPortDownCounter < K.CVMWA_SESS_APIPORT_DOWN_RETRIES →
      (∀ T ∈ ts, T.running K) → onlineThroughout K ts s = true →
      (runTicks K ts s).1.isAborting = false
      ∧ (runTicks K ts s).1.apiPortOnline = true
      ∧ (runTicks K ts s).1.uuid_str = s.uuid_str
      ∧ (runTicks K ts s).1.apiPortCounter = (((c + ts.length) % 11 : Nat) : Int)
      ∧ (runTicks K ts s).1.apiPortDownCounter = failedInARow (L ++ probeLog K ts s)
      ∧ (runTicks K ts s).1.apiPortDownCounter < K.CVMWA_SESS_APIPORT_DOWN_RETRIES := by
  induction ts with
  | nil =>
    intro s c L hna hc hle hd hlt _ hst
    refine ⟨hna, hst, rfl, ?_, by simpa [probeLog] using hd, hlt⟩
    simp only [runTicks, hc, List.length_nil, Nat.add_zero]
    rw [Nat.mod_eq_of_lt (by omega)]
  | cons T ts ih =>
    intro s c L hna hc hle hd hlt hts hst
    simp only [onlineThroughout, Bool.and_eq_true] at hst
    obtain ⟨hon, hst⟩ := hst
    have hafter : (periodicJobsThread K T s).1.apiPortOnline = true := by
      cases ts with
      | nil => exact hst
      | cons T2 ts2 =>
        simp only [onlineThroughout, Bool.and_eq_true] at hst
        exact hst.1
    obtain ⟨h1, h2, h3, h4, h5⟩ := online_step K T s c L hna hon hc hle hd hlt
      (hts T (List.mem_cons_self _ _)) hafter
    obtain ⟨g1, g2, g3, g4, g5, g6⟩ := ih (periodicJobsThread K T s).1 ((c + 1) % 11) _ h1 h3
      (by omega) h4 h5 (fun T2 h => hts T2 (List.mem_cons_of_mem _ h)) hst
    refine ⟨g1, g2, g3.trans h2, ?_, ?_, g6⟩
    · show (runTicks K ts (periodicJobsThread K T s).1).1.apiPortCounter = _
      rw [g4]
      congr 1
      simp only [List.length_cons]
      omega
    · show (runTicks K ts (periodicJobsThread K T s).1).1.apiPortDownCounter = _
      rw [g5]
      simp only [probeLog, List.append_assoc]

/-- C21. While the session stays running and its record says online, starting
with `apiPortDownCounter = 0` as set when the API went online:
`apiPortDownCounter` is the number of failed long probes in a row; a tick
sends `apiStateChanged(false, apiURL)` and clears `apiPortOnline` exactly when
it issues a long probe that fails and is the
`CVMWA_SESS_APIPORT_DOWN_RETRIES`-th failed long probe in a row, and sends no
`apiStateChanged` otherwise; a long probe that succeeds sets
`apiPortDownCounter` to 0. -/
theorem offline_after_failed_probes (K : Consts) (ts : List TickEnv) (T : TickEnv)
    (s : Session) (hna : s.isAborting = false) (hcounter : s.apiPortCounter = 0)
    (hdown : s.apiPortDownCounter = 0) (hretries : 1 ≤ K.CVMWA_SESS_APIPORT_DOWN_RETRIES)
    (hts : ∀ T2 ∈ ts, T2.running K) (hT : T.running K)
    (hstay : onlineThroughout K ts s = true) :
    (runTicks K ts s).1.apiPortDownCounter = failedInARow (probeLog K ts s)
    ∧ ((issuesLongProbe K T (runTicks K ts s).1 = true ∧ T.isAPIAliveLong = .returns false
          ∧ (failedInARow (probeLog K ts s) : Int) + 1 = K.CVMWA_SESS_APIPORT_DOWN_RETRIES) →
        (periodicJobsThread K T (runTicks K ts s).1).2.filter isApiStateChanged
          = [apiStateChanged false ("http://" ++ T.apiHost ++ ":" ++ T.apiPort) s.uuid_str]
        ∧ (periodicJobsThread K T (runTicks K ts s).1).1.apiPortOnline = false)
    ∧ (¬ (issuesLongProbe K T (runTicks K ts s).1 = true ∧ T.isAPIAliveLong = .returns false
          ∧ (failedInARow (probeLog K ts s) : Int) + 1 = K.CVMWA_SESS_APIPORT_DOWN_RETRIES) →
        (periodicJobsThread K T (runTicks K ts s).1).2.filter isApiStateChanged = []
        ∧ (periodicJobsThread K T (runTicks K ts s).1).1.apiPortOnline = true)
    ∧ (issuesLongProbe K T (runTicks K ts s).1 = true → T.isAPIAliveLong = .returns true →
        (periodicJobsThread K T (runTicks K ts s).1).1.apiPortDownCounter = 0) := by
  obtain ⟨g1, g2, g3, _, g5, g6⟩ := online_run K ts s 0 [] hna (by simpa using hcounter)
    (by decide) (by simpa [failedInARow] using hdown) (by rw [hdown]; omega) hts hstay
  simp only [List.nil_append] at g5
  obtain ⟨hu, hs, b, hb⟩ := hT
  have hiss := issues_iff K T _ b g1 g2 hu hs hb
  have htick := tick_online K T _ b g1 g2 hu hs hb
  generalize runTicks K ts s = r at g1 g2 g3 g5 g6 hiss htick ⊢
  rw [hiss, htick, hb, ← g5, g3]
  refine ⟨rfl, ?_, ?_, ?_⟩
  · rintro ⟨hp, hf, hr⟩
    have hp2 : r.1.apiPortCounter + 1 > 10 := by simpa using hp
    have hbf : b = false := by simpa using hf.symm
    subst hbf
    rw [if_pos hp2, if_neg (by simp), if_pos (by omega)]
    simp [isApiStateChanged, longProbe, apiStateChanged]
  · intro hnot
    by_cases hp : r.1.apiPortCounter + 1 > 10
    · rw [if_pos hp]
      cases b
      · have hr : ¬ (r.1.apiPortDownCounter + 1 ≥ K.CVMWA_SESS_APIPORT_DOWN_RETRIES) := by
          intro hr
          exact hnot ⟨by simpa using hp, rfl, by omega⟩
        rw [if_neg (by simp), if_neg hr]
        simp [isApiStateChanged, longProbe, g2]
      · rw [if_pos rfl]
        simp [isApiStateChanged, longProbe, g2]
    · rw [if_neg hp]
      simp [isApiStateChanged, g2]
  · intro hp hf
    have hp2 : r.1.apiPortCounter + 1 > 10 := by simpa using hp
    have hbt : b = true := by simpa using hf.symm
    subst hbt
    rw [if_pos hp2, if_pos rfl]

theorem counter_step (K : Consts) (T : TickEnv) (s : Session) (c : Nat)
    (hna : s.isAborting = false) (hon : s.apiPortOnline = true)
    (hc : s.apiPortCounter = c) (hle : c ≤ 10) (hT : T.running K) :
    (periodicJobsThread K T s).1.isAborting = false
    ∧ (periodicJobsThread K T s).1.apiPortCounter = (((c + 1) % 11 : Nat) : Int) := by
  obtain ⟨hu, hs, b, hb⟩ := hT
  rw [tick_online K T s b hna hon hu hs hb]
  by_cases hp : s.apiPortCounter + 1 > 10
  · have hc10 : c = 10 := by rw [hc] at hp; omega
    subst hc10
    rw [if_pos hp]
    cases b
    · by_cases hr : s.apiPortDownCounter + 1 ≥ K.CVMWA_SESS_APIPORT_DOWN_RETRIES
      · rw [if_neg (by simp), if_pos hr]
        exact ⟨hna, rfl⟩
      · rw [if_neg (by simp), if_neg hr]
        exact ⟨hna, rfl⟩
    · rw [if_pos rfl]
      exact ⟨hna, rfl⟩
  · have hc10 : c < 10 := by rw [hc] at hp; omega
    rw [if_neg hp]
    refine ⟨hna, ?_⟩
    show s.apiPortCounter + 1 = _
    rw [hc, Nat.mod_eq_of_lt (by omega)]
    push_cast
    rfl

/-- A run of ticks of a running session that stays online: the tick counter
counts modulo 11. -/
theorem counter_run (K : Consts) (ts : List TickEnv) :
    ∀ (s : Session) (c : Nat),
      s.isAborting = false → s.apiPortCounter = c → c ≤ 10 →
      (∀ T ∈ ts, T.running K) → onlineThroughout K ts s = true →
      (runTicks K ts s).1.isAborting = false
      ∧ (runTicks K ts s).1.apiPortOnline = true
      ∧ (runTicks K ts s).1.apiPortCounter = (((c + ts.length) % 11 : Nat) : Int) := by
  induction ts with
  | nil =>
    intro s c hna hc hle _ hst
    refine ⟨hna, hst, ?_⟩
    simp only [runTicks, hc, List.length_nil, Nat.add_zero]
    rw [Nat.mod_eq_of_lt (by omega)]
  | cons T ts ih =>
    intro s c hna hc hle hts hst
    simp only [onlineThroughout, Bool.and_eq_true] at hst
    obtain ⟨hon, hst⟩ := hst
    obtain ⟨h1, h3⟩ := counter_step K T s c hna hon hc hle (hts T (List.mem_cons_self _ _))
    obtain ⟨g1, g2, g4⟩ := ih (periodicJobsThread K T s).1 ((c + 1) % 11) h1 h3
      (by omega) (fun T2 h => hts T2 (List.mem_cons_of_mem _ h)) hst
    refine ⟨g1, g2, ?_⟩
    show (runTicks K ts (periodicJobsThread K T s).1).1.apiPortCounter = _
    rw [g4]
    congr 1
    simp only [List.length_cons]
    omega

/-- C22 (amended). While the session stays running and its record says online,
starting with `apiPortCounter = 0` as set when the API went online, the monitor
issues the long probe on the 11th tick and on every 11th tick after it, and on
no other tick. -/
theorem long_probe_period (K : Consts) (ts : List TickEnv) (T : TickEnv) (s : Session)
    (hna : s.isAborting = false) (hcounter : s.apiPortCounter = 0)
    (hts : ∀ T2 ∈ ts, T2.running K) (hT : T.running K)
    (hstay : onlineThroughout K ts s = true) :
    issuesLongProbe K T (runTicks K ts s).1 = decide ((ts.length + 1) % 11 = 0) := by
  obtain ⟨g1, g2, g4⟩ := counter_run K ts s 0 hna (by simpa using hcounter) (by decide) hts
    hstay
  obtain ⟨hu, hs, b, hb⟩ := hT
  rw [issues_iff K T _ b g1 g2 hu hs hb, g4]
  simp only [Nat.zero_add, gt_iff_lt, decide_eq_decide]
  omega

/-! ## The reported state of the API port -/

theorem reported_stateChanged (args : List Variant) (id : String) :
    reported (.sendEvent "stateChanged" args id) = none := by
  cases args with
  | nil => rfl
  | cons a l => cases a <;> simp [reported]

theorem reported_stateVariables (id data : String) :
    reported (.stateVariables id data) = none := rfl

theorem reported_apiStateChanged (b : Bool) (url id : String) :
    reported (apiStateChanged b url id) = some b := by
  simp [reported, apiStateChanged]

/-- What a step reports about the API port: nothing when it leaves
`apiPortOnline` as it is, and the new value of `apiPortOnline` when it changes
it. -/
theorem step_reports (K : Consts) (st : SessionStep) (s : Session) :
    (st.run K s).1.uuid_str = s.uuid_str
    ∧ reportedStates ((st.run K s).2.filter (isSessionEmission s.uuid_str))
      = if (st.run K s).1.apiPortOnline = s.apiPortOnline then []
        else [(st.run K s).1.apiPortOnline] := by
  cases st with
  | openPush E eventID =>
    obtain ⟨h1, h2, h3⟩ := push_shape E eventID s
    refine ⟨h1, ?_⟩
    show reportedStates ((initialPush E eventID s).2.2.filter _) = if
      (initialPush E eventID s).2.1.apiPortOnline = _ then _
      else [(initialPush E eventID s).2.1.apiPortOnline]
    rw [if_pos h2]
    rcases h3 with ⟨h, _⟩ | h | ⟨info, h⟩ <;> rw [h] <;>
      simp only [reportedStates, List.filterMap_cons, List.filterMap_nil, reported_stateChanged,
        reported_stateVariables]
  | tick T =>
    obtain ⟨h1, _, h3⟩ := tick_shape K T s
    refine ⟨h1, ?_⟩
    show reportedStates ((processPeriodicJobs K T s).2.filter _) = if
      (processPeriodicJobs K T s).1.apiPortOnline = _ then _
      else [(processPeriodicJobs K T s).1.apiPortOnline]
    rcases h3 with ⟨h, ho⟩ | ⟨⟨url, h⟩, _, h0, _, ho⟩ | ⟨⟨url, h⟩, h0, ho⟩
    · rw [h, if_pos ho]; rfl
    · rw [h, ho, h0, if_neg (by simp)]
      simp only [reportedStates, List.filterMap_cons, List.filterMap_nil,
        reported_apiStateChanged]
    · rw [h, ho, h0, if_neg (by simp)]
      simp only [reportedStates, List.filterMap_cons, List.filterMap_nil,
        reported_apiStateChanged]
  | stateChanged C args =>
    obtain ⟨h1, _, h3⟩ := callback_shape K C args s
    refine ⟨h1, ?_⟩
    show reportedStates ((__cbStateChanged K C args s).2.filter _) = if
      (__cbStateChanged K C args s).1.apiPortOnline = _ then _
      else [(__cbStateChanged K C args s).1.apiPortOnline]
    rcases h3 with ⟨h, ho⟩ | ⟨⟨info, h⟩, ho⟩ | ⟨⟨info, url, h⟩, h0, ho⟩
    · rw [h, ho, if_pos rfl]; rfl
    · rw [h, ho, if_pos rfl]
      simp only [reportedStates, List.filterMap_cons, List.filterMap_nil,
        reported_stateChanged, reported_stateVariables]
    · rw [h, ho, h0, if_neg (by simp)]
      simp only [reportedStates, List.filterMap_cons, List.filterMap_nil,
        reported_stateChanged, reported_stateVariables, reported_apiStateChanged]

theorem getLast_getD_cons (b init : Bool) (l : List Bool) :
    (b :: l).getLast?.getD init = l.getLast?.getD b := by
  cases l with
  | nil => rfl
  | cons c l =>
    rw [List.getLast?_cons_cons]
    induction l generalizing c with
    | nil => rfl
    | cons d l ih => rw [List.getLast?_cons_cons]; exact (ih d).trans (by
        cases l with
        | nil => rfl
        | cons e l => rw [List.getLast?_cons_cons])

theorem sessionTrace_cons (K : Consts) (st : SessionStep) (rest : List SessionStep)
    (s : Session) :
    sessionTrace K (st :: rest) s
      = (st.run K s).2.filter (isSessionEmission s.uuid_str)
        ++ sessionTrace K rest (st.run K s).1 := by
  simp only [sessionTrace, runSteps, List.filter_append, (step_reports K st s).1]

/-- Over any steps the reports alternate, starting with the opposite of the
flag, and the flag ends as the last report says. -/
theorem run_reports (K : Consts) (steps : List SessionStep) :
    ∀ s : Session,
      alternates (!s.apiPortOnline) (reportedStates (sessionTrace K steps s)) = true
      ∧ (runSteps K steps s).1.apiPortOnline
          = lastReported s.apiPortOnline (sessionTrace K steps s) := by
  induction steps with
  | nil =>
    intro s
    simp [sessionTrace, runSteps, reportedStates, alternates, lastReported]
  | cons st rest ih =>
    intro s
    obtain ⟨h1, h2⟩ := ih (st.run K s).1
    have hrep := (step_reports K st s).2
    rw [sessionTrace_cons]
    simp only [reportedStates, lastReported, List.filterMap_append] at h1 h2 hrep ⊢
    show _ ∧ (runSteps K rest (st.run K s).1).1.apiPortOnline = _
    rw [hrep, h2]
    by_cases hsame : (st.run K s).1.apiPortOnline = s.apiPortOnline
    · rw [if_pos hsame, List.nil_append, ← hsame]
      exact ⟨h1, rfl⟩
    · rw [if_neg hsame, List.singleton_append, getLast_getD_cons]
      refine ⟨?_, rfl⟩
      have hflip : (st.run K s).1.apiPortOnline = !s.apiPortOnline := by
        cases h : (st.run K s).1.apiPortOnline <;> cases h' : s.apiPortOnline <;>
          simp_all
      simp only [alternates, Bool.and_eq_true, beq_iff_eq]
      refine ⟨hflip, ?_⟩
      rw [← hflip]
      exact h1

/-- C24. Starting from a record with `apiPortOnline = false`, after any steps
(initial push, monitor ticks, `stateChanged` callbacks) `apiPortOnline` is
the boolean carried by the last `apiStateChanged` event of the session, and
false when there was none; the `apiStateChanged` events alternate
true, false, true, ... beginning with true; and no step emits more than one
`apiStateChanged`. -/
theorem online_flag_reported (K : Consts) (steps : List SessionStep) (s : Session)
    (hoffline : s.apiPortOnline = false) :
    (runSteps K steps s).1.apiPortOnline = lastReported false (sessionTrace K steps s)
    ∧ alternates true (reportedStates (sessionTrace K steps s)) = true
    ∧ ∀ (st : SessionStep) (s2 : Session),
        (reportedStates ((st.run K s2).2.filter (isSessionEmission s2.uuid_str))).length ≤ 1 := by
  obtain ⟨h1, h2⟩ := run_reports K steps s
  rw [hoffline] at h1 h2
  refine ⟨h2, h1, fun st s2 => ?_⟩
  rw [(step_reports K st s2).2]
  split <;> simp

/-! ## The failure callback -/

/-- Instance of C21: with two retries, 21 ticks with a silent API port hold
one failed long probe; the 22nd tick issues the second, which fails, and the
monitor reports the port offline. -/
theorem offline_after_failed_probes_witness :
    onlineThroughout sampleConsts (List.replicate 21 tickSilent) onlineSession = true
    ∧ probeLog sampleConsts (List.replicate 21 tickSilent) onlineSession = [false]
    ∧ (periodicJobsThread sampleConsts tickSilent
        (runTicks sampleConsts (List.replicate 21 tickSilent) onlineSession).1).2.filter
          isApiStateChanged
      = [apiStateChanged false "http://127.0.0.1:80" "1"] :=
  have hts : ∀ T2 ∈ List.replicate 21 tickSilent, T2.running sampleConsts :=
    fun T2 h => by rw [List.eq_of_mem_replicate h]; exact ⟨rfl, rfl, false, rfl⟩
  ⟨by decide, by decide,
    ((offline_after_failed_probes sampleConsts (List.replicate 21 tickSilent) tickSilent
      onlineSession rfl rfl rfl (by decide) hts ⟨rfl, rfl, false, rfl⟩ (by decide)).2.1
      ⟨by decide, rfl, by decide⟩).1⟩

/-- Counterexample to C22 as stated: starting with `apiPortCounter = 0` on a
running session that is online, the 10th tick issues no long probe; the 11th
tick does. -/
theorem no_probe_on_tenth_tick :
    onlineSession.apiPortCounter = 0
    ∧ onlineThroughout sampleConsts (List.replicate 10 tickAlive) onlineSession = true
    ∧ issuesLongProbe sampleConsts tickAlive
        (runTicks sampleConsts (List.replicate 9 tickAlive) onlineSession).1 = false
    ∧ issuesLongProbe sampleConsts tickAlive
        (runTicks sampleConsts (List.replicate 10 tickAlive) onlineSession).1 = true := by
  decide

/-- Instance of C22 as amended: the 11th tick issues the long probe. -/
theorem long_probe_period_witness :
    onlineThroughout sampleConsts (List.replicate 10 tickAlive) onlineSession = true
    ∧ issuesLongProbe sampleConsts tickAlive
        (runTicks sampleConsts (List.replicate 10 tickAlive) onlineSession).1
      = decide (((List.replicate 10 tickAlive).length + 1) % 11 = 0) :=
  have hts : ∀ T2 ∈ List.replicate 10 tickAlive, T2.running sampleConsts :=
    fun T2 h => by rw [List.eq_of_mem_replicate h]; exact ⟨rfl, rfl, true, rfl⟩
  ⟨by decide, long_probe_period sampleConsts (List.replicate 10 tickAlive) tickAlive
    onlineSession rfl rfl hts ⟨rfl, rfl, true, rfl⟩ (by decide)⟩

/-- The reading of line 393 for a flag in another bit: with
`HFL_NO_VIRTUALIZATION = 2` the condition `failureFlags & (2 != 0)` tests the
lowest bit of `failureFlags`, so the callback does not call
`hvSession->stop()` for `failureFlags = 2` and calls it for
`failureFlags = 1`. -/
theorem cbFailure_second_bit :
    Int.land 2 secondBitConsts.HFL_NO_VIRTUALIZATION ≠ 0
    ∧ __cbFailure secondBitConsts [.int 2] sampleSession
      = (sampleSession, [.sendEvent "failure" [.int 2] "1"])
    ∧ Int.land 1 secondBitConsts.HFL_NO_VIRTUALIZATION = 0
    ∧ __cbFailure secondBitConsts [.int 1] sampleSession
      = (sampleSession, [.sendEvent "failure" [.int 1] "1", .call (.hvSession "1" .stop)]) := by
  decide

/-- Instance of C24 on the steps of `flappingSteps`: the port goes online,
offline and online again, and the record ends online. -/
theorem online_flag_reported_witness :
    sampleSession.apiPortOnline = false
    ∧ reportedStates (sessionTrace sampleConsts flappingSteps sampleSession)
      = [true, false, true]
    ∧ (runSteps sampleConsts flappingSteps sampleSession).1.apiPortOnline
      = lastReported false (sessionTrace sampleConsts flappingSteps sampleSession) :=
  ⟨rfl, by decide,
    (online_flag_reported sampleConsts flappingSteps sampleSession rfl).1⟩

end CernVMWebAPI
